import Mathlib

/-! Balance schedulers of the placement driver (`pd_server/schedulers`).

A shallow embedding of `balance_leader.go` and `balance_region.go`.

* Store and region ids (`uint64`) are natural numbers; no arithmetic is done on them.
* `int64` sizes are integers, and every `int64` addition and conversion is wrapped
  by `wrapInt64`.
* `float64` is a type parameter `F`; the few float operations the schedulers
  perform are the fields of `Float64Ops`.
* A Go pointer that may be `nil` is an `Option`.  The getters generated for protobuf
  messages (`Peer.GetStoreId`) accept `nil` and answer the zero value.  Reading a
  field of a `nil` `*core.StoreInfo` stops the program: functions that can reach
  such a read return `Except Fault`.
* The collaborators of package `schedule` (selector, filters, replica checker,
  operator builders), the cluster view and `shouldBalance` are parameters.
* Counters and log lines do not influence results and are left out, except that the
  arguments of a log call are still evaluated.
* The cluster picks regions at random; its answers are given as a stream indexed
  by the iteration of the retry loop that asks.
-/

namespace PD

/-! ## Machine numbers -/

/-- Value of an integer once stored in a Go `int64` (two's complement, 64 bits). -/
def wrapInt64 (x : Int) : Int := (x + 2 ^ 63) % 2 ^ 64 - 2 ^ 63

/-- The float64 operations that the two schedulers perform. -/
structure Float64Ops (F : Type) where
  /-- Conversion `float64(x)` of an `int64`. -/
  ofInt64 : Int → F
  /-- Product of two floats. -/
  mul : F → F → F
  /-- Comparison `==` of two floats. -/
  beq : F → F → Bool
  /-- The constant written `1e-6` in the source. -/
  lit1em6 : F

/-! ## Data model (packages `core`, `metapb`, `schedule`, `cache`) -/

/-- The part of `core.StoreInfo` that the schedulers read. -/
structure StoreInfo (F : Type) where
  Id : Nat
  LeaderSize : Int
  RegionSize : Int
  LeaderWeight : F
  RegionWeight : F
deriving DecidableEq, Repr

/-- A replica of a region: `metapb.Peer`. -/
structure Peer where
  Id : Nat
  StoreId : Nat
deriving DecidableEq, Repr

/-- Getter `(*metapb.Peer).GetStoreId`: the zero value on a nil peer. -/
def Peer.GetStoreId : Option Peer → Nat
  | some p => p.StoreId
  | none => 0

/-- The part of `core.RegionInfo` that the schedulers read. -/
structure RegionInfo where
  Id : Nat
  Peers : List Peer
  Leader : Option Peer
  ApproximateSize : Int
deriving DecidableEq, Repr

/-- Modelled from the spec: `RegionInfo.GetStorePeer` of package `core` is not among
the sources; it is the region's peer hosted on the given store, nil when the region
has no peer there. -/
def RegionInfo.GetStorePeer (r : RegionInfo) (storeID : Nat) : Option Peer :=
  r.Peers.find? (fun p => p.StoreId == storeID)

/-- A store hosts a follower of the region: one of the region's peers, other than
the leader peer, lives on it. -/
def RegionInfo.hostsFollower (r : RegionInfo) (storeID : Nat) : Prop :=
  ∃ p ∈ r.Peers, p.StoreId = storeID ∧ r.Leader ≠ some p

/-- The region is led from the store: it has a leader peer and that peer is on it. -/
def RegionInfo.ledFrom (r : RegionInfo) (storeID : Nat) : Prop :=
  ∃ p, r.Leader = some p ∧ p.StoreId = storeID

/-- Pending effect of the operators in flight on one store. -/
structure StoreInfluence where
  LeaderSize : Int
  RegionSize : Int
deriving DecidableEq, Repr

/-- The value `schedule.OpInfluence`, read through `GetStoreInfluence`. -/
abbrev OpInfluence := Nat → StoreInfluence

/-- One step of an operator. -/
inductive OperatorStep where
  | TransferLeader (FromStore ToStore : Nat)
  | AddPeer (ToStore PeerID : Nat)
  | RemovePeer (FromStore : Nat)
deriving DecidableEq, Repr

/-- Bit mask of operator kinds. -/
abbrev OperatorKind := Nat

/-- Modelled from the spec: the kind flags of package `schedule` are not among the
sources; one bit each, in the order the data model lists them. -/
def OpLeader : OperatorKind := 1
/-- Kind flag `Region`. -/
def OpRegion : OperatorKind := 2
/-- Kind flag `Replica`. -/
def OpReplica : OperatorKind := 4
/-- Kind flag `Balance`. -/
def OpBalance : OperatorKind := 8

/-- An operator: description, region, kind mask and ordered steps. -/
structure Operator where
  desc : String
  regionID : Nat
  kind : OperatorKind
  steps : List OperatorStep
deriving DecidableEq, Repr

/-- Modelled from the spec: `schedule.NewOperator` is not among the sources; it
records its arguments in a new operator. -/
def NewOperator (desc : String) (regionID : Nat) (kind : OperatorKind)
    (steps : List OperatorStep) : Operator :=
  { desc := desc, regionID := regionID, kind := kind, steps := steps }

/-- Modelled from the spec: the taint cache (`cache.TTLUint64`) is not among the
sources; a set of store ids.  Expiry of entries is driven by the clock and does
not happen inside one call of `Schedule`. -/
structure TaintCache where
  ids : List Nat
deriving DecidableEq, Repr

/-- Method `Put` of the taint cache. -/
def TaintCache.Put (c : TaintCache) (id : Nat) : TaintCache := { ids := id :: c.ids }

/-- Method `Clear` of the taint cache. -/
def TaintCache.Clear (_c : TaintCache) : TaintCache := { ids := [] }

/-- Method `Exists` of the taint cache. -/
def TaintCache.Exists (c : TaintCache) (id : Nat) : Bool := decide (id ∈ c.ids)

/-- A filter of the pipeline: either predicate, when true, disqualifies the store. -/
structure Filter (F : Type) where
  FilterSource : StoreInfo F → Bool
  FilterTarget : StoreInfo F → Bool

/-- The view `schedule.Cluster` as far as the schedulers consult it.  The first
argument of the two random picks is the iteration of the retry loop that asks. -/
structure Cluster (F : Type) where
  GetStores : List (StoreInfo F)
  GetStore : Nat → Option (StoreInfo F)
  GetRegionStores : RegionInfo → List (StoreInfo F)
  GetFollowerStores : RegionInfo → List (StoreInfo F)
  RandLeaderRegion : Nat → Nat → Option RegionInfo
  RandFollowerRegion : Nat → Nat → Option RegionInfo
  IsRegionHot : Nat → Bool
  GetMaxReplicas : Int
  GetLocationLabels : List String
  GetTolerantSizeRatio : F
  GetLeaderScheduleLimit : Nat
  GetRegionScheduleLimit : Nat

/-- The operator limiter `schedule.Limiter` held by the base scheduler: for each
kind, the number of operators of that kind in flight (`uint64`). -/
structure Limiter where
  OperatorCount : OperatorKind → Nat

/-- The balance selector built by `schedule.NewBalanceSelector`.  Its filter list
holds a `CacheFilter` on the scheduler's taint cache, so each selection reads the
cache as it is at that moment. -/
structure Selector (F : Type) where
  SelectSource : TaintCache → Cluster F → List (StoreInfo F) → Option (StoreInfo F)
  SelectTarget : TaintCache → Cluster F → List (StoreInfo F) → Option (StoreInfo F)

/-- What the schedulers call outside their own two files. -/
structure Deps (F : Type) extends Float64Ops F where
  /-- The balance rule of `schedulers/utils.go`. -/
  shouldBalance : Int → F → Int → F → F → Bool
  /-- Builder `schedule.NewDistinctScoreFilter(labels, stores, source)`. -/
  NewDistinctScoreFilter : List String → List (StoreInfo F) → Option (StoreInfo F) → Filter F
  /-- Method `SelectBestReplacedPeerToAddReplica` of a replica checker made for the
  cluster. -/
  SelectBestReplacedPeerToAddReplica :
    Cluster F → RegionInfo → Option Peer → Filter F → Option Peer
  /-- Builder `schedule.CreateMovePeerOperator(desc, cluster, region, kind, oldStore,
  newStore, peerID)`. -/
  CreateMovePeerOperator :
    String → Cluster F → RegionInfo → OperatorKind → Nat → Nat → Nat → Operator

/-- Why a run stops abnormally. -/
inductive Fault where
  | nilDereference
deriving DecidableEq, Repr

deriving instance DecidableEq for Except

/-- Read through a pointer: a fault when it is nil. -/
def deref {α : Type} : Option α → Except Fault α
  | some a => .ok a
  | none => .error Fault.nilDereference

/-! ## balance_leader.go -/

/-- Retry limit of the balance-leader loop (`balanceLeaderRetryLimit`). -/
def balanceLeaderRetryLimit : Nat := 10

/-- The struct `balanceLeaderScheduler`: the limiter of its base scheduler, its
selector and its taint cache. -/
structure balanceLeaderScheduler (F : Type) where
  limiter : Limiter
  selector : Selector F
  taintStores : TaintCache

namespace balanceLeaderScheduler

variable {F : Type}

/-- Method `IsScheduleAllowed` (balance_leader.go, lines 67-69). -/
def IsScheduleAllowed (l : balanceLeaderScheduler F) (cluster : Cluster F) : Bool :=
  decide (l.limiter.OperatorCount OpLeader < cluster.GetLeaderScheduleLimit)

/-- Function `createOperator` (balance_leader.go, lines 159-181).  The result is the
returned slice, `[]` standing for nil. -/
def createOperator (d : Deps F) (region : RegionInfo) (source target : StoreInfo F)
    (cluster : Cluster F) (opInfluence : OpInfluence) : List Operator :=
  let sourceSize := wrapInt64 (source.LeaderSize + wrapInt64 (opInfluence source.Id).LeaderSize)
  let targetSize := wrapInt64 (target.LeaderSize + wrapInt64 (opInfluence target.Id).LeaderSize)
  let regionSize := d.mul (d.ofInt64 region.ApproximateSize) cluster.GetTolerantSizeRatio
  if !d.shouldBalance sourceSize source.LeaderWeight targetSize target.LeaderWeight regionSize then
    []
  else
    let step := OperatorStep.TransferLeader (Peer.GetStoreId region.Leader) target.Id
    [NewOperator "balanceLeader" region.Id (OpBalance ||| OpLeader) [step]]

/-- Function `transferLeaderOut` (lines 123-139), asked in iteration `i`. -/
def transferLeaderOut (d : Deps F) (l : balanceLeaderScheduler F) (i : Nat)
    (source : StoreInfo F) (cluster : Cluster F) (opInfluence : OpInfluence) : List Operator :=
  match cluster.RandLeaderRegion i source.Id with
  | none => []
  | some region =>
    match l.selector.SelectTarget l.taintStores cluster (cluster.GetFollowerStores region) with
    | none => []
    | some target => createOperator d region source target cluster opInfluence

/-- Function `transferLeaderIn` (lines 141-157), asked in iteration `i`. -/
def transferLeaderIn (d : Deps F) (_l : balanceLeaderScheduler F) (i : Nat)
    (target : StoreInfo F) (cluster : Cluster F) (opInfluence : OpInfluence) : List Operator :=
  match cluster.RandFollowerRegion i target.Id with
  | none => []
  | some region =>
    match cluster.GetStore (Peer.GetStoreId region.Leader) with
    | none => []
    | some source => createOperator d region source target cluster opInfluence

/-- The retry loop of `Schedule` (lines 99-111): `n` iterations are left and the
next one is iteration `i`. -/
def retry (d : Deps F) (l : balanceLeaderScheduler F) (source target : StoreInfo F)
    (cluster : Cluster F) (opInfluence : OpInfluence) : Nat → Nat → List Operator
  | 0, _ => []
  | n + 1, i =>
    match transferLeaderOut d l i source cluster opInfluence with
    | op :: ops => op :: ops
    | [] =>
      match transferLeaderIn d l i target cluster opInfluence with
      | op :: ops => op :: ops
      | [] => retry d l source target cluster opInfluence n (i + 1)

/-- Method `Schedule` (lines 71-121): the returned operators and the taint cache
of the scheduler afterwards. -/
def Schedule (d : Deps F) (l : balanceLeaderScheduler F) (cluster : Cluster F)
    (opInfluence : OpInfluence) : List Operator × TaintCache :=
  let stores := cluster.GetStores
  match l.selector.SelectSource l.taintStores cluster stores,
        l.selector.SelectTarget l.taintStores cluster stores with
  | some source, some target =>
    match retry d l source target cluster opInfluence balanceLeaderRetryLimit 0 with
    | op :: ops => (op :: ops, l.taintStores)
    | [] => ([], (l.taintStores.Put source.Id).Put target.Id)
  | _, _ => ([], l.taintStores.Clear)

end balanceLeaderScheduler

/-! ## balance_region.go -/

/-- Retry limit of the balance-region loop (`balanceRegionRetryLimit`). -/
def balanceRegionRetryLimit : Nat := 10

/-- The struct `balanceRegionScheduler`: the limiter of its base scheduler, its
selector and its taint cache. -/
structure balanceRegionScheduler (F : Type) where
  limiter : Limiter
  selector : Selector F
  taintStores : TaintCache

namespace balanceRegionScheduler

variable {F : Type}

/-- Method `IsScheduleAllowed` (balance_region.go, lines 69-71). -/
def IsScheduleAllowed (s : balanceRegionScheduler F) (cluster : Cluster F) : Bool :=
  decide (s.limiter.OperatorCount OpRegion < cluster.GetRegionScheduleLimit)

/-- Function `transferPeer` (balance_region.go, lines 135-170).  The log call of
line 152 reads the id of `source` and of `target`, both of which may be nil. -/
def transferPeer (d : Deps F) (cluster : Cluster F) (region : RegionInfo)
    (oldPeer : Option Peer) (opInfluence : OpInfluence) : Except Fault (Option Operator) :=
  let stores := cluster.GetRegionStores region
  let source? := cluster.GetStore (Peer.GetStoreId oldPeer)
  let scoreGuard := d.NewDistinctScoreFilter cluster.GetLocationLabels stores source?
  match d.SelectBestReplacedPeerToAddReplica cluster region oldPeer scoreGuard with
  | none => .ok none
  | some newPeer =>
    let target? := cluster.GetStore (Peer.GetStoreId (some newPeer))
    match deref source?, deref target? with
    | .ok source, .ok target =>
      let sourceSize :=
        wrapInt64 (source.RegionSize + wrapInt64 (opInfluence source.Id).RegionSize)
      let targetSize :=
        wrapInt64 (target.RegionSize + wrapInt64 (opInfluence target.Id).RegionSize)
      let regionSize := d.mul (d.ofInt64 region.ApproximateSize) cluster.GetTolerantSizeRatio
      if !d.shouldBalance sourceSize source.RegionWeight targetSize target.RegionWeight
          regionSize then
        .ok none
      else if decide (sourceSize < 6144) && d.beq source.RegionWeight d.lit1em6 then
        .ok none
      else
        .ok (some (d.CreateMovePeerOperator "balance-region" cluster region OpBalance
          (Peer.GetStoreId oldPeer) (Peer.GetStoreId (some newPeer)) newPeer.Id))
    | .error e, _ => .error e
    | _, .error e => .error e

/-- The region examined in iteration `i` (lines 95-98): a follower region of the
store, else a leader region. -/
def pickRegion (cluster : Cluster F) (i : Nat) (sourceID : Nat) : Option RegionInfo :=
  match cluster.RandFollowerRegion i sourceID with
  | some region => some region
  | none => cluster.RandLeaderRegion i sourceID

/-- One pass through the body of the loop of `Schedule` (lines 95-124); `none` is
a pass that ends without an operator. -/
def attempt (d : Deps F) (source : StoreInfo F) (cluster : Cluster F)
    (opInfluence : OpInfluence) (i : Nat) : Except Fault (Option Operator) :=
  match pickRegion cluster i source.Id with
  | none => .ok none
  | some region =>
    if (region.Peers.length : Int) ≠ cluster.GetMaxReplicas then .ok none
    else if cluster.IsRegionHot region.Id then .ok none
    else
      let oldPeer := region.GetStorePeer source.Id
      transferPeer d cluster region oldPeer opInfluence

/-- The retry loop of `Schedule` (lines 94-125): `n` iterations are left and the
next one is iteration `i`. -/
def retry (d : Deps F) (source : StoreInfo F) (cluster : Cluster F)
    (opInfluence : OpInfluence) : Nat → Nat → Except Fault (Option Operator)
  | 0, _ => .ok none
  | n + 1, i =>
    match attempt d source cluster opInfluence i with
    | .error e => .error e
    | .ok (some op) => .ok (some op)
    | .ok none => retry d source cluster opInfluence n (i + 1)

/-- Method `Schedule` (lines 73-133): the returned operators and the taint cache
of the scheduler afterwards, or the fault that stopped the call. -/
def Schedule (d : Deps F) (s : balanceRegionScheduler F) (cluster : Cluster F)
    (opInfluence : OpInfluence) : Except Fault (List Operator × TaintCache) :=
  let stores := cluster.GetStores
  match s.selector.SelectSource s.taintStores cluster stores with
  | none => .ok ([], s.taintStores.Clear)
  | some source =>
    match retry d source cluster opInfluence balanceRegionRetryLimit 0 with
    | .error e => .error e
    | .ok (some op) => .ok ([op], s.taintStores)
    | .ok none => .ok ([], s.taintStores.Put source.Id)

end balanceRegionScheduler

/-! ## Contracts of the collaborators -/

section Contracts

variable {F : Type}

/-- The selector returns one of the stores it was given. -/
def Selector.Sound (sel : Selector F) : Prop :=
  ∀ taint cluster stores s,
    (sel.SelectSource taint cluster stores = some s → s ∈ stores) ∧
    (sel.SelectTarget taint cluster stores = some s → s ∈ stores)

/-- The selector's `CacheFilter` rejects the stores of the taint cache, and the
selector returns only stores that pass it. -/
def Selector.RespectsCache (sel : Selector F) : Prop :=
  ∀ taint cluster stores s,
    (sel.SelectSource taint cluster stores = some s → taint.Exists s.Id = false) ∧
    (sel.SelectTarget taint cluster stores = some s → taint.Exists s.Id = false)

/-- The store lists of the view agree with its lookup by id. -/
def Cluster.Consistent (c : Cluster F) : Prop :=
  (∀ s ∈ c.GetStores, c.GetStore s.Id = some s) ∧
  (∀ r, ∀ s ∈ c.GetFollowerStores r, c.GetStore s.Id = some s)

/-- `RandLeaderRegion(s)` answers with a region led from `s`. -/
def Cluster.LeaderPicksLed (c : Cluster F) : Prop :=
  ∀ i id r, c.RandLeaderRegion i id = some r → r.ledFrom id

/-- `RandFollowerRegion(t)` answers with a region that has a follower on `t`. -/
def Cluster.FollowerPicksFollow (c : Cluster F) : Prop :=
  ∀ i id r, c.RandFollowerRegion i id = some r → r.hostsFollower id

/-- `GetFollowerStores(r)` lists only stores that host a follower of `r`. -/
def Cluster.FollowerStoresFollow (c : Cluster F) : Prop :=
  ∀ r, ∀ s ∈ c.GetFollowerStores r, r.hostsFollower s.Id

/-- Every region picked for a store has a peer on that store. -/
def Cluster.PicksHostPeer (c : Cluster F) : Prop :=
  ∀ i id r, (c.RandFollowerRegion i id = some r ∨ c.RandLeaderRegion i id = some r) →
    ∃ p ∈ r.Peers, p.StoreId = id

end Contracts

/-! ## A concrete instance over the rationals

Floats are read as exact rationals here.  The instance follows the mock cluster
of the test files: stores and regions are lists, and a random pick is the first
region that qualifies. -/

/-- Exact rational arithmetic in the role of float64. -/
def ratOps : Float64Ops ℚ where
  ofInt64 := fun x => (x : ℚ)
  mul := fun a b => a * b
  beq := fun a b => decide (a = b)
  lit1em6 := 1 / 1000000

/-- Modelled from the spec: `shouldBalance` (`schedulers/utils.go`) is not among the
sources.  The balance rule of section 4.2 in the form that agrees with the nine rows
pinned by `TestShouldBalance`: a target of weight 0 is never loaded, a source of
weight 0 is always drained, and otherwise the weighted source size after the move
must stay above the weighted target size after the move. -/
def shouldBalance (sourceSize : Int) (sourceWeight : ℚ) (targetSize : Int)
    (targetWeight : ℚ) (moveSize : ℚ) : Bool :=
  if targetWeight = 0 then false
  else if sourceWeight = 0 then true
  else decide (((sourceSize : ℚ) - moveSize) / sourceWeight
    > ((targetSize : ℚ) + moveSize) / targetWeight)

/-- Modelled from the spec: leader score of a store, `leaderSize / leaderWeight`. -/
def leaderScore (s : StoreInfo ℚ) : ℚ := (s.LeaderSize : ℚ) / s.LeaderWeight

/-- Modelled from the spec: region score of a store, `regionSize / regionWeight`. -/
def regionScore (s : StoreInfo ℚ) : ℚ := (s.RegionSize : ℚ) / s.RegionWeight

/-- The best store of a list for a comparison `better`. -/
def pickBest (better : StoreInfo ℚ → StoreInfo ℚ → Bool) :
    List (StoreInfo ℚ) → Option (StoreInfo ℚ)
  | [] => none
  | s :: rest =>
    match pickBest better rest with
    | none => some s
    | some r => if better r s then some r else some s

/-- Modelled from the spec: the balance selector of section 4.3 over a pipeline in
which only the `CacheFilter` rejects stores; highest score as source, lowest as
target, ties to the smaller id. -/
def balanceSelector (score : StoreInfo ℚ → ℚ) : Selector ℚ where
  SelectSource := fun taint _ stores =>
    pickBest (fun a b => decide (score a > score b ∨ (score a = score b ∧ a.Id < b.Id)))
      (stores.filter fun s => !taint.Exists s.Id)
  SelectTarget := fun taint _ stores =>
    pickBest (fun a b => decide (score a < score b ∨ (score a = score b ∧ a.Id < b.Id)))
      (stores.filter fun s => !taint.Exists s.Id)

/-- The peer is a follower of the region. -/
def isFollower (r : RegionInfo) (p : Peer) : Bool := decide (r.Leader ≠ some p)

/-- A cluster view made of a list of stores and a list of regions. -/
def mockCluster (stores : List (StoreInfo ℚ)) (regions : List RegionInfo)
    (maxReplicas : Int) : Cluster ℚ where
  GetStores := stores
  GetStore := fun id => stores.find? fun s => s.Id == id
  GetRegionStores := fun r => stores.filter fun s => r.Peers.any fun p => p.StoreId == s.Id
  GetFollowerStores := fun r =>
    stores.filter fun s => r.Peers.any fun p => p.StoreId == s.Id && isFollower r p
  RandLeaderRegion := fun _ id =>
    regions.find? fun r => r.Leader.isSome && Peer.GetStoreId r.Leader == id
  RandFollowerRegion := fun _ id =>
    regions.find? fun r => r.Peers.any fun p => p.StoreId == id && isFollower r p
  IsRegionHot := fun _ => false
  GetMaxReplicas := maxReplicas
  GetLocationLabels := []
  GetTolerantSizeRatio := 5 / 2
  GetLeaderScheduleLimit := 4
  GetRegionScheduleLimit := 4

/-- Modelled from the spec: `SelectBestReplacedPeerToAddReplica` of the replica
checker (package `schedule`) is not among the sources.  It picks a new store for the
peer (section 4.5): a store of the cluster that hosts no peer of the region
(invariant 2 of section 8) and passes the filter handed in; among these the best
target is the one of lowest region score, ties to the smaller id (section 4.3).  The
tests of the checker agree: in `TestBasic` the peer of store 3 is replaced on store 1
although store 4, which hosts a peer of the region, has the lowest region score, and
in `TestReplicas3` a region with a peer on every store gets no operator, for "we have
no other stores".  The checker is built without the scheduler's taint cache, as in
`transferPeer`. -/
def mockSelectBestReplacedPeer (cluster : Cluster ℚ) (region : RegionInfo)
    (_oldPeer : Option Peer) (guard : Filter ℚ) : Option Peer :=
  match pickBest
      (fun a b => decide (regionScore a < regionScore b ∨
        (regionScore a = regionScore b ∧ a.Id < b.Id)))
      (cluster.GetStores.filter fun s =>
        !(region.Peers.any fun p => p.StoreId == s.Id) && !guard.FilterTarget s) with
  | none => none
  | some s => some { Id := 1000 + s.Id, StoreId := s.Id }

/-- Modelled from the spec: `schedule.CreateMovePeerOperator` is not among the
sources; a move-peer operator is AddPeer(new), TransferLeader when the leader is
the peer that moves, RemovePeer(old).  The spec leaves the destination of that
transfer open; the new store is taken here. -/
def mockCreateMovePeerOperator (desc : String) (_cluster : Cluster ℚ) (region : RegionInfo)
    (kind : OperatorKind) (oldStore newStore peerID : Nat) : Operator :=
  if region.Leader.isSome && Peer.GetStoreId region.Leader == oldStore then
    NewOperator desc region.Id (kind ||| OpRegion ||| OpLeader)
      [OperatorStep.AddPeer newStore peerID, OperatorStep.TransferLeader oldStore newStore,
        OperatorStep.RemovePeer oldStore]
  else
    NewOperator desc region.Id (kind ||| OpRegion)
      [OperatorStep.AddPeer newStore peerID, OperatorStep.RemovePeer oldStore]

/-- The collaborators of the instance. -/
def mockDeps : Deps ℚ where
  toFloat64Ops := ratOps
  shouldBalance := shouldBalance
  NewDistinctScoreFilter := fun _ _ _ =>
    { FilterSource := fun _ => false, FilterTarget := fun _ => false }
  SelectBestReplacedPeerToAddReplica := mockSelectBestReplacedPeer
  CreateMovePeerOperator := mockCreateMovePeerOperator

/-- A store of weight 1 whose leader size and region size are both `size`. -/
def mkStore (id : Nat) (size : Int) : StoreInfo ℚ :=
  { Id := id, LeaderSize := size, RegionSize := size, LeaderWeight := 1, RegionWeight := 1 }

/-- A region of size 1 led from `leader` with followers on the stores `followers`;
the peer on store `s` has id `s`. -/
def mkRegion (id leader : Nat) (followers : List Nat) : RegionInfo :=
  { Id := id
    Peers := (leader :: followers).map fun s => { Id := s, StoreId := s }
    Leader := some { Id := leader, StoreId := leader }
    ApproximateSize := 1 }

/-- No operator is in flight. -/
def noInfluence : OpInfluence := fun _ => { LeaderSize := 0, RegionSize := 0 }

/-! ## Named parts of the two schedulers -/

namespace balanceLeaderScheduler

variable {F : Type}

/-- The operator that `createOperator` builds for a region and a target. -/
def leaderOperator (region : RegionInfo) (target : StoreInfo F) : Operator :=
  NewOperator "balanceLeader" region.Id (OpBalance ||| OpLeader)
    [OperatorStep.TransferLeader (Peer.GetStoreId region.Leader) target.Id]

/-- The balance rule as `createOperator` evaluates it on leader sizes. -/
def leaderRule (d : Deps F) (region : RegionInfo) (source target : StoreInfo F)
    (cluster : Cluster F) (opInfluence : OpInfluence) : Bool :=
  d.shouldBalance
    (wrapInt64 (source.LeaderSize + wrapInt64 (opInfluence source.Id).LeaderSize))
    source.LeaderWeight
    (wrapInt64 (target.LeaderSize + wrapInt64 (opInfluence target.Id).LeaderSize))
    target.LeaderWeight
    (d.mul (d.ofInt64 region.ApproximateSize) cluster.GetTolerantSizeRatio)

end balanceLeaderScheduler

namespace balanceRegionScheduler

variable {F : Type}

/-- The balance rule as `transferPeer` evaluates it on region sizes. -/
def regionRule (d : Deps F) (region : RegionInfo) (source target : StoreInfo F)
    (cluster : Cluster F) (opInfluence : OpInfluence) : Bool :=
  d.shouldBalance
    (wrapInt64 (source.RegionSize + wrapInt64 (opInfluence source.Id).RegionSize))
    source.RegionWeight
    (wrapInt64 (target.RegionSize + wrapInt64 (opInfluence target.Id).RegionSize))
    target.RegionWeight
    (d.mul (d.ofInt64 region.ApproximateSize) cluster.GetTolerantSizeRatio)

/-- The extra test of lines 163-167: a source below 6144 whose region weight is
`1e-6`. -/
def smallSource (d : Deps F) (source : StoreInfo F) (opInfluence : OpInfluence) : Bool :=
  decide (wrapInt64 (source.RegionSize + wrapInt64 (opInfluence source.Id).RegionSize) < 6144)
    && d.beq source.RegionWeight d.lit1em6

/-- The move-peer operator of line 169. -/
def movePeerOperator (d : Deps F) (cluster : Cluster F) (region : RegionInfo)
    (oldStore : Nat) (newPeer : Peer) : Operator :=
  d.CreateMovePeerOperator "balance-region" cluster region OpBalance oldStore
    newPeer.StoreId newPeer.Id

/-- The replacement peer that `transferPeer` asks the replica checker for. -/
def replacement (d : Deps F) (cluster : Cluster F) (region : RegionInfo)
    (oldPeer : Option Peer) : Option Peer :=
  d.SelectBestReplacedPeerToAddReplica cluster region oldPeer
    (d.NewDistinctScoreFilter cluster.GetLocationLabels (cluster.GetRegionStores region)
      (cluster.GetStore (Peer.GetStoreId oldPeer)))

end balanceRegionScheduler

/-! ## Sample inputs -/

/-- A limiter that counts `n` operators in flight for every kind. -/
def constLimiter (n : Nat) : Limiter := { OperatorCount := fun _ => n }

/-- A balance-leader scheduler over the instance with the given tainted stores and
no operator in flight. -/
def leaderScheduler (taint : List Nat) : balanceLeaderScheduler ℚ :=
  { limiter := constLimiter 0, selector := balanceSelector leaderScore,
    taintStores := { ids := taint } }

/-- A balance-region scheduler over the instance with the given tainted stores and
no operator in flight. -/
def regionScheduler (taint : List Nat) : balanceRegionScheduler ℚ :=
  { limiter := constLimiter 0, selector := balanceSelector regionScore,
    taintStores := { ids := taint } }

/-- The stores of `TestBalanceFilter`: sizes 1, 2, 3 and 16. -/
def filterStores : List (StoreInfo ℚ) := [mkStore 1 1, mkStore 2 2, mkStore 3 3, mkStore 4 16]

/-- The cluster of `TestBalanceFilter`: region 1 is led from store 4 and has
followers on stores 1, 2 and 3. -/
def filterCluster : Cluster ℚ := mockCluster filterStores [mkRegion 1 4 [1, 2, 3]] 3

/-- Three stores of sizes 16, 0 and 5. -/
def regionStores : List (StoreInfo ℚ) := [mkStore 1 16, mkStore 2 0, mkStore 3 5]

/-- Two replicas per region; region 1 is led from store 3 and has a follower on
store 1. -/
def regionCluster : Cluster ℚ := mockCluster regionStores [mkRegion 1 3 [1]] 2

/-- The operator that moves the peer of region 1 from store 1 to store 2. -/
def movePeer1To2 : Operator :=
  NewOperator "balance-region" 1 (OpBalance ||| OpRegion)
    [OperatorStep.AddPeer 2 1002, OperatorStep.RemovePeer 1]

/-- A store of region weight `1e-6` and leader weight 1. -/
def lightStore (id : Nat) (size : Int) : StoreInfo ℚ :=
  { Id := id, LeaderSize := size, RegionSize := size, LeaderWeight := 1,
    RegionWeight := 1 / 1000000 }

/-- Stores 1 and 2 have region weight `1e-6` and sizes 6000 and 0; region 1 is led
from store 3 and has a follower on store 1. -/
def lightCluster : Cluster ℚ :=
  mockCluster [lightStore 1 6000, lightStore 2 0, mkStore 3 10] [mkRegion 1 3 [1]] 2

/-- Stores of sizes 1, 2, 15 and 16; region 1 is led from store 4 and has followers
on stores 1 and 2; no region is led from store 3. -/
def taintedLeaderCluster : Cluster ℚ :=
  mockCluster [mkStore 1 1, mkStore 2 2, mkStore 3 15, mkStore 4 16] [mkRegion 1 4 [1, 2]] 3

/-- Stores of sizes 16, 0 and 5 with two replicas per region; region 1 is led from
store 1 with a follower on store 3, region 2 is led from store 3 with a follower on
store 1. -/
def twoRegionCluster : Cluster ℚ :=
  mockCluster regionStores [mkRegion 1 1 [3], mkRegion 2 3 [1]] 2

/-- The cluster of `TestBalanceSelector` where no leader is on store 4 and no
follower on store 1: region 1 is led from store 3 with followers on 2 and 4, region
2 from store 1 with followers on 2 and 3. -/
def stuckCluster : Cluster ℚ :=
  mockCluster [mkStore 1 1, mkStore 2 2, mkStore 3 15, mkStore 4 16]
    [mkRegion 1 3 [2, 4], mkRegion 2 1 [2, 3]] 3

/-- The first cluster of `TestReplicas3`: three stores, and region 1 has its three
peers on them. -/
def fullCluster : Cluster ℚ :=
  mockCluster [mkStore 1 16, mkStore 2 15, mkStore 3 14] [mkRegion 1 1 [2, 3]] 3

/-- The cluster of `TestBalance` once three replicas are asked for: region 1 has
its single peer on store 4. -/
def abnormalCluster : Cluster ℚ :=
  mockCluster [mkStore 1 6, mkStore 2 8, mkStore 3 8, mkStore 4 16] [mkRegion 1 4 []] 3

/-! ## The filter pipeline of balance-leader -/

/-- The resource kinds of package `core`. -/
inductive ResourceKind where
  | LeaderKind
  | RegionKind
deriving DecidableEq, Repr

/-- A filter as the pipeline holds it: it is evaluated with the taint cache and the
cluster options of the moment of the selection. -/
abbrev PipelineFilter (F : Type) := TaintCache → Cluster F → Filter F

/-- The builders of package `schedule` that `newBalanceLeaderScheduler` calls. -/
structure LeaderBuilders (F : Type) where
  NewBlockFilter : PipelineFilter F
  NewStateFilter : PipelineFilter F
  NewHealthFilter : PipelineFilter F
  NewRejectLeaderFilter : PipelineFilter F
  /-- Builder `schedule.NewCacheFilter(taintStores)`. -/
  NewCacheFilter : PipelineFilter F
  NewBalanceSelector : ResourceKind → List (PipelineFilter F) → Selector F

/-- The filter list that `newBalanceLeaderScheduler` builds (balance_leader.go,
lines 44-50). -/
def leaderFilters {F : Type} (b : LeaderBuilders F) : List (PipelineFilter F) :=
  [b.NewBlockFilter, b.NewStateFilter, b.NewHealthFilter, b.NewRejectLeaderFilter,
    b.NewCacheFilter]

/-- Function `newBalanceLeaderScheduler` (lines 42-57); the taint cache starts
empty. -/
def newBalanceLeaderScheduler {F : Type} (b : LeaderBuilders F) (limiter : Limiter) :
    balanceLeaderScheduler F :=
  { limiter := limiter
    selector := b.NewBalanceSelector ResourceKind.LeaderKind (leaderFilters b)
    taintStores := { ids := [] } }

/-- A selector made by `NewBalanceSelector` returns as target only stores that no
filter of its list rejects as target. -/
def LeaderBuilders.TargetsPass {F : Type} (b : LeaderBuilders F) : Prop :=
  ∀ kind filters taint cluster stores t,
    (b.NewBalanceSelector kind filters).SelectTarget taint cluster stores = some t →
    ∀ f ∈ filters, (f taint cluster).FilterTarget t = false

/-- A filter that rejects nothing. -/
def passFilter : PipelineFilter ℚ :=
  fun _ _ => { FilterSource := fun _ => false, FilterTarget := fun _ => false }

/-- Modelled from the spec: the balance selector of section 4.3 over a list of
filters; among the stores that no filter rejects, highest score as source, lowest
as target, ties to the smaller id. -/
def mockBalanceSelector (kind : ResourceKind) (filters : List (PipelineFilter ℚ)) :
    Selector ℚ where
  SelectSource := fun taint cluster stores =>
    let score := match kind with
      | ResourceKind.LeaderKind => leaderScore
      | ResourceKind.RegionKind => regionScore
    pickBest (fun a b => decide (score a > score b ∨ (score a = score b ∧ a.Id < b.Id)))
      (stores.filter fun s => filters.all fun f => !(f taint cluster).FilterSource s)
  SelectTarget := fun taint cluster stores =>
    let score := match kind with
      | ResourceKind.LeaderKind => leaderScore
      | ResourceKind.RegionKind => regionScore
    pickBest (fun a b => decide (score a < score b ∨ (score a = score b ∧ a.Id < b.Id)))
      (stores.filter fun s => filters.all fun f => !(f taint cluster).FilterTarget s)

/-- Builders for the instance: the reject-leader filter rejects as target the
stores listed in `rejected`, the cache filter rejects the tainted stores, the other
filters reject nothing. -/
def mockBuilders (rejected : List Nat) : LeaderBuilders ℚ where
  NewBlockFilter := passFilter
  NewStateFilter := passFilter
  NewHealthFilter := passFilter
  NewRejectLeaderFilter := fun _ _ =>
    { FilterSource := fun _ => false, FilterTarget := fun s => decide (s.Id ∈ rejected) }
  NewCacheFilter := fun taint _ =>
    { FilterSource := fun s => taint.Exists s.Id, FilterTarget := fun s => taint.Exists s.Id }
  NewBalanceSelector := mockBalanceSelector

/-! ## Contracts of the replica checker and of the operator builder -/

/-- The replica checker answers only with a peer on a store that passes the filter
it was handed. -/
def Deps.CheckerRespectsGuard {F : Type} (d : Deps F) (cluster : Cluster F) : Prop :=
  ∀ region oldPeer guard p,
    d.SelectBestReplacedPeerToAddReplica cluster region oldPeer guard = some p →
    ∀ t, cluster.GetStore p.StoreId = some t → guard.FilterTarget t = false

/-- The replica checker answers only with a peer on a store that hosts no peer of
the region. -/
def Deps.CheckerAvoidsRegion {F : Type} (d : Deps F) (cluster : Cluster F) : Prop :=
  ∀ region oldPeer guard p,
    d.SelectBestReplacedPeerToAddReplica cluster region oldPeer guard = some p →
    ∀ q ∈ region.Peers, q.StoreId ≠ p.StoreId

/-- `CreateMovePeerOperator` makes its operator for the id of the region it is
given. -/
def Deps.CreatesForRegion {F : Type} (d : Deps F) : Prop :=
  ∀ desc cluster region kind oldStore newStore peerID,
    (d.CreateMovePeerOperator desc cluster region kind oldStore newStore peerID).regionID
      = region.Id

/-! ## Distinct score -/

/-- Modelled from the spec: `schedule.NewDistinctScoreFilter` is not among the
sources.  Built from the location labels, the stores of the region and the source
store, it rejects as target every store whose distinct score, taken against the
other stores of the region, is below that of the source ("target must not reduce
the region's topology diversity score").  `score` is the distinct score.  Without
a source nothing is rejected. -/
def distinctScoreFilter {F S : Type} [LinearOrder S]
    (score : List String → List (StoreInfo F) → StoreInfo F → S)
    (labels : List String) (stores : List (StoreInfo F)) :
    Option (StoreInfo F) → Filter F
  | none => { FilterSource := fun _ => false, FilterTarget := fun _ => false }
  | some source =>
    { FilterSource := fun _ => false
      FilterTarget := fun x =>
        decide (score labels (stores.filter fun s => s.Id != source.Id) x
          < score labels (stores.filter fun s => s.Id != source.Id) source) }

/-- Modelled from the spec: the distinct score of section 4.3.  Each location label
on which the store differs from all the given stores adds its weight, the weight of
label `i` of `n` being `4 ^ (n - 1 - i)`.  `labelOf` reads a label of a store. -/
def DistinctScore {F : Type} (labelOf : StoreInfo F → String → String) :
    List String → List (StoreInfo F) → StoreInfo F → Nat
  | [], _, _ => 0
  | key :: rest, stores, x =>
    (if stores.all (fun s => labelOf x key != labelOf s key) then 4 ^ rest.length else 0)
      + DistinctScore labelOf rest stores x

/-! ## More sample inputs -/

/-- Stores of sizes 0, 16 and 1; region 1 is led from store 2 and has followers on
stores 1 and 3. -/
def rejectCluster : Cluster ℚ :=
  mockCluster [mkStore 1 0, mkStore 2 16, mkStore 3 1] [mkRegion 1 2 [1, 3]] 3

/-- The balance-leader scheduler made by `newBalanceLeaderScheduler` when store 1
carries a reject-leader label. -/
def rejectScheduler : balanceLeaderScheduler ℚ :=
  newBalanceLeaderScheduler (mockBuilders [1]) (constLimiter 0)

/-- A balance-leader scheduler with four leader operators in flight, which is the
leader schedule limit of the instance. -/
def busyLeaderScheduler : balanceLeaderScheduler ℚ :=
  { limiter := constLimiter 4, selector := balanceSelector leaderScore,
    taintStores := { ids := [] } }

/-- Location labels of the stores of `TestReplicas3`. -/
def replicaLabels : Nat → List (String × String)
  | 1 => [("zone", "z1"), ("rack", "r1"), ("host", "h1")]
  | 2 => [("zone", "z1"), ("rack", "r2"), ("host", "h1")]
  | 3 => [("zone", "z1"), ("rack", "r2"), ("host", "h2")]
  | 6 => [("zone", "z1"), ("rack", "r1"), ("host", "h1")]
  | 8 => [("zone", "z1"), ("rack", "r2"), ("host", "h3")]
  | _ => []

/-- The label of a store of `TestReplicas3` under a key, empty when it has none. -/
def replicaLabel (s : StoreInfo ℚ) (key : String) : String :=
  ((replicaLabels s.Id).lookup key).getD ""

/-- The collaborators of the instance with the distinct-score filter in place. -/
def labelDeps : Deps ℚ :=
  { mockDeps with NewDistinctScoreFilter := distinctScoreFilter (DistinctScore replicaLabel) }

/-- Stores 1, 2, 3, 6 and 8 of `TestReplicas3`, of sizes 16, 15, 14, 2 and 1. -/
def labelStores : List (StoreInfo ℚ) :=
  [mkStore 1 16, mkStore 2 15, mkStore 3 14, mkStore 6 2, mkStore 8 1]

/-- Region 1 with peers on stores 1, 2 and 3, led from store 2. -/
def labelRegion : RegionInfo := mkRegion 1 2 [1, 3]

/-- The cluster of `TestReplicas3` with location labels zone, rack and host. -/
def labelCluster : Cluster ℚ :=
  { mockCluster labelStores [labelRegion] 3 with GetLocationLabels := ["zone", "rack", "host"] }

/-- The operator that moves the peer of region 1 from store 1 to store 6. -/
def movePeer1To6 : Operator :=
  NewOperator "balance-region" 1 (OpBalance ||| OpRegion)
    [OperatorStep.AddPeer 6 1006, OperatorStep.RemovePeer 1]

/-! ## balance_leader.go read on pointers

The functions of `balance_leader.go` once more, with every store and region
pointer as an `Option` and every read through such a pointer as a `deref`. -/

namespace balanceLeaderPointers

variable {F : Type}

/-- Function `createOperator` on pointers: the log call of line 160 reads the ids of
`region`, `source` and `target`. -/
def createOperator (d : Deps F) (region : Option RegionInfo)
    (source target : Option (StoreInfo F)) (cluster : Cluster F)
    (opInfluence : OpInfluence) : Except Fault (List Operator) :=
  match deref region, deref source, deref target with
  | .ok region, .ok source, .ok target =>
    .ok (balanceLeaderScheduler.createOperator d region source target cluster opInfluence)
  | .error e, _, _ => .error e
  | _, .error e, _ => .error e
  | _, _, .error e => .error e

/-- Function `transferLeaderOut` on pointers: line 124 reads the id of `source`, and
the region is handed on after the nil test of line 125. -/
def transferLeaderOut (d : Deps F) (l : balanceLeaderScheduler F) (i : Nat)
    (source : Option (StoreInfo F)) (cluster : Cluster F) (opInfluence : OpInfluence) :
    Except Fault (List Operator) :=
  match deref source with
  | .error e => .error e
  | .ok src =>
    match cluster.RandLeaderRegion i src.Id with
    | none => .ok []
    | some region =>
      match l.selector.SelectTarget l.taintStores cluster (cluster.GetFollowerStores region) with
      | none => .ok []
      | some target => createOperator d (some region) source (some target) cluster opInfluence

/-- Function `transferLeaderIn` on pointers: line 142 reads the id of `target`, line
149 reads the leader of the region through the nil-safe getter, and the source is
handed on after the nil test of line 150. -/
def transferLeaderIn (d : Deps F) (_l : balanceLeaderScheduler F) (i : Nat)
    (target : Option (StoreInfo F)) (cluster : Cluster F) (opInfluence : OpInfluence) :
    Except Fault (List Operator) :=
  match deref target with
  | .error e => .error e
  | .ok tgt =>
    match cluster.RandFollowerRegion i tgt.Id with
    | none => .ok []
    | some region =>
      match cluster.GetStore (Peer.GetStoreId region.Leader) with
      | none => .ok []
      | some source => createOperator d (some region) (some source) target cluster opInfluence

/-- The retry loop of `Schedule` on pointers. -/
def retry (d : Deps F) (l : balanceLeaderScheduler F) (source target : Option (StoreInfo F))
    (cluster : Cluster F) (opInfluence : OpInfluence) :
    Nat → Nat → Except Fault (List Operator)
  | 0, _ => .ok []
  | n + 1, i =>
    match transferLeaderOut d l i source cluster opInfluence with
    | .error e => .error e
    | .ok (op :: ops) => .ok (op :: ops)
    | .ok [] =>
      match transferLeaderIn d l i target cluster opInfluence with
      | .error e => .error e
      | .ok (op :: ops) => .ok (op :: ops)
      | .ok [] => retry d l source target cluster opInfluence n (i + 1)

/-- Method `Schedule` on pointers: after the nil test of line 82, lines 93-97 read the
ids of `source` and `target`. -/
def Schedule (d : Deps F) (l : balanceLeaderScheduler F) (cluster : Cluster F)
    (opInfluence : OpInfluence) : Except Fault (List Operator × TaintCache) :=
  let stores := cluster.GetStores
  let source := l.selector.SelectSource l.taintStores cluster stores
  let target := l.selector.SelectTarget l.taintStores cluster stores
  if source.isNone || target.isNone then
    .ok ([], l.taintStores.Clear)
  else
    match deref source, deref target with
    | .ok src, .ok tgt =>
      match retry d l source target cluster opInfluence balanceLeaderRetryLimit 0 with
      | .error e => .error e
      | .ok (op :: ops) => .ok (op :: ops, l.taintStores)
      | .ok [] => .ok ([], (l.taintStores.Put src.Id).Put tgt.Id)
    | .error e, _ => .error e
    | _, .error e => .error e

end balanceLeaderPointers

/-! ## The body of the balance-region loop -/

/-- The body of the balance-region loop once the candidate region is picked (lines
103-124). -/
def balanceRegionScheduler.examine {F : Type} (d : Deps F) (source : StoreInfo F)
    (cluster : Cluster F) (opInfluence : OpInfluence) (region : RegionInfo) :
    Except Fault (Option Operator) :=
  if (region.Peers.length : Int) ≠ cluster.GetMaxReplicas then .ok none
  else if cluster.IsRegionHot region.Id then .ok none
  else
    balanceRegionScheduler.transferPeer d cluster region (region.GetStorePeer source.Id)
      opInfluence

/-! ## The two schedulers read with a tally of their calls

A second reading of the two `Schedule` methods.  A tally is passed along: a call of
`transferLeaderOut` or of `transferLeaderIn` adds one to its entry, and so does a
candidate region handed to the body of the balance-region loop.  Nothing else
changes. -/

/-- Calls made so far in one run of the balance-leader `Schedule`. -/
structure LeaderCalls where
  transferLeaderOut : Nat
  transferLeaderIn : Nat
deriving DecidableEq, Repr

namespace balanceLeaderCounted

variable {F : Type}

/-- Function `transferLeaderOut` (balance_leader.go, lines 123-139) with the tally:
one more call of it. -/
def transferLeaderOut (d : Deps F) (l : balanceLeaderScheduler F) (i : Nat)
    (source : StoreInfo F) (cluster : Cluster F) (opInfluence : OpInfluence)
    (calls : LeaderCalls) : List Operator × LeaderCalls :=
  (balanceLeaderScheduler.transferLeaderOut d l i source cluster opInfluence,
    { calls with transferLeaderOut := calls.transferLeaderOut + 1 })

/-- Function `transferLeaderIn` (lines 141-157) with the tally: one more call of it. -/
def transferLeaderIn (d : Deps F) (l : balanceLeaderScheduler F) (i : Nat)
    (target : StoreInfo F) (cluster : Cluster F) (opInfluence : OpInfluence)
    (calls : LeaderCalls) : List Operator × LeaderCalls :=
  (balanceLeaderScheduler.transferLeaderIn d l i target cluster opInfluence,
    { calls with transferLeaderIn := calls.transferLeaderIn + 1 })

/-- The retry loop of `Schedule` (lines 99-111) with the tally: `n` iterations are
left and the next one is iteration `i`. -/
def retry (d : Deps F) (l : balanceLeaderScheduler F) (source target : StoreInfo F)
    (cluster : Cluster F) (opInfluence : OpInfluence) :
    Nat → Nat → LeaderCalls → List Operator × LeaderCalls
  | 0, _, calls => ([], calls)
  | n + 1, i, calls =>
    match transferLeaderOut d l i source cluster opInfluence calls with
    | (op :: ops, calls) => (op :: ops, calls)
    | ([], calls) =>
      match transferLeaderIn d l i target cluster opInfluence calls with
      | (op :: ops, calls) => (op :: ops, calls)
      | ([], calls) => retry d l source target cluster opInfluence n (i + 1) calls

/-- Method `Schedule` (lines 71-121) with the tally, which starts empty: the returned
operators, the taint cache afterwards, and the calls made. -/
def Schedule (d : Deps F) (l : balanceLeaderScheduler F) (cluster : Cluster F)
    (opInfluence : OpInfluence) : (List Operator × TaintCache) × LeaderCalls :=
  let stores := cluster.GetStores
  match l.selector.SelectSource l.taintStores cluster stores,
        l.selector.SelectTarget l.taintStores cluster stores with
  | some source, some target =>
    match retry d l source target cluster opInfluence balanceLeaderRetryLimit 0
        { transferLeaderOut := 0, transferLeaderIn := 0 } with
    | (op :: ops, calls) => ((op :: ops, l.taintStores), calls)
    | ([], calls) => (([], (l.taintStores.Put source.Id).Put target.Id), calls)
  | _, _ => (([], l.taintStores.Clear), { transferLeaderOut := 0, transferLeaderIn := 0 })

end balanceLeaderCounted

namespace balanceRegionCounted

variable {F : Type}

/-- One pass through the body of the loop of `Schedule` (balance_region.go, lines
95-124) with the tally: a region picked is one more candidate examined. -/
def attempt (d : Deps F) (source : StoreInfo F) (cluster : Cluster F)
    (opInfluence : OpInfluence) (i : Nat) (examined : Nat) :
    Except Fault (Option Operator) × Nat :=
  match balanceRegionScheduler.pickRegion cluster i source.Id with
  | none => (.ok none, examined)
  | some region =>
    (balanceRegionScheduler.examine d source cluster opInfluence region, examined + 1)

/-- The retry loop of `Schedule` (lines 94-125) with the tally: `n` iterations are
left and the next one is iteration `i`. -/
def retry (d : Deps F) (source : StoreInfo F) (cluster : Cluster F)
    (opInfluence : OpInfluence) : Nat → Nat → Nat → Except Fault (Option Operator) × Nat
  | 0, _, examined => (.ok none, examined)
  | n + 1, i, examined =>
    match attempt d source cluster opInfluence i examined with
    | (.error e, examined) => (.error e, examined)
    | (.ok (some op), examined) => (.ok (some op), examined)
    | (.ok none, examined) => retry d source cluster opInfluence n (i + 1) examined

/-- Method `Schedule` (lines 73-133) with the tally, which starts at zero: the result
of the call and the number of candidate regions examined. -/
def Schedule (d : Deps F) (s : balanceRegionScheduler F) (cluster : Cluster F)
    (opInfluence : OpInfluence) : Except Fault (List Operator × TaintCache) × Nat :=
  let stores := cluster.GetStores
  match s.selector.SelectSource s.taintStores cluster stores with
  | none => (.ok ([], s.taintStores.Clear), 0)
  | some source =>
    match retry d source cluster opInfluence balanceRegionRetryLimit 0 0 with
    | (.error e, examined) => (.error e, examined)
    | (.ok (some op), examined) => (.ok ([op], s.taintStores), examined)
    | (.ok none, examined) => (.ok ([], s.taintStores.Put source.Id), examined)

end balanceRegionCounted

/-! ## Sample inputs for the schedules with influence and with missing records -/

/-- The cluster of `TestScheduleWithOpInfluence`: leader sizes 7, 8, 9 and 14, and
region 1 led from store 4 with followers on stores 1, 2 and 3. -/
def influenceCluster : Cluster ℚ :=
  mockCluster [mkStore 1 7, mkStore 2 8, mkStore 3 9, mkStore 4 14] [mkRegion 1 4 [1, 2, 3]] 3

/-- The influence of a pending transfer of a leader of size 1 from store 4 to
store 1. -/
def transferInfluence : OpInfluence := fun id =>
  if id = 4 then { LeaderSize := -1, RegionSize := 0 }
  else if id = 1 then { LeaderSize := 1, RegionSize := 0 }
  else { LeaderSize := 0, RegionSize := 0 }

/-- The first cluster of `TestBalanceSelector`: leader sizes 1, 2, 3 and 16; region 1
is led from store 4 with followers on 2 and 3, region 2 from store 3 with followers
on 1 and 2. -/
def transferOutCluster : Cluster ℚ :=
  mockCluster [mkStore 1 1, mkStore 2 2, mkStore 3 3, mkStore 4 16]
    [mkRegion 1 4 [2, 3], mkRegion 2 3 [1, 2]] 3

/-- The second cluster of `TestBalanceSelector`: the same regions with leader sizes
1, 14, 15 and 16. -/
def transferInCluster : Cluster ℚ :=
  mockCluster [mkStore 1 1, mkStore 2 14, mkStore 3 15, mkStore 4 16]
    [mkRegion 1 4 [2, 3], mkRegion 2 3 [1, 2]] 3

/-- A region with peers on stores 1 and 2 and no leader. -/
def leaderlessRegion : RegionInfo :=
  { Id := 1, Peers := [{ Id := 1, StoreId := 1 }, { Id := 2, StoreId := 2 }], Leader := none,
    ApproximateSize := 1 }

/-- Stores 1 and 2 of sizes 1 and 16 with the leaderless region. -/
def leaderlessCluster : Cluster ℚ :=
  mockCluster [mkStore 1 1, mkStore 2 16] [leaderlessRegion] 3

/-- Stores 1 and 2 of sizes 1 and 16; region 1 is led from store 9, which the cluster
does not know, and has a follower on store 1. -/
def absentLeaderCluster : Cluster ℚ :=
  mockCluster [mkStore 1 1, mkStore 2 16] [mkRegion 1 9 [1]] 3

/-- A region with peers on stores 2 and 3 only. -/
def strayRegion : RegionInfo := mkRegion 1 2 [3]

/-- Stores of sizes 16, 5, 5 and 0 with two replicas per region; the cluster offers
`strayRegion` as follower region of every store, also of store 1, where it has no
peer. -/
def strayCluster : Cluster ℚ :=
  { mockCluster [mkStore 1 16, mkStore 2 5, mkStore 3 5, mkStore 4 0] [] 2 with
    RandFollowerRegion := fun _ _ => some strayRegion }

/-- The cluster `regionCluster` with a lookup that does not find store 2. -/
def missingStoreCluster : Cluster ℚ :=
  { regionCluster with
    GetStore := fun id => if id = 2 then none else regionCluster.GetStore id }

/-! ## Lemmas on balance-leader -/

namespace balanceLeaderScheduler

variable {F : Type}

theorem createOperator_eq (d : Deps F) (region : RegionInfo) (source target : StoreInfo F)
    (cluster : Cluster F) (opInfluence : OpInfluence) :
    createOperator d region source target cluster opInfluence =
      if leaderRule d region source target cluster opInfluence then
        [leaderOperator region target] else [] := by
  simp only [createOperator, leaderRule, leaderOperator]
  split <;> split <;> simp_all

theorem mem_createOperator {d : Deps F} {region : RegionInfo} {source target : StoreInfo F}
    {cluster : Cluster F} {opInfluence : OpInfluence} {op : Operator}
    (h : op ∈ createOperator d region source target cluster opInfluence) :
    leaderRule d region source target cluster opInfluence = true ∧
      op = leaderOperator region target := by
  rw [createOperator_eq] at h
  by_cases hr : leaderRule d region source target cluster opInfluence = true
  · simp [hr] at h
    exact ⟨hr, h⟩
  · simp [hr] at h

theorem mem_transferLeaderOut {d : Deps F} {l : balanceLeaderScheduler F} {i : Nat}
    {source : StoreInfo F} {cluster : Cluster F} {opInfluence : OpInfluence} {op : Operator}
    (h : op ∈ transferLeaderOut d l i source cluster opInfluence) :
    ∃ region target, cluster.RandLeaderRegion i source.Id = some region ∧
      l.selector.SelectTarget l.taintStores cluster (cluster.GetFollowerStores region)
        = some target ∧
      op ∈ createOperator d region source target cluster opInfluence := by
  unfold transferLeaderOut at h
  cases hr : cluster.RandLeaderRegion i source.Id with
  | none => simp [hr] at h
  | some region =>
    simp only [hr] at h
    cases ht : l.selector.SelectTarget l.taintStores cluster
        (cluster.GetFollowerStores region) with
    | none => simp [ht] at h
    | some target =>
      simp only [ht] at h
      exact ⟨region, target, rfl, ht, h⟩

theorem mem_transferLeaderIn {d : Deps F} {l : balanceLeaderScheduler F} {i : Nat}
    {target : StoreInfo F} {cluster : Cluster F} {opInfluence : OpInfluence} {op : Operator}
    (h : op ∈ transferLeaderIn d l i target cluster opInfluence) :
    ∃ region source, cluster.RandFollowerRegion i target.Id = some region ∧
      cluster.GetStore (Peer.GetStoreId region.Leader) = some source ∧
      op ∈ createOperator d region source target cluster opInfluence := by
  unfold transferLeaderIn at h
  cases hr : cluster.RandFollowerRegion i target.Id with
  | none => simp [hr] at h
  | some region =>
    simp only [hr] at h
    cases hs : cluster.GetStore (Peer.GetStoreId region.Leader) with
    | none => simp [hs] at h
    | some source =>
      simp only [hs] at h
      exact ⟨region, source, rfl, hs, h⟩

theorem createOperator_length (d : Deps F) (region : RegionInfo) (source target : StoreInfo F)
    (cluster : Cluster F) (opInfluence : OpInfluence) :
    (createOperator d region source target cluster opInfluence).length ≤ 1 := by
  rw [createOperator_eq]
  split <;> simp

theorem transferLeaderOut_length (d : Deps F) (l : balanceLeaderScheduler F) (i : Nat)
    (source : StoreInfo F) (cluster : Cluster F) (opInfluence : OpInfluence) :
    (transferLeaderOut d l i source cluster opInfluence).length ≤ 1 := by
  unfold transferLeaderOut
  split
  · simp
  · split
    · simp
    · exact createOperator_length _ _ _ _ _ _

theorem transferLeaderIn_length (d : Deps F) (l : balanceLeaderScheduler F) (i : Nat)
    (target : StoreInfo F) (cluster : Cluster F) (opInfluence : OpInfluence) :
    (transferLeaderIn d l i target cluster opInfluence).length ≤ 1 := by
  unfold transferLeaderIn
  split
  · simp
  · split
    · simp
    · exact createOperator_length _ _ _ _ _ _

/-- What the loop returns is what the first productive attempt returned. -/
theorem leader_retry_cases (d : Deps F) (l : balanceLeaderScheduler F) (source target : StoreInfo F)
    (cluster : Cluster F) (opInfluence : OpInfluence) (n i : Nat) :
    (retry d l source target cluster opInfluence n i = [] ∧
      ∀ j, i ≤ j → j < i + n →
        transferLeaderOut d l j source cluster opInfluence = [] ∧
        transferLeaderIn d l j target cluster opInfluence = []) ∨
    (∃ j, i ≤ j ∧ j < i + n ∧
      (∀ k, i ≤ k → k < j →
        transferLeaderOut d l k source cluster opInfluence = [] ∧
        transferLeaderIn d l k target cluster opInfluence = []) ∧
      ((transferLeaderOut d l j source cluster opInfluence ≠ [] ∧
          retry d l source target cluster opInfluence n i =
            transferLeaderOut d l j source cluster opInfluence) ∨
        (transferLeaderOut d l j source cluster opInfluence = [] ∧
          transferLeaderIn d l j target cluster opInfluence ≠ [] ∧
          retry d l source target cluster opInfluence n i =
            transferLeaderIn d l j target cluster opInfluence))) := by
  induction n generalizing i with
  | zero =>
    left
    refine ⟨rfl, ?_⟩
    intro j h1 h2
    omega
  | succ n ih =>
    cases hout : transferLeaderOut d l i source cluster opInfluence with
    | cons op ops =>
      right
      refine ⟨i, le_refl _, by omega, ?_, ?_⟩
      · intro k h1 h2
        omega
      · left
        refine ⟨by simp [hout], ?_⟩
        simp [retry, hout]
    | nil =>
      cases hin : transferLeaderIn d l i target cluster opInfluence with
      | cons op ops =>
        right
        refine ⟨i, le_refl _, by omega, ?_, ?_⟩
        · intro k h1 h2
          omega
        · right
          refine ⟨hout, by simp [hin], ?_⟩
          simp [retry, hout, hin]
      | nil =>
        have hstep : retry d l source target cluster opInfluence (n + 1) i =
            retry d l source target cluster opInfluence n (i + 1) := by
          simp [retry, hout, hin]
        rcases ih (i + 1) with ⟨h0, hall⟩ | ⟨j, hj1, hj2, hbefore, hj⟩
        · left
          refine ⟨by rw [hstep, h0], ?_⟩
          intro j h1 h2
          by_cases hji : j = i
          · subst hji
            exact ⟨hout, hin⟩
          · exact hall j (by omega) (by omega)
        · right
          refine ⟨j, by omega, by omega, ?_, ?_⟩
          · intro k h1 h2
            by_cases hki : k = i
            · subst hki
              exact ⟨hout, hin⟩
            · exact hbefore k (by omega) h2
          · rw [hstep]
            exact hj

/-- The two ways `Schedule` ends: with the operators of the loop and the taint cache
unchanged, or empty-handed with a changed taint cache. -/
theorem leader_Schedule_cases (d : Deps F) (l : balanceLeaderScheduler F) (cluster : Cluster F)
    (opInfluence : OpInfluence) :
    ((l.selector.SelectSource l.taintStores cluster cluster.GetStores = none ∨
        l.selector.SelectTarget l.taintStores cluster cluster.GetStores = none) ∧
      Schedule d l cluster opInfluence = ([], l.taintStores.Clear)) ∨
    (∃ source target,
      l.selector.SelectSource l.taintStores cluster cluster.GetStores = some source ∧
      l.selector.SelectTarget l.taintStores cluster cluster.GetStores = some target ∧
      ((retry d l source target cluster opInfluence balanceLeaderRetryLimit 0 = [] ∧
          Schedule d l cluster opInfluence =
            ([], (l.taintStores.Put source.Id).Put target.Id)) ∨
        (retry d l source target cluster opInfluence balanceLeaderRetryLimit 0 ≠ [] ∧
          Schedule d l cluster opInfluence =
            (retry d l source target cluster opInfluence balanceLeaderRetryLimit 0,
              l.taintStores)))) := by
  cases hs : l.selector.SelectSource l.taintStores cluster cluster.GetStores with
  | none =>
    left
    refine ⟨Or.inl rfl, ?_⟩
    simp [Schedule, hs]
  | some source =>
    cases ht : l.selector.SelectTarget l.taintStores cluster cluster.GetStores with
    | none =>
      left
      refine ⟨Or.inr rfl, ?_⟩
      simp [Schedule, hs, ht]
    | some target =>
      right
      refine ⟨source, target, rfl, rfl, ?_⟩
      cases hr : retry d l source target cluster opInfluence balanceLeaderRetryLimit 0 with
      | nil =>
        left
        refine ⟨rfl, ?_⟩
        simp [Schedule, hs, ht, hr]
      | cons op ops =>
        right
        refine ⟨by simp, ?_⟩
        simp [Schedule, hs, ht, hr]

end balanceLeaderScheduler

/-! ## Lemmas on balance-region -/

namespace balanceRegionScheduler

variable {F : Type}

theorem Peer.GetStoreId_some (p : Peer) : Peer.GetStoreId (some p) = p.StoreId := rfl

theorem transferPeer_no_peer {d : Deps F} {cluster : Cluster F} {region : RegionInfo}
    {oldPeer : Option Peer} (opInfluence : OpInfluence)
    (h : replacement d cluster region oldPeer = none) :
    transferPeer d cluster region oldPeer opInfluence = .ok none := by
  unfold replacement at h
  simp only [transferPeer, h]

theorem transferPeer_stores {d : Deps F} {cluster : Cluster F} {region : RegionInfo}
    {oldPeer : Option Peer} {newPeer : Peer} {source target : StoreInfo F}
    (opInfluence : OpInfluence)
    (hn : replacement d cluster region oldPeer = some newPeer)
    (hs : cluster.GetStore (Peer.GetStoreId oldPeer) = some source)
    (ht : cluster.GetStore newPeer.StoreId = some target) :
    transferPeer d cluster region oldPeer opInfluence =
      if regionRule d region source target cluster opInfluence
          && !smallSource d source opInfluence then
        .ok (some (movePeerOperator d cluster region (Peer.GetStoreId oldPeer) newPeer))
      else .ok none := by
  unfold replacement at hn
  rw [hs] at hn
  simp only [transferPeer, hn, Peer.GetStoreId_some, hs, ht, deref]
  unfold regionRule smallSource movePeerOperator
  split
  · simp_all
  · split
    · simp_all
    · rename_i h1 h2
      have h3 : 6144 ≤ wrapInt64 (source.RegionSize +
            wrapInt64 (opInfluence source.Id).RegionSize) ∨
          d.beq source.RegionWeight d.lit1em6 = false := by
        by_cases h4 : wrapInt64 (source.RegionSize +
            wrapInt64 (opInfluence source.Id).RegionSize) < 6144
        · right
          cases hb : d.beq source.RegionWeight d.lit1em6
          · rfl
          · exact absurd (by simp [h4, hb]) h2
        · left
          omega
      simp_all

theorem transferPeer_fault {d : Deps F} {cluster : Cluster F} {region : RegionInfo}
    {oldPeer : Option Peer} {newPeer : Peer} (opInfluence : OpInfluence)
    (hn : replacement d cluster region oldPeer = some newPeer)
    (h : cluster.GetStore (Peer.GetStoreId oldPeer) = none ∨
      cluster.GetStore newPeer.StoreId = none) :
    transferPeer d cluster region oldPeer opInfluence = .error Fault.nilDereference := by
  unfold replacement at hn
  cases hs : cluster.GetStore (Peer.GetStoreId oldPeer) with
  | none =>
    rw [hs] at hn
    simp only [transferPeer, hn, Peer.GetStoreId_some, hs, deref]
  | some source =>
    rw [hs] at hn
    cases ht : cluster.GetStore newPeer.StoreId with
    | none => simp only [transferPeer, hn, Peer.GetStoreId_some, hs, ht, deref]
    | some target =>
      rcases h with h | h
      · simp [hs] at h
      · simp [ht] at h

/-- When `transferPeer` emits an operator: the checker gave a peer, both stores
are known, the balance rule passed and the extra test did not fire. -/
theorem transferPeer_some {d : Deps F} {cluster : Cluster F} {region : RegionInfo}
    {oldPeer : Option Peer} {opInfluence : OpInfluence} {op : Operator}
    (h : transferPeer d cluster region oldPeer opInfluence = .ok (some op)) :
    ∃ newPeer source target,
      replacement d cluster region oldPeer = some newPeer ∧
      cluster.GetStore (Peer.GetStoreId oldPeer) = some source ∧
      cluster.GetStore newPeer.StoreId = some target ∧
      regionRule d region source target cluster opInfluence = true ∧
      smallSource d source opInfluence = false ∧
      op = movePeerOperator d cluster region (Peer.GetStoreId oldPeer) newPeer := by
  cases hn : replacement d cluster region oldPeer with
  | none =>
    rw [transferPeer_no_peer opInfluence hn] at h
    simp at h
  | some newPeer =>
    cases hs : cluster.GetStore (Peer.GetStoreId oldPeer) with
    | none =>
      rw [transferPeer_fault opInfluence hn (Or.inl hs)] at h
      simp at h
    | some source =>
      cases ht : cluster.GetStore newPeer.StoreId with
      | none =>
        rw [transferPeer_fault opInfluence hn (Or.inr ht)] at h
        simp at h
      | some target =>
        rw [transferPeer_stores opInfluence hn hs ht] at h
        refine ⟨newPeer, source, target, rfl, rfl, ht, ?_⟩
        cases hr : regionRule d region source target cluster opInfluence <;>
          cases hg : smallSource d source opInfluence <;> simp [hr, hg] at h
        exact ⟨rfl, rfl, h.symm⟩

/-- When an attempt emits an operator: the region was picked for the source, has
the configured number of peers, is not hot, and `transferPeer` emitted it. -/
theorem attempt_some {d : Deps F} {source : StoreInfo F} {cluster : Cluster F}
    {opInfluence : OpInfluence} {i : Nat} {op : Operator}
    (h : attempt d source cluster opInfluence i = .ok (some op)) :
    ∃ region, pickRegion cluster i source.Id = some region ∧
      (region.Peers.length : Int) = cluster.GetMaxReplicas ∧
      cluster.IsRegionHot region.Id = false ∧
      transferPeer d cluster region (region.GetStorePeer source.Id) opInfluence
        = .ok (some op) := by
  unfold attempt at h
  cases hp : pickRegion cluster i source.Id with
  | none => simp [hp] at h
  | some region =>
    simp only [hp] at h
    by_cases hlen : (region.Peers.length : Int) = cluster.GetMaxReplicas
    · cases hhot : cluster.IsRegionHot region.Id with
      | true => simp [hlen, hhot] at h
      | false =>
        simp only [hlen, hhot] at h
        exact ⟨region, rfl, hlen, hhot, by simpa using h⟩
    · simp [hlen] at h

/-- What the loop returns is what the first attempt that does not pass returned. -/
theorem region_retry_cases (d : Deps F) (source : StoreInfo F) (cluster : Cluster F)
    (opInfluence : OpInfluence) (n i : Nat) :
    (retry d source cluster opInfluence n i = .ok none ∧
      ∀ j, i ≤ j → j < i + n → attempt d source cluster opInfluence j = .ok none) ∨
    (∃ j, i ≤ j ∧ j < i + n ∧
      (∀ k, i ≤ k → k < j → attempt d source cluster opInfluence k = .ok none) ∧
      attempt d source cluster opInfluence j ≠ .ok none ∧
      retry d source cluster opInfluence n i = attempt d source cluster opInfluence j) := by
  induction n generalizing i with
  | zero =>
    left
    refine ⟨rfl, ?_⟩
    intro j h1 h2
    omega
  | succ n ih =>
    cases ha : attempt d source cluster opInfluence i with
    | error e =>
      right
      refine ⟨i, le_refl _, by omega, ?_, by simp [ha], by simp [retry, ha]⟩
      intro k h1 h2
      omega
    | ok r =>
      cases r with
      | some op =>
        right
        refine ⟨i, le_refl _, by omega, ?_, by simp [ha], by simp [retry, ha]⟩
        intro k h1 h2
        omega
      | none =>
        have hstep : retry d source cluster opInfluence (n + 1) i =
            retry d source cluster opInfluence n (i + 1) := by
          simp [retry, ha]
        rcases ih (i + 1) with ⟨h0, hall⟩ | ⟨j, hj1, hj2, hbefore, hne, hj⟩
        · left
          refine ⟨by rw [hstep, h0], ?_⟩
          intro j h1 h2
          by_cases hji : j = i
          · subst hji
            exact ha
          · exact hall j (by omega) (by omega)
        · right
          refine ⟨j, by omega, by omega, ?_, hne, by rw [hstep, hj]⟩
          intro k h1 h2
          by_cases hki : k = i
          · subst hki
            exact ha
          · exact hbefore k (by omega) h2

/-- When `Schedule` returns an operator: a source was selected, some attempt of
the loop emitted the operator, and the taint cache is unchanged. -/
theorem region_Schedule_mem {d : Deps F} {s : balanceRegionScheduler F} {cluster : Cluster F}
    {opInfluence : OpInfluence} {ops : List Operator} {taint : TaintCache} {op : Operator}
    (h : Schedule d s cluster opInfluence = .ok (ops, taint)) (hop : op ∈ ops) :
    ops = [op] ∧ taint = s.taintStores ∧
    ∃ source i, s.selector.SelectSource s.taintStores cluster cluster.GetStores = some source ∧
      i < balanceRegionRetryLimit ∧
      attempt d source cluster opInfluence i = .ok (some op) := by
  unfold Schedule at h
  cases hs : s.selector.SelectSource s.taintStores cluster cluster.GetStores with
  | none =>
    simp [hs] at h
    rw [h.1] at hop
    simp at hop
  | some source =>
    simp only [hs] at h
    rcases region_retry_cases d source cluster opInfluence balanceRegionRetryLimit 0 with
      ⟨h0, _⟩ | ⟨j, _, hj2, _, hne, hj⟩
    · simp [h0] at h
      rw [h.1] at hop
      simp at hop
    · rw [hj] at h
      cases ha : attempt d source cluster opInfluence j with
      | error e => simp [ha] at h
      | ok r =>
        cases r with
        | none => exact absurd ha hne
        | some op' =>
          simp [ha] at h
          rw [← h.1] at hop
          simp at hop
          subst hop
          exact ⟨h.1.symm, h.2.symm, source, j, rfl, by omega, ha⟩

end balanceRegionScheduler

/-! ## Lemmas on the concrete instance -/

theorem pickBest_mem {better : StoreInfo ℚ → StoreInfo ℚ → Bool} {stores : List (StoreInfo ℚ)}
    {s : StoreInfo ℚ} (h : pickBest better stores = some s) : s ∈ stores := by
  induction stores generalizing s with
  | nil => simp [pickBest] at h
  | cons a rest ih =>
    unfold pickBest at h
    cases hr : pickBest better rest with
    | none =>
      simp [hr] at h
      simp [h]
    | some r =>
      simp only [hr] at h
      by_cases hb : better r a = true
      · simp [hb] at h
        subst h
        exact List.mem_cons_of_mem _ (ih hr)
      · simp [hb] at h
        simp [h]

theorem balanceSelector_sound (score : StoreInfo ℚ → ℚ) : (balanceSelector score).Sound := by
  intro taint cluster stores s
  constructor
  · intro h
    exact (List.mem_filter.mp (pickBest_mem h)).1
  · intro h
    exact (List.mem_filter.mp (pickBest_mem h)).1

theorem balanceSelector_respectsCache (score : StoreInfo ℚ → ℚ) :
    (balanceSelector score).RespectsCache := by
  intro taint cluster stores s
  constructor
  · intro h
    simpa using (List.mem_filter.mp (pickBest_mem h)).2
  · intro h
    simpa using (List.mem_filter.mp (pickBest_mem h)).2

theorem mockCluster_consistent {stores : List (StoreInfo ℚ)} (regions : List RegionInfo)
    (maxReplicas : Int)
    (h : ∀ s ∈ stores, (stores.find? fun x => x.Id == s.Id) = some s) :
    (mockCluster stores regions maxReplicas).Consistent := by
  constructor
  · intro s hs
    exact h s hs
  · intro r s hs
    exact h s (List.mem_filter.mp hs).1

theorem mockCluster_leaderPicksLed (stores : List (StoreInfo ℚ)) (regions : List RegionInfo)
    (maxReplicas : Int) : (mockCluster stores regions maxReplicas).LeaderPicksLed := by
  intro i id r h
  have hp := List.find?_some h
  cases hl : r.Leader with
  | none => simp [hl] at hp
  | some p =>
    simp [hl, Peer.GetStoreId] at hp
    exact ⟨p, hl, hp⟩

theorem hostsFollower_of_any {r : RegionInfo} {id : Nat}
    (h : (r.Peers.any fun p => p.StoreId == id && isFollower r p) = true) :
    r.hostsFollower id := by
  rcases List.any_eq_true.mp h with ⟨p, hp, hq⟩
  simp [isFollower] at hq
  exact ⟨p, hp, hq.1, hq.2⟩

theorem mockCluster_followerPicksFollow (stores : List (StoreInfo ℚ))
    (regions : List RegionInfo) (maxReplicas : Int) :
    (mockCluster stores regions maxReplicas).FollowerPicksFollow := by
  intro i id r h
  have h' : (regions.find? fun (r : RegionInfo) =>
      r.Peers.any fun p => p.StoreId == id && isFollower r p) = some r := h
  have hp := List.find?_some h'
  exact hostsFollower_of_any hp

theorem mockCluster_followerStoresFollow (stores : List (StoreInfo ℚ))
    (regions : List RegionInfo) (maxReplicas : Int) :
    (mockCluster stores regions maxReplicas).FollowerStoresFollow := by
  intro r s hs
  exact hostsFollower_of_any (List.mem_filter.mp hs).2

theorem mockCluster_picksHostPeer (stores : List (StoreInfo ℚ)) {regions : List RegionInfo}
    (maxReplicas : Int) (h : ∀ r ∈ regions, ∀ p ∈ r.Leader, p ∈ r.Peers) :
    (mockCluster stores regions maxReplicas).PicksHostPeer := by
  intro i id r hr
  rcases hr with hr | hr
  · obtain ⟨p, hp, hid, _⟩ := mockCluster_followerPicksFollow stores regions maxReplicas i id r hr
    exact ⟨p, hp, hid⟩
  · obtain ⟨p, hp, hid⟩ := mockCluster_leaderPicksLed stores regions maxReplicas i id r hr
    have hr' : (regions.find? fun (r : RegionInfo) =>
        r.Leader.isSome && Peer.GetStoreId r.Leader == id) = some r := hr
    exact ⟨p, h r (List.mem_of_find?_eq_some hr') p hp, hid⟩

theorem mockCluster_pick_mem {stores : List (StoreInfo ℚ)} {regions : List RegionInfo}
    {maxReplicas : Int} {i id : Nat} {r : RegionInfo}
    (h : (mockCluster stores regions maxReplicas).RandFollowerRegion i id = some r ∨
      (mockCluster stores regions maxReplicas).RandLeaderRegion i id = some r) :
    r ∈ regions := by
  rcases h with h | h
  · have h' : (regions.find? fun (r : RegionInfo) =>
        r.Peers.any fun p => p.StoreId == id && isFollower r p) = some r := h
    exact List.mem_of_find?_eq_some h'
  · have h' : (regions.find? fun (r : RegionInfo) =>
        r.Leader.isSome && Peer.GetStoreId r.Leader == id) = some r := h
    exact List.mem_of_find?_eq_some h'

/-! ## More lemmas on balance-leader -/

namespace balanceLeaderScheduler

variable {F : Type}

/-- When `Schedule` returns an operator: a source and a target were selected, the
operator is the only one returned, the taint cache is unchanged, and the operator
comes from the transfer-out or from the transfer-in of one iteration. -/
theorem leader_Schedule_mem {d : Deps F} {l : balanceLeaderScheduler F} {cluster : Cluster F}
    {opInfluence : OpInfluence} {op : Operator}
    (hop : op ∈ (Schedule d l cluster opInfluence).1) :
    Schedule d l cluster opInfluence = ([op], l.taintStores) ∧
    ∃ source target j,
      l.selector.SelectSource l.taintStores cluster cluster.GetStores = some source ∧
      l.selector.SelectTarget l.taintStores cluster cluster.GetStores = some target ∧
      j < balanceLeaderRetryLimit ∧
      (∀ k, k < j → transferLeaderOut d l k source cluster opInfluence = [] ∧
        transferLeaderIn d l k target cluster opInfluence = []) ∧
      (transferLeaderOut d l j source cluster opInfluence = [op] ∨
        (transferLeaderOut d l j source cluster opInfluence = [] ∧
          transferLeaderIn d l j target cluster opInfluence = [op])) := by
  have single : ∀ (xs : List Operator), xs.length ≤ 1 → op ∈ xs → xs = [op] := by
    intro xs hlen hmem
    match xs, hlen, hmem with
    | [x], _, hmem =>
      simp at hmem
      rw [hmem]
    | _ :: _ :: _, hlen, _ =>
      simp at hlen
  rcases leader_Schedule_cases d l cluster opInfluence with ⟨_, h⟩ | ⟨source, target, hs, ht, h⟩
  · rw [h] at hop
    simp at hop
  · rcases h with ⟨_, h⟩ | ⟨_, h⟩
    · rw [h] at hop
      simp at hop
    · rw [h] at hop ⊢
      simp only at hop
      rcases leader_retry_cases d l source target cluster opInfluence balanceLeaderRetryLimit 0 with
        ⟨h0, _⟩ | ⟨j, _, hj2, hbefore, hj⟩
      · rw [h0] at hop
        simp at hop
      · rcases hj with ⟨_, hj⟩ | ⟨hout, _, hj⟩
        · rw [hj] at hop ⊢
          have hone := single _ (transferLeaderOut_length d l j source cluster opInfluence) hop
          refine ⟨by rw [hone], source, target, j, hs, ht, by omega, ?_, Or.inl hone⟩
          intro k hk
          exact hbefore k (Nat.zero_le _) hk
        · rw [hj] at hop ⊢
          have hone := single _ (transferLeaderIn_length d l j target cluster opInfluence) hop
          refine ⟨by rw [hone], source, target, j, hs, ht, by omega, ?_, Or.inr ⟨hout, hone⟩⟩
          intro k hk
          exact hbefore k (Nat.zero_le _) hk

end balanceLeaderScheduler

/-! ## More lemmas on balance-region -/

namespace balanceRegionScheduler

variable {F : Type}

/-- When a source is selected and every attempt passes without an operator,
`Schedule` returns nothing and puts the source in the taint cache. -/
theorem region_Schedule_of_none {d : Deps F} {s : balanceRegionScheduler F}
    {cluster : Cluster F} {opInfluence : OpInfluence} {source : StoreInfo F}
    (hs : s.selector.SelectSource s.taintStores cluster cluster.GetStores = some source)
    (hnone : ∀ i, i < balanceRegionRetryLimit →
      attempt d source cluster opInfluence i = .ok none) :
    Schedule d s cluster opInfluence = .ok ([], s.taintStores.Put source.Id) := by
  have hretry : retry d source cluster opInfluence balanceRegionRetryLimit 0 = .ok none := by
    rcases region_retry_cases d source cluster opInfluence balanceRegionRetryLimit 0 with
      ⟨h0, _⟩ | ⟨j, _, hj2, _, hne, _⟩
    · exact h0
    · exact absurd (hnone j (by omega)) hne
  simp [Schedule, hs, hretry]

end balanceRegionScheduler

/-! ## Lemmas for the replica checker, the builders and the balance rule -/

theorem mockSelectBestReplacedPeer_spec {cluster : Cluster ℚ} {region : RegionInfo}
    {oldPeer : Option Peer} {guard : Filter ℚ} {p : Peer}
    (h : mockSelectBestReplacedPeer cluster region oldPeer guard = some p) :
    ∃ s ∈ cluster.GetStores, p.StoreId = s.Id ∧
      (region.Peers.any fun q => q.StoreId == s.Id) = false ∧ guard.FilterTarget s = false := by
  unfold mockSelectBestReplacedPeer at h
  split at h
  · simp at h
  · rename_i s hs
    have hmem := List.mem_filter.mp (pickBest_mem hs)
    simp only [Option.some.injEq] at h
    subst h
    have h2 := hmem.2
    simp only [Bool.and_eq_true, Bool.not_eq_true'] at h2
    exact ⟨s, hmem.1, rfl, h2.1, h2.2⟩

theorem mockChecker_avoidsRegion {d : Deps ℚ} (cluster : Cluster ℚ)
    (hd : d.SelectBestReplacedPeerToAddReplica = mockSelectBestReplacedPeer) :
    d.CheckerAvoidsRegion cluster := by
  intro region oldPeer guard p h q hq heq
  rw [hd] at h
  obtain ⟨s, _, hps, hany, _⟩ := mockSelectBestReplacedPeer_spec h
  have : (region.Peers.any fun q => q.StoreId == s.Id) = true :=
    List.any_eq_true.mpr ⟨q, hq, by simp [heq, hps]⟩
  rw [hany] at this
  simp at this

theorem mockChecker_respectsGuard {d : Deps ℚ} {cluster : Cluster ℚ}
    (hd : d.SelectBestReplacedPeerToAddReplica = mockSelectBestReplacedPeer)
    (hcons : ∀ s ∈ cluster.GetStores, cluster.GetStore s.Id = some s) :
    d.CheckerRespectsGuard cluster := by
  intro region oldPeer guard p h t ht
  rw [hd] at h
  obtain ⟨s, hs, hps, _, hg⟩ := mockSelectBestReplacedPeer_spec h
  rw [hps, hcons s hs] at ht
  simp only [Option.some.injEq] at ht
  rw [← ht]
  exact hg

theorem mockCreate_createsForRegion {d : Deps ℚ}
    (hd : d.CreateMovePeerOperator = mockCreateMovePeerOperator) : d.CreatesForRegion := by
  intro desc cluster region kind oldStore newStore peerID
  rw [hd]
  unfold mockCreateMovePeerOperator
  split <;> rfl

theorem mockBuilders_targetsPass (rejected : List Nat) : (mockBuilders rejected).TargetsPass := by
  intro kind filters taint cluster stores t h f hf
  have hmem := (List.mem_filter.mp (pickBest_mem h)).2
  have := List.all_eq_true.mp hmem f hf
  simpa using this

/-- A region picked by `pickRegion` is one of the two answers of the cluster. -/
theorem pickRegion_offer {F : Type} {cluster : Cluster F} {i id : Nat} {region : RegionInfo}
    (hp : balanceRegionScheduler.pickRegion cluster i id = some region) :
    cluster.RandFollowerRegion i id = some region ∨
      cluster.RandLeaderRegion i id = some region := by
  unfold balanceRegionScheduler.pickRegion at hp
  cases hf : cluster.RandFollowerRegion i id with
  | none =>
    rw [hf] at hp
    exact Or.inr hp
  | some r =>
    rw [hf] at hp
    exact Or.inl (by simpa using hp)

/-- The balance rule on positive weights is the comparison of the weighted sizes
after the move. -/
theorem shouldBalance_pos {sourceWeight targetWeight : ℚ} (sourceSize targetSize : Int)
    (moveSize : ℚ) (hs : 0 < sourceWeight) (ht : 0 < targetWeight) :
    shouldBalance sourceSize sourceWeight targetSize targetWeight moveSize = true ↔
      ((sourceSize : ℚ) - moveSize) / sourceWeight
        > ((targetSize : ℚ) + moveSize) / targetWeight := by
  unfold shouldBalance
  rw [if_neg (ne_of_gt ht), if_neg (ne_of_gt hs)]
  simp

/-! ## Lemmas on wrapped sums, on the pointer reading and on the counted loops -/

theorem wrapInt64_add_wrapInt64 (a b : Int) :
    wrapInt64 (a + wrapInt64 b) = wrapInt64 (a + b) := by
  unfold wrapInt64
  omega

theorem wrapInt64_zero : wrapInt64 0 = 0 := by
  decide

theorem ptr_createOperator_some {F : Type} (d : Deps F) (region : RegionInfo)
    (source target : StoreInfo F) (cluster : Cluster F) (opInfluence : OpInfluence) :
    balanceLeaderPointers.createOperator d (some region) (some source) (some target) cluster
        opInfluence
      = .ok (balanceLeaderScheduler.createOperator d region source target cluster
          opInfluence) := rfl

theorem ptr_transferLeaderOut_some {F : Type} (d : Deps F) (l : balanceLeaderScheduler F)
    (i : Nat) (source : StoreInfo F) (cluster : Cluster F) (opInfluence : OpInfluence) :
    balanceLeaderPointers.transferLeaderOut d l i (some source) cluster opInfluence
      = .ok (balanceLeaderScheduler.transferLeaderOut d l i source cluster opInfluence) := by
  simp only [balanceLeaderPointers.transferLeaderOut, balanceLeaderScheduler.transferLeaderOut,
    deref]
  cases hr : cluster.RandLeaderRegion i source.Id with
  | none => rfl
  | some region =>
    simp only []
    cases ht : l.selector.SelectTarget l.taintStores cluster
        (cluster.GetFollowerStores region) with
    | none => rfl
    | some target => exact ptr_createOperator_some d region source target cluster opInfluence

theorem ptr_transferLeaderIn_some {F : Type} (d : Deps F) (l : balanceLeaderScheduler F)
    (i : Nat) (target : StoreInfo F) (cluster : Cluster F) (opInfluence : OpInfluence) :
    balanceLeaderPointers.transferLeaderIn d l i (some target) cluster opInfluence
      = .ok (balanceLeaderScheduler.transferLeaderIn d l i target cluster opInfluence) := by
  simp only [balanceLeaderPointers.transferLeaderIn, balanceLeaderScheduler.transferLeaderIn,
    deref]
  cases hr : cluster.RandFollowerRegion i target.Id with
  | none => rfl
  | some region =>
    simp only []
    cases hs : cluster.GetStore (Peer.GetStoreId region.Leader) with
    | none => rfl
    | some source => exact ptr_createOperator_some d region source target cluster opInfluence

theorem ptr_retry_some {F : Type} (d : Deps F) (l : balanceLeaderScheduler F)
    (source target : StoreInfo F) (cluster : Cluster F) (opInfluence : OpInfluence)
    (n i : Nat) :
    balanceLeaderPointers.retry d l (some source) (some target) cluster opInfluence n i
      = .ok (balanceLeaderScheduler.retry d l source target cluster opInfluence n i) := by
  induction n generalizing i with
  | zero => rfl
  | succ n ih =>
    simp only [balanceLeaderPointers.retry, balanceLeaderScheduler.retry,
      ptr_transferLeaderOut_some, ptr_transferLeaderIn_some]
    cases balanceLeaderScheduler.transferLeaderOut d l i source cluster opInfluence with
    | cons op ops => rfl
    | nil =>
      cases balanceLeaderScheduler.transferLeaderIn d l i target cluster opInfluence with
      | cons op ops => rfl
      | nil => exact ih (i + 1)

theorem ptr_Schedule_ok {F : Type} (d : Deps F) (l : balanceLeaderScheduler F)
    (cluster : Cluster F) (opInfluence : OpInfluence) :
    balanceLeaderPointers.Schedule d l cluster opInfluence
      = .ok (balanceLeaderScheduler.Schedule d l cluster opInfluence) := by
  simp only [balanceLeaderPointers.Schedule, balanceLeaderScheduler.Schedule]
  cases l.selector.SelectSource l.taintStores cluster cluster.GetStores with
  | none => simp
  | some source =>
    cases l.selector.SelectTarget l.taintStores cluster cluster.GetStores with
    | none => simp
    | some target =>
      simp only [Option.isNone_some, Bool.or_self, Bool.false_eq_true, if_false, deref,
        ptr_retry_some]
      cases balanceLeaderScheduler.retry d l source target cluster opInfluence
          balanceLeaderRetryLimit 0 with
      | nil => rfl
      | cons op ops => rfl

theorem attempt_eq_examine {F : Type} (d : Deps F) (source : StoreInfo F)
    (cluster : Cluster F) (opInfluence : OpInfluence) (i : Nat) :
    balanceRegionScheduler.attempt d source cluster opInfluence i =
      match balanceRegionScheduler.pickRegion cluster i source.Id with
      | none => .ok none
      | some region => balanceRegionScheduler.examine d source cluster opInfluence region := by
  unfold balanceRegionScheduler.attempt balanceRegionScheduler.examine
  cases balanceRegionScheduler.pickRegion cluster i source.Id with
  | none => rfl
  | some region => rfl

/-- The counted loop of balance-leader returns what the loop returns, and adds at
most one call of each kind per iteration; a transfer-in is never tried more often
than a transfer-out. -/
theorem counted_leader_retry {F : Type} (d : Deps F) (l : balanceLeaderScheduler F)
    (source target : StoreInfo F) (cluster : Cluster F) (opInfluence : OpInfluence)
    (n i : Nat) (calls : LeaderCalls) :
    (balanceLeaderCounted.retry d l source target cluster opInfluence n i calls).1
        = balanceLeaderScheduler.retry d l source target cluster opInfluence n i ∧
    (balanceLeaderCounted.retry d l source target cluster opInfluence n i calls).2.transferLeaderOut
        ≤ calls.transferLeaderOut + n ∧
    (balanceLeaderCounted.retry d l source target cluster opInfluence n i calls).2.transferLeaderIn
        ≤ calls.transferLeaderIn + n ∧
    (calls.transferLeaderIn ≤ calls.transferLeaderOut →
      (balanceLeaderCounted.retry d l source target cluster opInfluence n i calls).2.transferLeaderIn
        ≤ (balanceLeaderCounted.retry d l source target cluster opInfluence n i
            calls).2.transferLeaderOut) := by
  induction n generalizing i calls with
  | zero => exact ⟨rfl, le_refl _, le_refl _, fun h => h⟩
  | succ n ih =>
    simp only [balanceLeaderCounted.retry, balanceLeaderCounted.transferLeaderOut,
      balanceLeaderCounted.transferLeaderIn, balanceLeaderScheduler.retry]
    cases balanceLeaderScheduler.transferLeaderOut d l i source cluster opInfluence with
    | cons op ops =>
      refine ⟨rfl, ?_, ?_, ?_⟩
      · simp only []
        omega
      · simp only []
        omega
      · intro h
        simp only []
        omega
    | nil =>
      cases balanceLeaderScheduler.transferLeaderIn d l i target cluster opInfluence with
      | cons op ops =>
        refine ⟨rfl, ?_, ?_, ?_⟩
        · simp only []
          omega
        · simp only []
          omega
        · intro h
          simp only []
          omega
      | nil =>
        obtain ⟨h1, h2, h3, h4⟩ := ih (i + 1)
          { transferLeaderOut := calls.transferLeaderOut + 1,
            transferLeaderIn := calls.transferLeaderIn + 1 }
        simp only [] at h2 h3 h4 ⊢
        exact ⟨h1, by omega, by omega, fun h => h4 (by omega)⟩

/-- The counted loop of balance-region returns what the loop returns, and examines at
most one candidate region per iteration. -/
theorem counted_region_retry {F : Type} (d : Deps F) (source : StoreInfo F)
    (cluster : Cluster F) (opInfluence : OpInfluence) (n i examined : Nat) :
    (balanceRegionCounted.retry d source cluster opInfluence n i examined).1
        = balanceRegionScheduler.retry d source cluster opInfluence n i ∧
    (balanceRegionCounted.retry d source cluster opInfluence n i examined).2
        ≤ examined + n := by
  induction n generalizing i examined with
  | zero => exact ⟨rfl, le_refl _⟩
  | succ n ih =>
    simp only [balanceRegionCounted.retry, balanceRegionCounted.attempt,
      balanceRegionScheduler.retry, attempt_eq_examine]
    cases balanceRegionScheduler.pickRegion cluster i source.Id with
    | none =>
      obtain ⟨h1, h2⟩ := ih (i + 1) examined
      simp only []
      exact ⟨h1, by omega⟩
    | some region =>
      simp only []
      cases balanceRegionScheduler.examine d source cluster opInfluence region with
      | error e => exact ⟨rfl, by simp⟩
      | ok r =>
        cases r with
        | some op => exact ⟨rfl, by simp⟩
        | none =>
          obtain ⟨h1, h2⟩ := ih (i + 1) (examined + 1)
          simp only []
          exact ⟨h1, by omega⟩

/-- The counted `Schedule` of balance-leader returns what `Schedule` returns, after
at most as many calls of each kind as the retry limit. -/
theorem counted_leader_Schedule {F : Type} (d : Deps F) (l : balanceLeaderScheduler F)
    (cluster : Cluster F) (opInfluence : OpInfluence) :
    (balanceLeaderCounted.Schedule d l cluster opInfluence).1
        = balanceLeaderScheduler.Schedule d l cluster opInfluence ∧
    (balanceLeaderCounted.Schedule d l cluster opInfluence).2.transferLeaderOut
        ≤ balanceLeaderRetryLimit ∧
    (balanceLeaderCounted.Schedule d l cluster opInfluence).2.transferLeaderIn
        ≤ balanceLeaderRetryLimit := by
  simp only [balanceLeaderCounted.Schedule, balanceLeaderScheduler.Schedule]
  cases l.selector.SelectSource l.taintStores cluster cluster.GetStores with
  | none => exact ⟨rfl, Nat.zero_le _, Nat.zero_le _⟩
  | some source =>
    cases l.selector.SelectTarget l.taintStores cluster cluster.GetStores with
    | none => exact ⟨rfl, Nat.zero_le _, Nat.zero_le _⟩
    | some target =>
      obtain ⟨h1, h2, h3, _⟩ := counted_leader_retry d l source target cluster opInfluence
        balanceLeaderRetryLimit 0 { transferLeaderOut := 0, transferLeaderIn := 0 }
      simp only [Nat.zero_add] at h2 h3
      cases hr : balanceLeaderCounted.retry d l source target cluster opInfluence
          balanceLeaderRetryLimit 0 { transferLeaderOut := 0, transferLeaderIn := 0 } with
      | mk ops calls =>
        rw [hr] at h1 h2 h3
        simp only [] at h1 h2 h3
        simp only [hr, ← h1]
        cases ops with
        | nil => exact ⟨rfl, h2, h3⟩
        | cons op ops => exact ⟨rfl, h2, h3⟩

/-- The counted `Schedule` of balance-region returns what `Schedule` returns, after
examining at most as many candidate regions as the retry limit. -/
theorem counted_region_Schedule {F : Type} (d : Deps F) (s : balanceRegionScheduler F)
    (cluster : Cluster F) (opInfluence : OpInfluence) :
    (balanceRegionCounted.Schedule d s cluster opInfluence).1
        = balanceRegionScheduler.Schedule d s cluster opInfluence ∧
    (balanceRegionCounted.Schedule d s cluster opInfluence).2 ≤ balanceRegionRetryLimit := by
  simp only [balanceRegionCounted.Schedule, balanceRegionScheduler.Schedule]
  cases s.selector.SelectSource s.taintStores cluster cluster.GetStores with
  | none => exact ⟨rfl, Nat.zero_le _⟩
  | some source =>
    obtain ⟨h1, h2⟩ := counted_region_retry d source cluster opInfluence
      balanceRegionRetryLimit 0 0
    simp only [Nat.zero_add] at h2
    cases hr : balanceRegionCounted.retry d source cluster opInfluence
        balanceRegionRetryLimit 0 0 with
    | mk r examined =>
      rw [hr] at h1 h2
      simp only [] at h1 h2
      simp only [hr, ← h1]
      cases r with
      | error e => exact ⟨rfl, h2⟩
      | ok o =>
        cases o with
        | none => exact ⟨rfl, h2⟩
        | some op => exact ⟨rfl, h2⟩

/-! ## The claims -/

section Claims

variable {F : Type}

/-- C1: every operator returned by the balance-leader `Schedule` passed the balance
rule.  There are a region `r` offered by the cluster, with the operator's region id,
and the cluster's store records `f` and `t` of the operator's FromStore and ToStore
such that `shouldBalance(f.LeaderSize + influence(f).LeaderSize, f.LeaderWeight,
t.LeaderSize + influence(t).LeaderSize, t.LeaderWeight,
r.ApproximateSize × TolerantSizeRatio)` is true.  The collaborators keep their
contracts: the selector returns one of the stores it is given, the store lists of
the view agree with `GetStore`, and `RandLeaderRegion(s)` returns a region led
from `s`. -/
theorem balanceLeader_operator_passes_shouldBalance
    (d : Deps F) (l : balanceLeaderScheduler F) (cluster : Cluster F)
    (opInfluence : OpInfluence) (hsel : l.selector.Sound) (hcons : cluster.Consistent)
    (hled : cluster.LeaderPicksLed) (op : Operator)
    (hop : op ∈ (balanceLeaderScheduler.Schedule d l cluster opInfluence).1) :
    ∃ (r : RegionInfo) (f t : StoreInfo F) (fromStore toStore : Nat),
      (∃ i id, cluster.RandLeaderRegion i id = some r ∨
        cluster.RandFollowerRegion i id = some r) ∧
      op.regionID = r.Id ∧
      op.steps = [OperatorStep.TransferLeader fromStore toStore] ∧
      cluster.GetStore fromStore = some f ∧
      cluster.GetStore toStore = some t ∧
      d.shouldBalance
        (wrapInt64 (f.LeaderSize + wrapInt64 (opInfluence f.Id).LeaderSize)) f.LeaderWeight
        (wrapInt64 (t.LeaderSize + wrapInt64 (opInfluence t.Id).LeaderSize)) t.LeaderWeight
        (d.mul (d.ofInt64 r.ApproximateSize) cluster.GetTolerantSizeRatio) = true := by
  obtain ⟨_, source, target, j, hs, ht, _, _, hj⟩ := balanceLeaderScheduler.leader_Schedule_mem hop
  have hsource : cluster.GetStore source.Id = some source :=
    hcons.1 source ((hsel _ _ _ _).1 hs)
  have htarget : cluster.GetStore target.Id = some target :=
    hcons.1 target ((hsel _ _ _ _).2 ht)
  rcases hj with hout | ⟨_, hin⟩
  · have hmem : op ∈ balanceLeaderScheduler.transferLeaderOut d l j source cluster
        opInfluence := by
      rw [hout]
      simp
    obtain ⟨region, target', hr, ht', hc⟩ := balanceLeaderScheduler.mem_transferLeaderOut hmem
    obtain ⟨hrule, hopeq⟩ := balanceLeaderScheduler.mem_createOperator hc
    obtain ⟨p, hp, hps⟩ := hled j source.Id region hr
    have hfrom : Peer.GetStoreId region.Leader = source.Id := by
      rw [hp]
      exact hps
    refine ⟨region, source, target', source.Id, target'.Id, ⟨j, source.Id, Or.inl hr⟩, ?_, ?_,
      hsource, hcons.2 region target' ((hsel _ _ _ _).2 ht'), hrule⟩
    · rw [hopeq]
      rfl
    · rw [hopeq]
      simp [balanceLeaderScheduler.leaderOperator, NewOperator, hfrom]
  · have hmem : op ∈ balanceLeaderScheduler.transferLeaderIn d l j target cluster
        opInfluence := by
      rw [hin]
      simp
    obtain ⟨region, source', hr, hs', hc⟩ := balanceLeaderScheduler.mem_transferLeaderIn hmem
    obtain ⟨hrule, hopeq⟩ := balanceLeaderScheduler.mem_createOperator hc
    refine ⟨region, source', target, Peer.GetStoreId region.Leader, target.Id,
      ⟨j, target.Id, Or.inr hr⟩, ?_, ?_, hs', htarget, hrule⟩
    · rw [hopeq]
      rfl
    · rw [hopeq]
      rfl

/-- C1 at the cluster of `TestBalanceFilter`: the transfer of region 1 from store 4
to store 1 is returned, and the rule holds for sizes 16 and 1. -/
theorem balanceLeader_operator_passes_shouldBalance_witness :
    NewOperator "balanceLeader" 1 (OpBalance ||| OpLeader) [OperatorStep.TransferLeader 4 1]
        ∈ (balanceLeaderScheduler.Schedule mockDeps (leaderScheduler []) filterCluster
          noInfluence).1 ∧
    ∃ (r : RegionInfo) (f t : StoreInfo ℚ) (fromStore toStore : Nat),
      (∃ i id, filterCluster.RandLeaderRegion i id = some r ∨
        filterCluster.RandFollowerRegion i id = some r) ∧
      (NewOperator "balanceLeader" 1 (OpBalance ||| OpLeader)
        [OperatorStep.TransferLeader 4 1]).regionID = r.Id ∧
      (NewOperator "balanceLeader" 1 (OpBalance ||| OpLeader)
        [OperatorStep.TransferLeader 4 1]).steps
          = [OperatorStep.TransferLeader fromStore toStore] ∧
      filterCluster.GetStore fromStore = some f ∧
      filterCluster.GetStore toStore = some t ∧
      mockDeps.shouldBalance
        (wrapInt64 (f.LeaderSize + wrapInt64 (noInfluence f.Id).LeaderSize)) f.LeaderWeight
        (wrapInt64 (t.LeaderSize + wrapInt64 (noInfluence t.Id).LeaderSize)) t.LeaderWeight
        (mockDeps.mul (mockDeps.ofInt64 r.ApproximateSize) filterCluster.GetTolerantSizeRatio)
          = true :=
  ⟨by decide!,
    balanceLeader_operator_passes_shouldBalance mockDeps (leaderScheduler []) filterCluster
      noInfluence (balanceSelector_sound leaderScore)
      (mockCluster_consistent _ _ (by decide!))
      (mockCluster_leaderPicksLed _ _ _) _ (by decide!)⟩

/-- C2: every operator returned by the balance-leader `Schedule` is the only one
returned and has exactly one step, a TransferLeader whose FromStore is the store of
the chosen region's leader and whose ToStore hosts a follower of that region.
Assumed: `RandLeaderRegion(s)` returns a region led from `s`, `RandFollowerRegion(t)`
a region with a follower on `t`, `GetFollowerStores(r)` only stores hosting
followers of `r`, and the selector returns one of the stores it is given. -/
theorem balanceLeader_operator_transfers_leader_to_follower
    (d : Deps F) (l : balanceLeaderScheduler F) (cluster : Cluster F)
    (opInfluence : OpInfluence) (hsel : l.selector.Sound)
    (hfol : cluster.FollowerPicksFollow) (hfs : cluster.FollowerStoresFollow) (op : Operator)
    (hop : op ∈ (balanceLeaderScheduler.Schedule d l cluster opInfluence).1) :
    (balanceLeaderScheduler.Schedule d l cluster opInfluence).1 = [op] ∧
    ∃ (r : RegionInfo) (toStore : Nat),
      (∃ i id, cluster.RandLeaderRegion i id = some r ∨
        cluster.RandFollowerRegion i id = some r) ∧
      op.regionID = r.Id ∧
      op.steps = [OperatorStep.TransferLeader (Peer.GetStoreId r.Leader) toStore] ∧
      r.hostsFollower toStore := by
  obtain ⟨hall, source, target, j, _, _, _, _, hj⟩ :=
    balanceLeaderScheduler.leader_Schedule_mem hop
  refine ⟨by rw [hall], ?_⟩
  rcases hj with hout | ⟨_, hin⟩
  · have hmem : op ∈ balanceLeaderScheduler.transferLeaderOut d l j source cluster
        opInfluence := by
      rw [hout]
      simp
    obtain ⟨region, target', hr, ht', hc⟩ := balanceLeaderScheduler.mem_transferLeaderOut hmem
    obtain ⟨_, hopeq⟩ := balanceLeaderScheduler.mem_createOperator hc
    refine ⟨region, target'.Id, ⟨j, source.Id, Or.inl hr⟩, ?_, ?_,
      hfs region target' ((hsel _ _ _ _).2 ht')⟩
    · rw [hopeq]
      rfl
    · rw [hopeq]
      rfl
  · have hmem : op ∈ balanceLeaderScheduler.transferLeaderIn d l j target cluster
        opInfluence := by
      rw [hin]
      simp
    obtain ⟨region, source', hr, _, hc⟩ := balanceLeaderScheduler.mem_transferLeaderIn hmem
    obtain ⟨_, hopeq⟩ := balanceLeaderScheduler.mem_createOperator hc
    refine ⟨region, target.Id, ⟨j, target.Id, Or.inr hr⟩, ?_, ?_, hfol j target.Id region hr⟩
    · rw [hopeq]
      rfl
    · rw [hopeq]
      rfl

/-- C2 at the cluster of `TestBalanceFilter`: the one operator returned transfers
the leader of region 1 from store 4, where it is, to store 1, which hosts a
follower. -/
theorem balanceLeader_operator_transfers_leader_to_follower_witness :
    (balanceLeaderScheduler.Schedule mockDeps (leaderScheduler []) filterCluster
        noInfluence).1
      = [NewOperator "balanceLeader" 1 (OpBalance ||| OpLeader)
          [OperatorStep.TransferLeader 4 1]] ∧
    ∃ (r : RegionInfo) (toStore : Nat),
      (∃ i id, filterCluster.RandLeaderRegion i id = some r ∨
        filterCluster.RandFollowerRegion i id = some r) ∧
      (NewOperator "balanceLeader" 1 (OpBalance ||| OpLeader)
        [OperatorStep.TransferLeader 4 1]).regionID = r.Id ∧
      (NewOperator "balanceLeader" 1 (OpBalance ||| OpLeader)
        [OperatorStep.TransferLeader 4 1]).steps
          = [OperatorStep.TransferLeader (Peer.GetStoreId r.Leader) toStore] ∧
      r.hostsFollower toStore :=
  balanceLeader_operator_transfers_leader_to_follower mockDeps (leaderScheduler [])
    filterCluster noInfluence (balanceSelector_sound leaderScore)
    (mockCluster_followerPicksFollow _ _ _) (mockCluster_followerStoresFollow _ _ _) _
    (by decide!)

/-- C3: every operator returned by the balance-region `Schedule` is the move-peer
operator for a region `r` offered by the cluster, from a store with record `s` to a
store with record `t`, and `shouldBalance(s.RegionSize + influence(s).RegionSize,
s.RegionWeight, t.RegionSize + influence(t).RegionSize, t.RegionWeight,
r.ApproximateSize × TolerantSizeRatio)` is true. -/
theorem balanceRegion_operator_passes_shouldBalance
    (d : Deps F) (s : balanceRegionScheduler F) (cluster : Cluster F)
    (opInfluence : OpInfluence) (ops : List Operator) (taint : TaintCache) (op : Operator)
    (h : balanceRegionScheduler.Schedule d s cluster opInfluence = .ok (ops, taint))
    (hop : op ∈ ops) :
    ∃ (r : RegionInfo) (oldStore : Nat) (newPeer : Peer) (src tgt : StoreInfo F),
      (∃ i id, cluster.RandFollowerRegion i id = some r ∨
        cluster.RandLeaderRegion i id = some r) ∧
      op = d.CreateMovePeerOperator "balance-region" cluster r OpBalance oldStore
        newPeer.StoreId newPeer.Id ∧
      cluster.GetStore oldStore = some src ∧
      cluster.GetStore newPeer.StoreId = some tgt ∧
      d.shouldBalance
        (wrapInt64 (src.RegionSize + wrapInt64 (opInfluence src.Id).RegionSize))
        src.RegionWeight
        (wrapInt64 (tgt.RegionSize + wrapInt64 (opInfluence tgt.Id).RegionSize))
        tgt.RegionWeight
        (d.mul (d.ofInt64 r.ApproximateSize) cluster.GetTolerantSizeRatio) = true := by
  obtain ⟨_, _, source, i, _, _, ha⟩ := balanceRegionScheduler.region_Schedule_mem h hop
  obtain ⟨region, hpick, _, _, htp⟩ := balanceRegionScheduler.attempt_some ha
  obtain ⟨newPeer, src, tgt, _, hs, ht, hrule, _, hopeq⟩ :=
    balanceRegionScheduler.transferPeer_some htp
  refine ⟨region, Peer.GetStoreId (region.GetStorePeer source.Id), newPeer, src, tgt,
    ⟨i, source.Id, ?_⟩, hopeq, hs, ht, hrule⟩
  unfold balanceRegionScheduler.pickRegion at hpick
  cases hf : cluster.RandFollowerRegion i source.Id with
  | none =>
    rw [hf] at hpick
    exact Or.inr hpick
  | some r =>
    rw [hf] at hpick
    exact Or.inl (by simpa using hpick)

/-- C3 at a cluster of three stores: the peer of region 1 moves from store 1 to
store 2, and the rule holds for region sizes 16 and 0. -/
theorem balanceRegion_operator_passes_shouldBalance_witness :
    balanceRegionScheduler.Schedule mockDeps (regionScheduler []) regionCluster noInfluence
      = .ok ([movePeer1To2], { ids := [] }) ∧
    ∃ (r : RegionInfo) (oldStore : Nat) (newPeer : Peer) (src tgt : StoreInfo ℚ),
      (∃ i id, regionCluster.RandFollowerRegion i id = some r ∨
        regionCluster.RandLeaderRegion i id = some r) ∧
      movePeer1To2 = mockDeps.CreateMovePeerOperator "balance-region" regionCluster r
        OpBalance oldStore newPeer.StoreId newPeer.Id ∧
      regionCluster.GetStore oldStore = some src ∧
      regionCluster.GetStore newPeer.StoreId = some tgt ∧
      mockDeps.shouldBalance
        (wrapInt64 (src.RegionSize + wrapInt64 (noInfluence src.Id).RegionSize))
        src.RegionWeight
        (wrapInt64 (tgt.RegionSize + wrapInt64 (noInfluence tgt.Id).RegionSize))
        tgt.RegionWeight
        (mockDeps.mul (mockDeps.ofInt64 r.ApproximateSize) regionCluster.GetTolerantSizeRatio)
          = true :=
  ⟨by decide!,
    balanceRegion_operator_passes_shouldBalance mockDeps (regionScheduler []) regionCluster
      noInfluence [movePeer1To2] { ids := [] } movePeer1To2 (by decide!) (by simp)⟩

/-- C4 as stated fails: at `lightCluster` the replica checker yields a peer on
store 2 for the peer of region 1 on store 1, the balance rule passes for the two
stores (sizes 6000 and 0, weights `1e-6`, move size 2.5), and `transferPeer` emits
nothing, because the source is below 6144 with region weight `1e-6`. -/
theorem transferPeer_small_source_counterexample :
    balanceRegionScheduler.replacement mockDeps lightCluster (mkRegion 1 3 [1])
        (some { Id := 1, StoreId := 1 }) = some { Id := 1002, StoreId := 2 } ∧
    lightCluster.GetStore 1 = some (lightStore 1 6000) ∧
    lightCluster.GetStore 2 = some (lightStore 2 0) ∧
    mockDeps.shouldBalance
      (wrapInt64 ((lightStore 1 6000).RegionSize + wrapInt64 (noInfluence 1).RegionSize))
      (lightStore 1 6000).RegionWeight
      (wrapInt64 ((lightStore 2 0).RegionSize + wrapInt64 (noInfluence 2).RegionSize))
      (lightStore 2 0).RegionWeight
      (mockDeps.mul (mockDeps.ofInt64 (mkRegion 1 3 [1]).ApproximateSize)
        lightCluster.GetTolerantSizeRatio) = true ∧
    balanceRegionScheduler.transferPeer mockDeps lightCluster (mkRegion 1 3 [1])
      (some { Id := 1, StoreId := 1 }) noInfluence = .ok none := by
  decide!

/-- C4, amended: in `transferPeer`, when the replica checker yields a replacement
peer, the cluster knows the store of the old peer and the store of the new peer,
the balance rule passes on their influence-adjusted region sizes, and the source
is not both below 6144 and of region weight `1e-6`, then `transferPeer` emits the
move-peer operator from the old peer's store to the new peer's store. -/
theorem transferPeer_emits_when_rule_passes
    (d : Deps F) (cluster : Cluster F) (region : RegionInfo) (oldPeer : Option Peer)
    (opInfluence : OpInfluence) (newPeer : Peer) (source target : StoreInfo F)
    (hn : balanceRegionScheduler.replacement d cluster region oldPeer = some newPeer)
    (hs : cluster.GetStore (Peer.GetStoreId oldPeer) = some source)
    (ht : cluster.GetStore newPeer.StoreId = some target)
    (hrule : d.shouldBalance
      (wrapInt64 (source.RegionSize + wrapInt64 (opInfluence source.Id).RegionSize))
      source.RegionWeight
      (wrapInt64 (target.RegionSize + wrapInt64 (opInfluence target.Id).RegionSize))
      target.RegionWeight
      (d.mul (d.ofInt64 region.ApproximateSize) cluster.GetTolerantSizeRatio) = true)
    (hsmall : ¬ (wrapInt64 (source.RegionSize + wrapInt64 (opInfluence source.Id).RegionSize)
        < 6144 ∧ d.beq source.RegionWeight d.lit1em6 = true)) :
    balanceRegionScheduler.transferPeer d cluster region oldPeer opInfluence =
      .ok (some (d.CreateMovePeerOperator "balance-region" cluster region OpBalance
        (Peer.GetStoreId oldPeer) newPeer.StoreId newPeer.Id)) := by
  rw [balanceRegionScheduler.transferPeer_stores opInfluence hn hs ht]
  have h1 : balanceRegionScheduler.regionRule d region source target cluster opInfluence
      = true := hrule
  have h2 : balanceRegionScheduler.smallSource d source opInfluence = false := by
    cases hg : balanceRegionScheduler.smallSource d source opInfluence with
    | false => rfl
    | true =>
      exfalso
      apply hsmall
      simpa [balanceRegionScheduler.smallSource] using hg
  simp [h1, h2, balanceRegionScheduler.movePeerOperator]

/-- C4, amended, at `regionCluster`: the checker yields a peer on store 2, the rule
passes for sizes 16 and 0 at weight 1, and the move from store 1 to store 2 is
emitted. -/
theorem transferPeer_emits_when_rule_passes_witness :
    balanceRegionScheduler.transferPeer mockDeps regionCluster (mkRegion 1 3 [1])
      (some { Id := 1, StoreId := 1 }) noInfluence = .ok (some movePeer1To2) :=
  transferPeer_emits_when_rule_passes mockDeps regionCluster (mkRegion 1 3 [1])
    (some { Id := 1, StoreId := 1 }) noInfluence { Id := 1002, StoreId := 2 }
    (mkStore 1 16) (mkStore 2 0) (by decide!) (by decide!) (by decide!) (by decide!)
    (by decide!)

/-- C5 as stated fails.  The selector of the instance returns only stores outside
the taint cache, and yet: with store 4 tainted, balance-leader returns the transfer
of region 1 from store 4 to store 1 (transfer-in takes the leader's store from the
region, not from the selector); with store 2 tainted, balance-region returns the
move of a peer of region 1 from store 1 to store 2 (the replica checker chooses the
new store without the scheduler's taint cache). -/
theorem tainted_store_counterexample :
    (balanceSelector leaderScore).RespectsCache ∧
    (balanceSelector regionScore).RespectsCache ∧
    (leaderScheduler [4]).taintStores.Exists 4 = true ∧
    balanceLeaderScheduler.Schedule mockDeps (leaderScheduler [4]) taintedLeaderCluster
        noInfluence
      = ([NewOperator "balanceLeader" 1 (OpBalance ||| OpLeader)
          [OperatorStep.TransferLeader 4 1]], { ids := [4] }) ∧
    (regionScheduler [2]).taintStores.Exists 2 = true ∧
    balanceRegionScheduler.Schedule mockDeps (regionScheduler [2]) regionCluster noInfluence
      = .ok ([movePeer1To2], { ids := [2] }) :=
  ⟨balanceSelector_respectsCache _, balanceSelector_respectsCache _, by decide!, by decide!,
    by decide!, by decide!⟩

/-- C5, amended: with a selector that returns only stores outside the taint cache,
no store tainted when `Schedule` is called is the ToStore of an operator that
balance-leader returns, nor its FromStore unless the operator is the result of a
transfer-in to the selected target (`RandLeaderRegion(s)` returning a region led
from `s`); and no such store is the store that a balance-region operator moves the
peer from (every region picked for a store having a peer on it). -/
theorem tainted_store_not_selected
    (d : Deps F) (l : balanceLeaderScheduler F) (s : balanceRegionScheduler F)
    (cluster : Cluster F) (opInfluence : OpInfluence)
    (hl : l.selector.RespectsCache) (hs : s.selector.RespectsCache)
    (hled : cluster.LeaderPicksLed) (hpeer : cluster.PicksHostPeer) :
    (∀ op ∈ (balanceLeaderScheduler.Schedule d l cluster opInfluence).1,
      ∃ fromStore toStore,
        op.steps = [OperatorStep.TransferLeader fromStore toStore] ∧
        l.taintStores.Exists toStore = false ∧
        (l.taintStores.Exists fromStore = false ∨
          ∃ target i,
            l.selector.SelectTarget l.taintStores cluster cluster.GetStores = some target ∧
            balanceLeaderScheduler.transferLeaderIn d l i target cluster opInfluence = [op])) ∧
    (∀ ops taint op,
      balanceRegionScheduler.Schedule d s cluster opInfluence = .ok (ops, taint) → op ∈ ops →
      ∃ (r : RegionInfo) (oldStore : Nat) (newPeer : Peer),
        op = d.CreateMovePeerOperator "balance-region" cluster r OpBalance oldStore
          newPeer.StoreId newPeer.Id ∧
        s.taintStores.Exists oldStore = false) := by
  constructor
  · intro op hop
    obtain ⟨_, source, target, j, hsrc, htgt, _, _, hj⟩ :=
      balanceLeaderScheduler.leader_Schedule_mem hop
    rcases hj with hout | ⟨_, hin⟩
    · have hmem : op ∈ balanceLeaderScheduler.transferLeaderOut d l j source cluster
          opInfluence := by
        rw [hout]
        simp
      obtain ⟨region, target', hr, ht', hc⟩ :=
        balanceLeaderScheduler.mem_transferLeaderOut hmem
      obtain ⟨_, hopeq⟩ := balanceLeaderScheduler.mem_createOperator hc
      obtain ⟨p, hp, hps⟩ := hled j source.Id region hr
      refine ⟨source.Id, target'.Id, ?_, (hl _ _ _ _).2 ht', Or.inl ((hl _ _ _ _).1 hsrc)⟩
      rw [hopeq]
      simp [balanceLeaderScheduler.leaderOperator, NewOperator, hp, Peer.GetStoreId, hps]
    · have hmem : op ∈ balanceLeaderScheduler.transferLeaderIn d l j target cluster
          opInfluence := by
        rw [hin]
        simp
      obtain ⟨region, source', _, _, hc⟩ := balanceLeaderScheduler.mem_transferLeaderIn hmem
      obtain ⟨_, hopeq⟩ := balanceLeaderScheduler.mem_createOperator hc
      refine ⟨Peer.GetStoreId region.Leader, target.Id, ?_, (hl _ _ _ _).2 htgt,
        Or.inr ⟨target, j, htgt, hin⟩⟩
      rw [hopeq]
      rfl
  · intro ops taint op h hop
    obtain ⟨_, _, source, i, hsrc, _, ha⟩ := balanceRegionScheduler.region_Schedule_mem h hop
    obtain ⟨region, hpick, _, _, htp⟩ := balanceRegionScheduler.attempt_some ha
    obtain ⟨newPeer, _, _, _, _, _, _, _, hopeq⟩ := balanceRegionScheduler.transferPeer_some htp
    have hoffer : cluster.RandFollowerRegion i source.Id = some region ∨
        cluster.RandLeaderRegion i source.Id = some region := by
      unfold balanceRegionScheduler.pickRegion at hpick
      cases hf : cluster.RandFollowerRegion i source.Id with
      | none =>
        rw [hf] at hpick
        exact Or.inr hpick
      | some r =>
        rw [hf] at hpick
        exact Or.inl (by simpa using hpick)
    obtain ⟨p, hp, hps⟩ := hpeer i source.Id region hoffer
    have hold : Peer.GetStoreId (region.GetStorePeer source.Id) = source.Id := by
      unfold RegionInfo.GetStorePeer
      cases hfind : region.Peers.find? (fun p => p.StoreId == source.Id) with
      | none =>
        have := List.find?_eq_none.mp hfind p hp
        simp [hps] at this
      | some q =>
        have := List.find?_some hfind
        simpa [Peer.GetStoreId] using this
    refine ⟨region, source.Id, newPeer, ?_, (hs _ _ _ _).1 hsrc⟩
    rw [hopeq, hold]
    rfl

/-- C5, amended, at `twoRegionCluster`: with store 2 tainted balance-leader returns
a transfer from store 1 to store 3, and with store 3 tainted balance-region returns
a move from store 1 to store 2; none of these stores is tainted. -/
theorem tainted_store_not_selected_witness :
    (balanceLeaderScheduler.Schedule mockDeps (leaderScheduler [2]) twoRegionCluster
        noInfluence).1
      = [NewOperator "balanceLeader" 1 (OpBalance ||| OpLeader)
          [OperatorStep.TransferLeader 1 3]] ∧
    balanceRegionScheduler.Schedule mockDeps (regionScheduler [3]) twoRegionCluster noInfluence
      = .ok ([NewOperator "balance-region" 2 (OpBalance ||| OpRegion)
          [OperatorStep.AddPeer 2 1002, OperatorStep.RemovePeer 1]], { ids := [3] }) ∧
    (∀ op ∈ (balanceLeaderScheduler.Schedule mockDeps (leaderScheduler [2]) twoRegionCluster
        noInfluence).1,
      ∃ fromStore toStore,
        op.steps = [OperatorStep.TransferLeader fromStore toStore] ∧
        (leaderScheduler [2]).taintStores.Exists toStore = false ∧
        ((leaderScheduler [2]).taintStores.Exists fromStore = false ∨
          ∃ target i,
            (leaderScheduler [2]).selector.SelectTarget (leaderScheduler [2]).taintStores
              twoRegionCluster twoRegionCluster.GetStores = some target ∧
            balanceLeaderScheduler.transferLeaderIn mockDeps (leaderScheduler [2]) i target
              twoRegionCluster noInfluence = [op])) ∧
    (∀ ops taint op,
      balanceRegionScheduler.Schedule mockDeps (regionScheduler [3]) twoRegionCluster
        noInfluence = .ok (ops, taint) → op ∈ ops →
      ∃ (r : RegionInfo) (oldStore : Nat) (newPeer : Peer),
        op = mockDeps.CreateMovePeerOperator "balance-region" twoRegionCluster r OpBalance
          oldStore newPeer.StoreId newPeer.Id ∧
        (regionScheduler [3]).taintStores.Exists oldStore = false) :=
  ⟨by decide!, by decide!,
    tainted_store_not_selected mockDeps (leaderScheduler [2]) (regionScheduler [3])
      twoRegionCluster noInfluence (balanceSelector_respectsCache _)
      (balanceSelector_respectsCache _) (mockCluster_leaderPicksLed _ _ _)
      (mockCluster_picksHostPeer _ _ (by decide!))⟩

/-- C6: if the balance-leader selector finds no source store or no target store
among the cluster's stores, `Schedule` returns no operator and the taint cache is
empty afterwards. -/
theorem balanceLeader_no_store_clears_taint
    (d : Deps F) (l : balanceLeaderScheduler F) (cluster : Cluster F)
    (opInfluence : OpInfluence)
    (h : l.selector.SelectSource l.taintStores cluster cluster.GetStores = none ∨
      l.selector.SelectTarget l.taintStores cluster cluster.GetStores = none) :
    (balanceLeaderScheduler.Schedule d l cluster opInfluence).1 = [] ∧
    (balanceLeaderScheduler.Schedule d l cluster opInfluence).2.ids = [] ∧
    ∀ id, (balanceLeaderScheduler.Schedule d l cluster opInfluence).2.Exists id = false := by
  rcases balanceLeaderScheduler.leader_Schedule_cases d l cluster opInfluence with
    ⟨_, hc⟩ | ⟨source, target, hs, ht, _⟩
  · rw [hc]
    refine ⟨rfl, rfl, ?_⟩
    intro id
    simp [TaintCache.Clear, TaintCache.Exists]
  · rcases h with h | h
    · rw [hs] at h
      simp at h
    · rw [ht] at h
      simp at h

/-- C6 at the cluster of `TestBalanceFilter` with all four stores tainted: no source
is found, nothing is returned and the cache is cleared. -/
theorem balanceLeader_no_store_clears_taint_witness :
    (leaderScheduler [1, 2, 3, 4]).selector.SelectSource
      (leaderScheduler [1, 2, 3, 4]).taintStores filterCluster filterCluster.GetStores
        = none ∧
    (balanceLeaderScheduler.Schedule mockDeps (leaderScheduler [1, 2, 3, 4]) filterCluster
      noInfluence).1 = [] ∧
    (balanceLeaderScheduler.Schedule mockDeps (leaderScheduler [1, 2, 3, 4]) filterCluster
      noInfluence).2.ids = [] ∧
    ∀ id, (balanceLeaderScheduler.Schedule mockDeps (leaderScheduler [1, 2, 3, 4])
      filterCluster noInfluence).2.Exists id = false :=
  ⟨by decide!,
    balanceLeader_no_store_clears_taint mockDeps (leaderScheduler [1, 2, 3, 4]) filterCluster
      noInfluence (Or.inl (by decide!))⟩

/-- C7: if balance-leader selects a source and a target and none of the ten
iterations produces an operator, by transfer-out or by transfer-in, `Schedule`
returns no operator and the taint cache afterwards holds its previous contents
plus exactly the id of the source and the id of the target. -/
theorem balanceLeader_no_operator_taints_both
    (d : Deps F) (l : balanceLeaderScheduler F) (cluster : Cluster F)
    (opInfluence : OpInfluence) (source target : StoreInfo F)
    (hs : l.selector.SelectSource l.taintStores cluster cluster.GetStores = some source)
    (ht : l.selector.SelectTarget l.taintStores cluster cluster.GetStores = some target)
    (hnone : ∀ i, i < balanceLeaderRetryLimit →
      balanceLeaderScheduler.transferLeaderOut d l i source cluster opInfluence = [] ∧
      balanceLeaderScheduler.transferLeaderIn d l i target cluster opInfluence = []) :
    (balanceLeaderScheduler.Schedule d l cluster opInfluence).1 = [] ∧
    ∀ id, (balanceLeaderScheduler.Schedule d l cluster opInfluence).2.Exists id = true ↔
      (l.taintStores.Exists id = true ∨ id = source.Id ∨ id = target.Id) := by
  rcases balanceLeaderScheduler.leader_Schedule_cases d l cluster opInfluence with
    ⟨hno, _⟩ | ⟨source', target', hs', ht', hc⟩
  · rcases hno with h | h
    · rw [hs] at h
      simp at h
    · rw [ht] at h
      simp at h
  · rw [hs] at hs'
    rw [ht] at ht'
    simp only [Option.some.injEq] at hs' ht'
    subst hs' ht'
    have hretry : balanceLeaderScheduler.retry d l source target cluster opInfluence
        balanceLeaderRetryLimit 0 = [] := by
      rcases balanceLeaderScheduler.leader_retry_cases d l source target cluster opInfluence
        balanceLeaderRetryLimit 0 with ⟨h0, _⟩ | ⟨j, _, hj2, _, hj⟩
      · exact h0
      · have hj' := hnone j (by omega)
        rcases hj with ⟨hne, _⟩ | ⟨_, hne, _⟩
        · exact absurd hj'.1 hne
        · exact absurd hj'.2 hne
    rcases hc with ⟨_, hc⟩ | ⟨hne, _⟩
    · rw [hc]
      refine ⟨rfl, ?_⟩
      intro id
      simp only [TaintCache.Put, TaintCache.Exists, decide_eq_true_eq, List.mem_cons]
      tauto
    · exact absurd hretry hne

/-- C7 at `stuckCluster`: store 4 is the source and store 1 the target, no region
is led from store 4 and none has a follower on store 1, so nothing is returned and
stores 4 and 1 are tainted. -/
theorem balanceLeader_no_operator_taints_both_witness :
    balanceLeaderScheduler.Schedule mockDeps (leaderScheduler [7]) stuckCluster noInfluence
      = ([], { ids := [1, 4, 7] }) ∧
    ((balanceLeaderScheduler.Schedule mockDeps (leaderScheduler [7]) stuckCluster
      noInfluence).1 = [] ∧
    ∀ id, (balanceLeaderScheduler.Schedule mockDeps (leaderScheduler [7]) stuckCluster
        noInfluence).2.Exists id = true ↔
      ((leaderScheduler [7]).taintStores.Exists id = true ∨ id = (mkStore 4 16).Id ∨
        id = (mkStore 1 1).Id)) :=
  ⟨by decide!,
    balanceLeader_no_operator_taints_both mockDeps (leaderScheduler [7]) stuckCluster
      noInfluence (mkStore 4 16) (mkStore 1 1) (by decide!) (by decide!)
      (fun _ _ => ⟨rfl, rfl⟩)⟩

/-- C8: if the balance-region selector finds no source store, `Schedule` returns
no operator and the taint cache is empty afterwards. -/
theorem balanceRegion_no_source_clears_taint
    (d : Deps F) (s : balanceRegionScheduler F) (cluster : Cluster F)
    (opInfluence : OpInfluence)
    (h : s.selector.SelectSource s.taintStores cluster cluster.GetStores = none) :
    ∃ taint, balanceRegionScheduler.Schedule d s cluster opInfluence = .ok ([], taint) ∧
      taint.ids = [] ∧ ∀ id, taint.Exists id = false := by
  refine ⟨s.taintStores.Clear, ?_, rfl, ?_⟩
  · simp [balanceRegionScheduler.Schedule, h]
  · intro id
    simp [TaintCache.Clear, TaintCache.Exists]

/-- C8 at `regionCluster` with its three stores tainted: no source is found, nothing
is returned and the cache is cleared. -/
theorem balanceRegion_no_source_clears_taint_witness :
    ∃ taint, balanceRegionScheduler.Schedule mockDeps (regionScheduler [1, 2, 3])
        regionCluster noInfluence = .ok ([], taint) ∧
      taint.ids = [] ∧ ∀ id, taint.Exists id = false :=
  balanceRegion_no_source_clears_taint mockDeps (regionScheduler [1, 2, 3]) regionCluster
    noInfluence (by decide!)

/-- C9: if balance-region selects a source store and none of the ten attempts
produces an operator, `Schedule` returns no operator and the taint cache afterwards
holds its previous contents plus exactly the id of the source. -/
theorem balanceRegion_no_operator_taints_source
    (d : Deps F) (s : balanceRegionScheduler F) (cluster : Cluster F)
    (opInfluence : OpInfluence) (source : StoreInfo F)
    (hs : s.selector.SelectSource s.taintStores cluster cluster.GetStores = some source)
    (hnone : ∀ i, i < balanceRegionRetryLimit →
      balanceRegionScheduler.attempt d source cluster opInfluence i = .ok none) :
    ∃ taint, balanceRegionScheduler.Schedule d s cluster opInfluence = .ok ([], taint) ∧
      ∀ id, taint.Exists id = true ↔ (s.taintStores.Exists id = true ∨ id = source.Id) := by
  refine ⟨s.taintStores.Put source.Id,
    balanceRegionScheduler.region_Schedule_of_none hs hnone, ?_⟩
  · intro id
    simp only [TaintCache.Put, TaintCache.Exists, decide_eq_true_eq, List.mem_cons]
    tauto

/-- C9 at `fullCluster`: store 1 is the source, every store already hosts a peer of
region 1, so no attempt produces an operator and store 1 is tainted. -/
theorem balanceRegion_no_operator_taints_source_witness :
    balanceRegionScheduler.Schedule mockDeps (regionScheduler [7]) fullCluster noInfluence
      = .ok ([], { ids := [1, 7] }) ∧
    ∃ taint, balanceRegionScheduler.Schedule mockDeps (regionScheduler [7]) fullCluster
        noInfluence = .ok ([], taint) ∧
      ∀ id, taint.Exists id = true ↔
        ((regionScheduler [7]).taintStores.Exists id = true ∨ id = (mkStore 1 16).Id) :=
  ⟨by decide!,
    balanceRegion_no_operator_taints_source mockDeps (regionScheduler [7]) fullCluster
      noInfluence (mkStore 1 16) (by decide!) (fun _ _ => rfl)⟩

/-- C10: balance-region never emits an operator for a region whose number of peers
differs from `MaxReplicas`.  Every operator that `Schedule` returns is the move-peer
operator of a region offered by the cluster whose peer count equals `MaxReplicas`;
and if every region that the cluster offers for the selected source store has a
peer count different from `MaxReplicas`, `Schedule` returns no operator. -/
theorem balanceRegion_abnormal_replicas_no_operator
    (d : Deps F) (s : balanceRegionScheduler F) (cluster : Cluster F)
    (opInfluence : OpInfluence) :
    (∀ ops taint op,
      balanceRegionScheduler.Schedule d s cluster opInfluence = .ok (ops, taint) → op ∈ ops →
      ∃ (r : RegionInfo) (oldStore : Nat) (newPeer : Peer),
        (∃ i id, cluster.RandFollowerRegion i id = some r ∨
          cluster.RandLeaderRegion i id = some r) ∧
        (r.Peers.length : Int) = cluster.GetMaxReplicas ∧
        op = d.CreateMovePeerOperator "balance-region" cluster r OpBalance oldStore
          newPeer.StoreId newPeer.Id) ∧
    ((∀ source,
        s.selector.SelectSource s.taintStores cluster cluster.GetStores = some source →
        ∀ i r, (cluster.RandFollowerRegion i source.Id = some r ∨
            cluster.RandLeaderRegion i source.Id = some r) →
          (r.Peers.length : Int) ≠ cluster.GetMaxReplicas) →
      ∃ taint, balanceRegionScheduler.Schedule d s cluster opInfluence = .ok ([], taint)) := by
  have hoffer : ∀ {i id region}, balanceRegionScheduler.pickRegion cluster i id = some region →
      (cluster.RandFollowerRegion i id = some region ∨
        cluster.RandLeaderRegion i id = some region) := by
    intro i id region hp
    unfold balanceRegionScheduler.pickRegion at hp
    cases hf : cluster.RandFollowerRegion i id with
    | none =>
      rw [hf] at hp
      exact Or.inr hp
    | some r =>
      rw [hf] at hp
      exact Or.inl (by simpa using hp)
  constructor
  · intro ops taint op h hop
    obtain ⟨_, _, source, i, _, _, ha⟩ := balanceRegionScheduler.region_Schedule_mem h hop
    obtain ⟨region, hpick, hlen, _, htp⟩ := balanceRegionScheduler.attempt_some ha
    obtain ⟨newPeer, _, _, _, _, _, _, _, hopeq⟩ := balanceRegionScheduler.transferPeer_some htp
    exact ⟨region, Peer.GetStoreId (region.GetStorePeer source.Id), newPeer,
      ⟨i, source.Id, hoffer hpick⟩, hlen, hopeq⟩
  · intro hlen
    cases hs : s.selector.SelectSource s.taintStores cluster cluster.GetStores with
    | none => exact ⟨s.taintStores.Clear, by simp [balanceRegionScheduler.Schedule, hs]⟩
    | some source =>
      have hnone : ∀ i, balanceRegionScheduler.attempt d source cluster opInfluence i
          = .ok none := by
        intro i
        unfold balanceRegionScheduler.attempt
        cases hp : balanceRegionScheduler.pickRegion cluster i source.Id with
        | none => rfl
        | some region => simp [hlen source hs i region (hoffer hp)]
      exact ⟨s.taintStores.Put source.Id,
        balanceRegionScheduler.region_Schedule_of_none hs (fun i _ => hnone i)⟩

/-- C10 at `abnormalCluster`: three replicas are configured and the only region has
one peer, so nothing is returned; at `regionCluster` the region moved has the two
peers configured. -/
theorem balanceRegion_abnormal_replicas_no_operator_witness :
    balanceRegionScheduler.Schedule mockDeps (regionScheduler []) abnormalCluster noInfluence
      = .ok ([], { ids := [4] }) ∧
    (∃ taint, balanceRegionScheduler.Schedule mockDeps (regionScheduler []) abnormalCluster
      noInfluence = .ok ([], taint)) ∧
    ∃ (r : RegionInfo) (oldStore : Nat) (newPeer : Peer),
      (∃ i id, regionCluster.RandFollowerRegion i id = some r ∨
        regionCluster.RandLeaderRegion i id = some r) ∧
      (r.Peers.length : Int) = regionCluster.GetMaxReplicas ∧
      movePeer1To2 = mockDeps.CreateMovePeerOperator "balance-region" regionCluster r
        OpBalance oldStore newPeer.StoreId newPeer.Id :=
  ⟨by decide!,
    (balanceRegion_abnormal_replicas_no_operator mockDeps (regionScheduler [])
      abnormalCluster noInfluence).2 (fun _ _ _ _ h => by
        have hmem := mockCluster_pick_mem h
        have hall : ∀ r ∈ [mkRegion 1 4 []],
            (r.Peers.length : Int) ≠ abnormalCluster.GetMaxReplicas := by decide!
        exact hall _ hmem),
    (balanceRegion_abnormal_replicas_no_operator mockDeps (regionScheduler [])
      regionCluster noInfluence).1 [movePeer1To2] { ids := [] } movePeer1To2 (by decide!)
      (by simp)⟩

/-- C11: balance-region never emits an operator for a region that the cluster
reports as hot.  Every operator that `Schedule` returns is the move-peer operator of
a region offered by the cluster for which `IsRegionHot` is false, and
`IsRegionHot` of the operator's region id is false (`CreateMovePeerOperator` making
its operator for the id of the region it is given). -/
theorem balanceRegion_operator_region_not_hot
    (d : Deps F) (s : balanceRegionScheduler F) (cluster : Cluster F)
    (opInfluence : OpInfluence) (hcreate : d.CreatesForRegion)
    (ops : List Operator) (taint : TaintCache) (op : Operator)
    (h : balanceRegionScheduler.Schedule d s cluster opInfluence = .ok (ops, taint))
    (hop : op ∈ ops) :
    cluster.IsRegionHot op.regionID = false ∧
    ∃ (r : RegionInfo) (oldStore : Nat) (newPeer : Peer),
      (∃ i id, cluster.RandFollowerRegion i id = some r ∨
        cluster.RandLeaderRegion i id = some r) ∧
      cluster.IsRegionHot r.Id = false ∧
      op = d.CreateMovePeerOperator "balance-region" cluster r OpBalance oldStore
        newPeer.StoreId newPeer.Id := by
  obtain ⟨_, _, source, i, _, _, ha⟩ := balanceRegionScheduler.region_Schedule_mem h hop
  obtain ⟨region, hpick, _, hhot, htp⟩ := balanceRegionScheduler.attempt_some ha
  obtain ⟨newPeer, _, _, _, _, _, _, _, hopeq⟩ := balanceRegionScheduler.transferPeer_some htp
  have hid : op.regionID = region.Id := by
    rw [hopeq]
    exact hcreate _ _ _ _ _ _ _
  refine ⟨by rw [hid]; exact hhot, region,
    Peer.GetStoreId (region.GetStorePeer source.Id), newPeer,
    ⟨i, source.Id, pickRegion_offer hpick⟩, hhot, hopeq⟩

/-- C11 at `regionCluster`: the operator returned is for region 1, which the cluster
does not report as hot. -/
theorem balanceRegion_operator_region_not_hot_witness :
    balanceRegionScheduler.Schedule mockDeps (regionScheduler []) regionCluster noInfluence
      = .ok ([movePeer1To2], { ids := [] }) ∧
    (regionCluster.IsRegionHot movePeer1To2.regionID = false ∧
    ∃ (r : RegionInfo) (oldStore : Nat) (newPeer : Peer),
      (∃ i id, regionCluster.RandFollowerRegion i id = some r ∨
        regionCluster.RandLeaderRegion i id = some r) ∧
      regionCluster.IsRegionHot r.Id = false ∧
      movePeer1To2 = mockDeps.CreateMovePeerOperator "balance-region" regionCluster r
        OpBalance oldStore newPeer.StoreId newPeer.Id) :=
  ⟨by decide!,
    balanceRegion_operator_region_not_hot mockDeps (regionScheduler []) regionCluster
      noInfluence (mockCreate_createsForRegion rfl) [movePeer1To2] { ids := [] }
      movePeer1To2 (by decide!) (by simp)⟩

/-- C12: every operator that the balance-region `Schedule` returns is the move-peer
operator of a region `r` offered by the cluster; the peer it removes is the peer of
`r` that `GetStorePeer` finds on the selected source store, so the store the peer is
removed from hosts a peer of `r`, and the store the peer is added to hosts no peer of
`r`.  The first half comes from `Schedule` and `transferPeer`: a region without a
peer on the source gives a nil old peer, whose store id 0 names no store, and then
`transferPeer` emits nothing.  The second half rests on the replica checker,
modelled from the spec.  Assumed: no store has the id 0. -/
theorem balanceRegion_operator_moves_off_region
    (d : Deps ℚ) (s : balanceRegionScheduler ℚ) (cluster : Cluster ℚ)
    (opInfluence : OpInfluence)
    (hchecker : d.SelectBestReplacedPeerToAddReplica = mockSelectBestReplacedPeer)
    (hzero : cluster.GetStore 0 = none)
    (ops : List Operator) (taint : TaintCache) (op : Operator)
    (h : balanceRegionScheduler.Schedule d s cluster opInfluence = .ok (ops, taint))
    (hop : op ∈ ops) :
    ∃ (source : StoreInfo ℚ) (r : RegionInfo) (oldPeer newPeer : Peer),
      s.selector.SelectSource s.taintStores cluster cluster.GetStores = some source ∧
      (∃ i, cluster.RandFollowerRegion i source.Id = some r ∨
        cluster.RandLeaderRegion i source.Id = some r) ∧
      op = d.CreateMovePeerOperator "balance-region" cluster r OpBalance oldPeer.StoreId
        newPeer.StoreId newPeer.Id ∧
      r.GetStorePeer source.Id = some oldPeer ∧
      oldPeer ∈ r.Peers ∧ oldPeer.StoreId = source.Id ∧
      (∀ p ∈ r.Peers, p.StoreId ≠ newPeer.StoreId) := by
  obtain ⟨_, _, source, i, hsel, _, ha⟩ := balanceRegionScheduler.region_Schedule_mem h hop
  obtain ⟨region, hpick, _, _, htp⟩ := balanceRegionScheduler.attempt_some ha
  obtain ⟨newPeer, src, _, hn, hs, _, _, _, hopeq⟩ :=
    balanceRegionScheduler.transferPeer_some htp
  cases hold : region.GetStorePeer source.Id with
  | none =>
    rw [hold] at hs
    have hnone : cluster.GetStore (Peer.GetStoreId none) = none := hzero
    rw [hnone] at hs
    exact absurd hs (by simp)
  | some oldPeer =>
    have hfind : region.Peers.find? (fun p => p.StoreId == source.Id) = some oldPeer := hold
    have hmem : oldPeer ∈ region.Peers := List.mem_of_find?_eq_some hfind
    have hid : oldPeer.StoreId = source.Id := by
      have := List.find?_some hfind
      simpa using this
    refine ⟨source, region, oldPeer, newPeer, hsel, ⟨i, pickRegion_offer hpick⟩, ?_, hold, hmem,
      hid, ?_⟩
    · rw [hopeq, hold]
      rfl
    · exact mockChecker_avoidsRegion cluster hchecker region _ _ newPeer hn

/-- C12 at `regionCluster`: store 1 is the source, region 1 has peers on stores 3 and
1, and its peer on store 1 moves to store 2.  On the stores of `TestBasic`, with
region counts 4, 3, 2 and 1 and peers on stores 2, 4 and 3, the modelled checker
replaces the peer of store 3 on store 1, as the test expects. -/
theorem balanceRegion_operator_moves_off_region_witness :
    mockSelectBestReplacedPeer
        (mockCluster [mkStore 1 4, mkStore 2 3, mkStore 3 2, mkStore 4 1] [] 3)
        (mkRegion 1 2 [4, 3]) (some { Id := 3, StoreId := 3 })
        { FilterSource := fun _ => false, FilterTarget := fun _ => false }
      = some { Id := 1001, StoreId := 1 } ∧
    regionCluster.GetStore 0 = none ∧
    balanceRegionScheduler.Schedule mockDeps (regionScheduler []) regionCluster noInfluence
      = .ok ([movePeer1To2], { ids := [] }) ∧
    ∃ (source : StoreInfo ℚ) (r : RegionInfo) (oldPeer newPeer : Peer),
      (regionScheduler []).selector.SelectSource (regionScheduler []).taintStores
        regionCluster regionCluster.GetStores = some source ∧
      (∃ i, regionCluster.RandFollowerRegion i source.Id = some r ∨
        regionCluster.RandLeaderRegion i source.Id = some r) ∧
      movePeer1To2 = mockDeps.CreateMovePeerOperator "balance-region" regionCluster r
        OpBalance oldPeer.StoreId newPeer.StoreId newPeer.Id ∧
      r.GetStorePeer source.Id = some oldPeer ∧
      oldPeer ∈ r.Peers ∧ oldPeer.StoreId = source.Id ∧
      (∀ p ∈ r.Peers, p.StoreId ≠ newPeer.StoreId) :=
  ⟨by decide!, by decide!, by decide!,
    balanceRegion_operator_moves_off_region mockDeps (regionScheduler []) regionCluster
      noInfluence rfl (by decide!) [movePeer1To2] { ids := [] } movePeer1To2
      (by decide!) (by simp)⟩

/-- C13: `transferPeer` hands the replica checker a distinct-score filter built
from the location labels, the stores of the region and the source store, so every
move it emits goes to a store whose distinct score, taken against the other stores
of the region, is not below that of the old peer's store.  Assumed: the filter is
the one of the spec for the distinct score `score`, and the replica checker answers
only with a peer on a store that passes the filter it was handed. -/
theorem transferPeer_keeps_distinct_score {S : Type} [LinearOrder S]
    (score : List String → List (StoreInfo F) → StoreInfo F → S)
    (d : Deps F) (cluster : Cluster F) (region : RegionInfo) (oldPeer : Option Peer)
    (opInfluence : OpInfluence) (op : Operator)
    (hfilter : d.NewDistinctScoreFilter = distinctScoreFilter score)
    (hguard : d.CheckerRespectsGuard cluster)
    (h : balanceRegionScheduler.transferPeer d cluster region oldPeer opInfluence
      = .ok (some op)) :
    ∃ (newPeer : Peer) (source target : StoreInfo F),
      cluster.GetStore (Peer.GetStoreId oldPeer) = some source ∧
      cluster.GetStore newPeer.StoreId = some target ∧
      op = d.CreateMovePeerOperator "balance-region" cluster region OpBalance
        (Peer.GetStoreId oldPeer) newPeer.StoreId newPeer.Id ∧
      score cluster.GetLocationLabels
          ((cluster.GetRegionStores region).filter fun s => s.Id != source.Id) source
        ≤ score cluster.GetLocationLabels
          ((cluster.GetRegionStores region).filter fun s => s.Id != source.Id) target := by
  obtain ⟨newPeer, source, target, hn, hs, ht, _, _, hopeq⟩ :=
    balanceRegionScheduler.transferPeer_some h
  refine ⟨newPeer, source, target, hs, ht, hopeq, ?_⟩
  unfold balanceRegionScheduler.replacement at hn
  have hpass := hguard region oldPeer _ newPeer hn target ht
  rw [hfilter, hs] at hpass
  simp only [distinctScoreFilter, decide_eq_false_iff_not, not_lt] at hpass
  exact hpass

/-- C13 at the cluster of `TestReplicas3`: store 8 has the lowest region score but a
distinct score of 1 against stores 2 and 3, below the 4 of store 1; the peer moves
to store 6, whose distinct score is 4. -/
theorem transferPeer_keeps_distinct_score_witness :
    balanceRegionScheduler.transferPeer labelDeps labelCluster labelRegion
      (some { Id := 1, StoreId := 1 }) noInfluence = .ok (some movePeer1To6) ∧
    DistinctScore replicaLabel ["zone", "rack", "host"] [mkStore 2 15, mkStore 3 14]
      (mkStore 8 1) = 1 ∧
    ∃ (newPeer : Peer) (source target : StoreInfo ℚ),
      labelCluster.GetStore (Peer.GetStoreId (some { Id := 1, StoreId := 1 }))
        = some source ∧
      labelCluster.GetStore newPeer.StoreId = some target ∧
      movePeer1To6 = labelDeps.CreateMovePeerOperator "balance-region" labelCluster
        labelRegion OpBalance (Peer.GetStoreId (some { Id := 1, StoreId := 1 }))
        newPeer.StoreId newPeer.Id ∧
      DistinctScore replicaLabel labelCluster.GetLocationLabels
          ((labelCluster.GetRegionStores labelRegion).filter fun s => s.Id != source.Id)
          source
        ≤ DistinctScore replicaLabel labelCluster.GetLocationLabels
          ((labelCluster.GetRegionStores labelRegion).filter fun s => s.Id != source.Id)
          target :=
  ⟨by decide!, by decide!,
    transferPeer_keeps_distinct_score (DistinctScore replicaLabel) labelDeps labelCluster
      labelRegion (some { Id := 1, StoreId := 1 }) noInfluence movePeer1To6 rfl
      (mockChecker_respectsGuard rfl (by decide!)) (by decide!)⟩

/-- C14: the ToStore of every operator that balance-leader returns is the id of a
store returned by the scheduler's `SelectTarget`, asked over the follower stores of
the region (transfer-out) or over the stores of the cluster (transfer-in).  For a
scheduler whose selector is the one `newBalanceLeaderScheduler` builds, that store
is rejected as target by no filter of the leader pipeline, in particular not by the
reject-leader filter (a selector returning as target only stores that pass its
filters). -/
theorem balanceLeader_target_passes_pipeline
    (d : Deps F) (b : LeaderBuilders F) (l : balanceLeaderScheduler F) (cluster : Cluster F)
    (opInfluence : OpInfluence)
    (hl : l.selector = (newBalanceLeaderScheduler b l.limiter).selector)
    (hpass : b.TargetsPass) (op : Operator)
    (hop : op ∈ (balanceLeaderScheduler.Schedule d l cluster opInfluence).1) :
    ∃ (t : StoreInfo F) (stores : List (StoreInfo F)) (fromStore : Nat),
      (stores = cluster.GetStores ∨ ∃ r, stores = cluster.GetFollowerStores r) ∧
      l.selector.SelectTarget l.taintStores cluster stores = some t ∧
      op.steps = [OperatorStep.TransferLeader fromStore t.Id] ∧
      (∀ f ∈ leaderFilters b, (f l.taintStores cluster).FilterTarget t = false) ∧
      (b.NewRejectLeaderFilter l.taintStores cluster).FilterTarget t = false := by
  have hfilters : ∀ stores t, l.selector.SelectTarget l.taintStores cluster stores = some t →
      ∀ f ∈ leaderFilters b, (f l.taintStores cluster).FilterTarget t = false := by
    intro stores t ht
    rw [hl] at ht
    exact hpass ResourceKind.LeaderKind (leaderFilters b) l.taintStores cluster stores t ht
  have hreject : b.NewRejectLeaderFilter ∈ leaderFilters b := by
    simp [leaderFilters]
  obtain ⟨_, source, target, j, _, htgt, _, _, hj⟩ :=
    balanceLeaderScheduler.leader_Schedule_mem hop
  rcases hj with hout | ⟨_, hin⟩
  · have hmem : op ∈ balanceLeaderScheduler.transferLeaderOut d l j source cluster
        opInfluence := by
      rw [hout]
      simp
    obtain ⟨region, target', _, ht', hc⟩ := balanceLeaderScheduler.mem_transferLeaderOut hmem
    obtain ⟨_, hopeq⟩ := balanceLeaderScheduler.mem_createOperator hc
    refine ⟨target', cluster.GetFollowerStores region, Peer.GetStoreId region.Leader,
      Or.inr ⟨region, rfl⟩, ht', ?_, hfilters _ _ ht', hfilters _ _ ht' _ hreject⟩
    rw [hopeq]
    rfl
  · have hmem : op ∈ balanceLeaderScheduler.transferLeaderIn d l j target cluster
        opInfluence := by
      rw [hin]
      simp
    obtain ⟨region, source', _, _, hc⟩ := balanceLeaderScheduler.mem_transferLeaderIn hmem
    obtain ⟨_, hopeq⟩ := balanceLeaderScheduler.mem_createOperator hc
    refine ⟨target, cluster.GetStores, Peer.GetStoreId region.Leader, Or.inl rfl, htgt, ?_,
      hfilters _ _ htgt, hfilters _ _ htgt _ hreject⟩
    rw [hopeq]
    rfl

/-- C14 at `rejectCluster`: store 1 has the lowest leader score and carries a
reject-leader label; the leader of region 1 goes from store 2 to store 3. -/
theorem balanceLeader_target_passes_pipeline_witness :
    balanceLeaderScheduler.Schedule mockDeps rejectScheduler rejectCluster noInfluence
      = ([NewOperator "balanceLeader" 1 (OpBalance ||| OpLeader)
          [OperatorStep.TransferLeader 2 3]], { ids := [] }) ∧
    ((mockBuilders [1]).NewRejectLeaderFilter rejectScheduler.taintStores
      rejectCluster).FilterTarget (mkStore 1 0) = true ∧
    ∃ (t : StoreInfo ℚ) (stores : List (StoreInfo ℚ)) (fromStore : Nat),
      (stores = rejectCluster.GetStores ∨ ∃ r, stores = rejectCluster.GetFollowerStores r) ∧
      rejectScheduler.selector.SelectTarget rejectScheduler.taintStores rejectCluster stores
        = some t ∧
      (NewOperator "balanceLeader" 1 (OpBalance ||| OpLeader)
        [OperatorStep.TransferLeader 2 3]).steps
          = [OperatorStep.TransferLeader fromStore t.Id] ∧
      (∀ f ∈ leaderFilters (mockBuilders [1]),
        (f rejectScheduler.taintStores rejectCluster).FilterTarget t = false) ∧
      ((mockBuilders [1]).NewRejectLeaderFilter rejectScheduler.taintStores
        rejectCluster).FilterTarget t = false :=
  ⟨by decide!, by decide!,
    balanceLeader_target_passes_pipeline mockDeps (mockBuilders [1]) rejectScheduler
      rejectCluster noInfluence rfl (mockBuilders_targetsPass [1]) _ (by decide!)⟩

/-- C15 as stated fails: with four leader operators in flight and a leader schedule
limit of four, `IsScheduleAllowed` is false and `Schedule`, called all the same on
the cluster of `TestBalanceFilter`, returns the transfer from store 4 to store 1. -/
theorem balanceLeader_limit_counterexample :
    filterCluster.GetLeaderScheduleLimit ≤ busyLeaderScheduler.limiter.OperatorCount OpLeader ∧
    busyLeaderScheduler.IsScheduleAllowed filterCluster = false ∧
    (balanceLeaderScheduler.Schedule mockDeps busyLeaderScheduler filterCluster noInfluence).1
      = [NewOperator "balanceLeader" 1 (OpBalance ||| OpLeader)
          [OperatorStep.TransferLeader 4 1]] := by
  decide!

/-- C15, amended: whenever `OperatorCount(Leader)` is at least `LeaderScheduleLimit`,
`IsScheduleAllowed` of balance-leader is false; `Schedule` itself does not read the
operator count, its result is the same for every limiter. -/
theorem balanceLeader_limit_is_in_IsScheduleAllowed
    (d : Deps F) (l : balanceLeaderScheduler F) (cluster : Cluster F)
    (opInfluence : OpInfluence)
    (h : cluster.GetLeaderScheduleLimit ≤ l.limiter.OperatorCount OpLeader) :
    l.IsScheduleAllowed cluster = false ∧
    ∀ limiter : Limiter,
      balanceLeaderScheduler.Schedule d
          { limiter := limiter, selector := l.selector, taintStores := l.taintStores }
          cluster opInfluence
        = balanceLeaderScheduler.Schedule d l cluster opInfluence := by
  constructor
  · simp only [balanceLeaderScheduler.IsScheduleAllowed, decide_eq_false_iff_not]
    omega
  · intro limiter
    have hretry : ∀ source target n i,
        balanceLeaderScheduler.retry d
            { limiter := limiter, selector := l.selector, taintStores := l.taintStores }
            source target cluster opInfluence n i
          = balanceLeaderScheduler.retry d l source target cluster opInfluence n i := by
      intro source target n
      induction n with
      | zero =>
        intro i
        rfl
      | succ n ih =>
        intro i
        simp only [balanceLeaderScheduler.retry, balanceLeaderScheduler.transferLeaderOut,
          balanceLeaderScheduler.transferLeaderIn, ih]
    simp only [balanceLeaderScheduler.Schedule, hretry]

/-- C15, amended, at the cluster of `TestBalanceFilter` with four leader operators
in flight: `IsScheduleAllowed` is false, and `Schedule` returns the same as with no
operator in flight. -/
theorem balanceLeader_limit_is_in_IsScheduleAllowed_witness :
    busyLeaderScheduler.IsScheduleAllowed filterCluster = false ∧
    ∀ limiter : Limiter,
      balanceLeaderScheduler.Schedule mockDeps
          { limiter := limiter, selector := busyLeaderScheduler.selector,
            taintStores := busyLeaderScheduler.taintStores }
          filterCluster noInfluence
        = balanceLeaderScheduler.Schedule mockDeps busyLeaderScheduler filterCluster
          noInfluence :=
  balanceLeader_limit_is_in_IsScheduleAllowed mockDeps busyLeaderScheduler filterCluster
    noInfluence (by decide!)

/-- C16: `IsScheduleAllowed` is a strict limit check.  For balance-leader it is true
iff `OperatorCount(Leader) < LeaderScheduleLimit`, for balance-region iff
`OperatorCount(Region) < RegionScheduleLimit`; at a count equal to the limit it is
false. -/
theorem IsScheduleAllowed_strict
    (l : balanceLeaderScheduler F) (s : balanceRegionScheduler F) (cluster : Cluster F) :
    (l.IsScheduleAllowed cluster = true ↔
      l.limiter.OperatorCount OpLeader < cluster.GetLeaderScheduleLimit) ∧
    (s.IsScheduleAllowed cluster = true ↔
      s.limiter.OperatorCount OpRegion < cluster.GetRegionScheduleLimit) ∧
    (l.limiter.OperatorCount OpLeader = cluster.GetLeaderScheduleLimit →
      l.IsScheduleAllowed cluster = false) ∧
    (s.limiter.OperatorCount OpRegion = cluster.GetRegionScheduleLimit →
      s.IsScheduleAllowed cluster = false) := by
  refine ⟨?_, ?_, ?_, ?_⟩
  · simp [balanceLeaderScheduler.IsScheduleAllowed]
  · simp [balanceRegionScheduler.IsScheduleAllowed]
  · intro h
    simp [balanceLeaderScheduler.IsScheduleAllowed, h]
  · intro h
    simp [balanceRegionScheduler.IsScheduleAllowed, h]

/-- C16 at the instance, whose two limits are four: allowed with three operators in
flight, not allowed with four. -/
theorem IsScheduleAllowed_strict_witness :
    (leaderScheduler []).IsScheduleAllowed filterCluster = true ∧
    ({ limiter := constLimiter 3, selector := balanceSelector leaderScore,
        taintStores := { ids := [] } } : balanceLeaderScheduler ℚ).IsScheduleAllowed
      filterCluster = true ∧
    busyLeaderScheduler.IsScheduleAllowed filterCluster = false ∧
    ({ limiter := constLimiter 4, selector := balanceSelector regionScore,
        taintStores := { ids := [] } } : balanceRegionScheduler ℚ).IsScheduleAllowed
      filterCluster = false :=
  ⟨by decide, by decide,
    (IsScheduleAllowed_strict busyLeaderScheduler (regionScheduler []) filterCluster).2.2.1
      (by decide),
    (IsScheduleAllowed_strict (leaderScheduler [])
      { limiter := constLimiter 4, selector := balanceSelector regionScore,
        taintStores := { ids := [] } } filterCluster).2.2.2 (by decide)⟩

/-- C17: `shouldBalance` gives the expected value on the nine rows of the truth
table pinned by `TestShouldBalance`, the arguments being source size, source weight,
target size, target weight and move size. -/
theorem shouldBalance_truth_table :
    shouldBalance 100 1 80 1 5 = true ∧
    shouldBalance 100 1 80 1 15 = false ∧
    shouldBalance 100 1 120 2 10 = true ∧
    shouldBalance 100 1 180 2 10 = false ∧
    shouldBalance 100 (1 / 2) 180 1 10 = false ∧
    shouldBalance 100 (1 / 2) 180 1 5 = true ∧
    shouldBalance 100 1 10 0 10 = false ∧
    shouldBalance 100 0 10 0 10 = false ∧
    shouldBalance 100 0 500 1 50 = true := by
  decide!

/-- C18 as stated fails: the row `{100, 0, 500, 1, 50, true}` of `TestShouldBalance`
has source weight 0 and expects true. -/
theorem shouldBalance_zero_source_counterexample :
    shouldBalance 100 0 500 1 50 = true := by
  decide!

/-- C18, amended: `shouldBalance` returns false for every input whose source weight and
target weight are both 0, whatever the sizes and the move size; with source weight 0
and a target weight that is not 0 the result is not always false, the pinned row
`{100, 0, 500, 1, 50}` giving true. -/
theorem shouldBalance_zero_source
    (sourceSize targetSize : Int) (moveSize : ℚ) :
    shouldBalance sourceSize 0 targetSize 0 moveSize = false ∧
    shouldBalance 100 0 500 1 50 = true := by
  refine ⟨?_, ?_⟩
  · simp [shouldBalance]
  · decide!

/-- C19: `shouldBalance` returns false for every input whose target weight is 0,
whatever the sizes, the source weight and the move size. -/
theorem shouldBalance_zero_target
    (sourceSize targetSize : Int) (sourceWeight moveSize : ℚ) :
    shouldBalance sourceSize sourceWeight targetSize 0 moveSize = false := by
  simp [shouldBalance]

/-- C20 as stated fails: the row `{100, 0.5, 180, 1, 5, true}` of `TestShouldBalance`
has positive weights and expects true, while
`100/0.5 - 5/min(0.5, 1) > 180/1 + 5/min(0.5, 1)` reads `190 > 190`. -/
theorem shouldBalance_min_formula_counterexample :
    shouldBalance 100 (1 / 2) 180 1 5 = true ∧
    ¬ ((100 : ℚ) / (1 / 2) - 5 / min (1 / 2) 1 > (180 : ℚ) / 1 + 5 / min (1 / 2) 1) := by
  decide!

/-- C20, amended: for all sizes and all strictly positive weights that are equal,
`sW = tW`, `shouldBalance(sSize, sW, tSize, tW, mSize)` is true iff
`sSize/sW - mSize/min(sW,tW) > tSize/tW + mSize/min(sW,tW)`, computed in exact
rational arithmetic.  Nothing is said of unequal weights, where the pinned row
`{100, 0.5, 180, 1, 5}` departs from the inequality. -/
theorem shouldBalance_equal_weights
    (sourceSize targetSize : Int) (sourceWeight targetWeight moveSize : ℚ)
    (hs : 0 < sourceWeight) (ht : 0 < targetWeight) (hw : sourceWeight = targetWeight) :
    shouldBalance sourceSize sourceWeight targetSize targetWeight moveSize = true ↔
      (sourceSize : ℚ) / sourceWeight - moveSize / min sourceWeight targetWeight
        > (targetSize : ℚ) / targetWeight + moveSize / min sourceWeight targetWeight := by
  have hrule := shouldBalance_pos sourceSize targetSize moveSize hs ht
  subst hw
  rw [hrule, min_self, sub_div, add_div]

/-- C20, amended, at the two rows of `TestShouldBalance` with equal weights:
`{100, 1, 80, 1, 5}` gives true, `95 > 85`, and `{100, 1, 80, 1, 15}` gives false,
`85 > 95` failing. -/
theorem shouldBalance_equal_weights_witness :
    (0 : ℚ) < 1 ∧
    shouldBalance 100 1 80 1 5 = true ∧
    shouldBalance 100 1 80 1 15 = false ∧
    (shouldBalance 100 1 80 1 5 = true ↔
      (((100 : Int) : ℚ)) / 1 - 5 / min 1 1 > (((80 : Int) : ℚ)) / 1 + 5 / min 1 1) ∧
    (shouldBalance 100 1 80 1 15 = true ↔
      (((100 : Int) : ℚ)) / 1 - 15 / min 1 1 > (((80 : Int) : ℚ)) / 1 + 15 / min 1 1) :=
  ⟨by norm_num, by decide!, by decide!,
    shouldBalance_equal_weights 100 80 1 1 5 (by norm_num) (by norm_num) rfl,
    shouldBalance_equal_weights 100 80 1 1 15 (by norm_num) (by norm_num) rfl⟩

/-- C21: with `TolerantSizeRatio` 2.5, leader weight 1 on both stores and a region of
approximate size 1, `createOperator` of balance-leader emits no operator exactly
when the influence-adjusted leader size of the source minus that of the target is
not greater than 5.  Floats are read as exact rationals and `shouldBalance` is the
rule pinned by `TestShouldBalance`. -/
theorem balanceLeader_tolerance_of_five
    (d : Deps ℚ) (hops : d.toFloat64Ops = ratOps) (hsb : d.shouldBalance = shouldBalance)
    (region : RegionInfo) (source target : StoreInfo ℚ) (cluster : Cluster ℚ)
    (opInfluence : OpInfluence)
    (hsw : source.LeaderWeight = 1) (htw : target.LeaderWeight = 1)
    (hsize : region.ApproximateSize = 1) (hratio : cluster.GetTolerantSizeRatio = 5 / 2) :
    balanceLeaderScheduler.createOperator d region source target cluster opInfluence = [] ↔
      wrapInt64 (source.LeaderSize + wrapInt64 (opInfluence source.Id).LeaderSize)
        - wrapInt64 (target.LeaderSize + wrapInt64 (opInfluence target.Id).LeaderSize) ≤ 5 := by
  have hrule : balanceLeaderScheduler.leaderRule d region source target cluster opInfluence
        = true ↔
      5 < wrapInt64 (source.LeaderSize + wrapInt64 (opInfluence source.Id).LeaderSize)
        - wrapInt64 (target.LeaderSize + wrapInt64 (opInfluence target.Id).LeaderSize) := by
    unfold balanceLeaderScheduler.leaderRule
    rw [hsb, hops, hsw, htw, hsize, hratio]
    simp only [ratOps]
    rw [shouldBalance_pos _ _ _ one_pos one_pos]
    constructor
    · intro h
      have h' : (5 : ℚ) <
          ((wrapInt64 (source.LeaderSize + wrapInt64 (opInfluence source.Id).LeaderSize) : Int)
            : ℚ)
          - ((wrapInt64 (target.LeaderSize + wrapInt64 (opInfluence target.Id).LeaderSize)
            : Int) : ℚ) := by
        norm_num at h
        linarith
      exact_mod_cast h'
    · intro h
      have h' : (5 : ℚ) <
          ((wrapInt64 (source.LeaderSize + wrapInt64 (opInfluence source.Id).LeaderSize) : Int)
            : ℚ)
          - ((wrapInt64 (target.LeaderSize + wrapInt64 (opInfluence target.Id).LeaderSize)
            : Int) : ℚ) := by
        exact_mod_cast h
      norm_num
      linarith
  rw [balanceLeaderScheduler.createOperator_eq]
  by_cases hr : balanceLeaderScheduler.leaderRule d region source target cluster opInfluence
      = true
  · have := hrule.mp hr
    simp only [hr, if_true]
    constructor
    · intro h
      simp at h
    · intro h
      omega
  · have hn : ¬ 5 < wrapInt64 (source.LeaderSize + wrapInt64 (opInfluence source.Id).LeaderSize)
        - wrapInt64 (target.LeaderSize + wrapInt64 (opInfluence target.Id).LeaderSize) :=
      fun h => hr (hrule.mpr h)
    simp only [hr]
    constructor
    · intro _
      omega
    · intro _
      rfl

/-- C21 at the stores of `TestScheduleWithOpInfluence`: with leader sizes 13 and 8
the difference is 5 and no operator is emitted; with 14 and 7 one is. -/
theorem balanceLeader_tolerance_of_five_witness :
    balanceLeaderScheduler.createOperator mockDeps (mkRegion 1 4 [1, 2, 3]) (mkStore 4 14)
        (mkStore 1 7) influenceCluster noInfluence
      = [NewOperator "balanceLeader" 1 (OpBalance ||| OpLeader)
          [OperatorStep.TransferLeader 4 1]] ∧
    (balanceLeaderScheduler.createOperator mockDeps (mkRegion 1 4 [1, 2, 3]) (mkStore 4 13)
        (mkStore 1 8) influenceCluster noInfluence = [] ↔
      wrapInt64 ((mkStore 4 13).LeaderSize + wrapInt64 (noInfluence (mkStore 4 13).Id).LeaderSize)
        - wrapInt64 ((mkStore 1 8).LeaderSize
          + wrapInt64 (noInfluence (mkStore 1 8).Id).LeaderSize) ≤ 5) ∧
    balanceLeaderScheduler.createOperator mockDeps (mkRegion 1 4 [1, 2, 3]) (mkStore 4 13)
        (mkStore 1 8) influenceCluster noInfluence = [] :=
  ⟨by decide!,
    balanceLeader_tolerance_of_five mockDeps rfl rfl (mkRegion 1 4 [1, 2, 3]) (mkStore 4 13)
      (mkStore 1 8) influenceCluster noInfluence rfl rfl rfl rfl,
    by decide!⟩

/-- C22: `createOperator` of balance-leader decides on influence-adjusted sizes.  Its
result for source and target with pending influences on their leader sizes is its
result for the same stores with the influences added to the leader sizes and no
influence pending. -/
theorem createOperator_decides_on_adjusted_sizes
    (d : Deps F) (region : RegionInfo) (source target : StoreInfo F) (cluster : Cluster F)
    (opInfluence : OpInfluence) :
    balanceLeaderScheduler.createOperator d region source target cluster opInfluence =
      balanceLeaderScheduler.createOperator d region
        { source with LeaderSize := source.LeaderSize + (opInfluence source.Id).LeaderSize }
        { target with LeaderSize := target.LeaderSize + (opInfluence target.Id).LeaderSize }
        cluster noInfluence := by
  simp only [balanceLeaderScheduler.createOperator, noInfluence, wrapInt64_add_wrapInt64,
    wrapInt64_zero, add_zero]

/-- C22 at the stores of `TestScheduleWithOpInfluence`: sizes 14 and 7 with
influences -1 and +1 give the decision for sizes 13 and 8, which is no operator. -/
theorem createOperator_decides_on_adjusted_sizes_witness :
    balanceLeaderScheduler.createOperator mockDeps (mkRegion 1 4 [1, 2, 3]) (mkStore 4 14)
        (mkStore 1 7) influenceCluster transferInfluence
      = balanceLeaderScheduler.createOperator mockDeps (mkRegion 1 4 [1, 2, 3]) (mkStore 4 13)
        (mkStore 1 8) influenceCluster noInfluence ∧
    balanceLeaderScheduler.createOperator mockDeps (mkRegion 1 4 [1, 2, 3]) (mkStore 4 14)
        (mkStore 1 7) influenceCluster transferInfluence = [] ∧
    balanceLeaderScheduler.Schedule mockDeps (leaderScheduler []) influenceCluster
        transferInfluence = ([], { ids := [1, 4] }) :=
  ⟨createOperator_decides_on_adjusted_sizes mockDeps (mkRegion 1 4 [1, 2, 3]) (mkStore 4 14)
      (mkStore 1 7) influenceCluster transferInfluence,
    by decide!, by decide!⟩

/-- C23: the balance-leader `Schedule` never reads through a nil pointer.  Read on
pointers, with every dereference checked, it returns for every cluster view the
result of `Schedule`, and never a fault.  When the store looked up for the leader of
the chosen follower region is not in the cluster, which for a region without leader
is store 0, the transfer-in attempt yields no operator. -/
theorem balanceLeader_never_dereferences_nil
    (d : Deps F) (l : balanceLeaderScheduler F) (cluster : Cluster F)
    (opInfluence : OpInfluence) :
    balanceLeaderPointers.Schedule d l cluster opInfluence
      = .ok (balanceLeaderScheduler.Schedule d l cluster opInfluence) ∧
    (∀ i (target : StoreInfo F) region,
      cluster.RandFollowerRegion i target.Id = some region →
      cluster.GetStore (Peer.GetStoreId region.Leader) = none →
      balanceLeaderPointers.transferLeaderIn d l i (some target) cluster opInfluence
        = .ok []) ∧
    (∀ i (target : StoreInfo F) region,
      cluster.RandFollowerRegion i target.Id = some region →
      region.Leader = none → cluster.GetStore 0 = none →
      balanceLeaderPointers.transferLeaderIn d l i (some target) cluster opInfluence
        = .ok []) := by
  have hin : ∀ i (target : StoreInfo F) region,
      cluster.RandFollowerRegion i target.Id = some region →
      cluster.GetStore (Peer.GetStoreId region.Leader) = none →
      balanceLeaderPointers.transferLeaderIn d l i (some target) cluster opInfluence
        = .ok [] := by
    intro i target region hr hs
    simp only [balanceLeaderPointers.transferLeaderIn, deref, hr, hs]
  refine ⟨ptr_Schedule_ok d l cluster opInfluence, hin, ?_⟩
  intro i target region hr hl h0
  apply hin i target region hr
  rw [hl]
  exact h0

/-- C23 at a cluster whose only region has no leader, and at one whose region is led
from a store the cluster does not know: the transfer-in to store 1 yields no
operator, and `Schedule` ends without fault and without operator. -/
theorem balanceLeader_never_dereferences_nil_witness :
    leaderlessCluster.RandFollowerRegion 0 (mkStore 1 1).Id = some leaderlessRegion ∧
    balanceLeaderPointers.transferLeaderIn mockDeps (leaderScheduler []) 0 (some (mkStore 1 1))
      leaderlessCluster noInfluence = .ok [] ∧
    balanceLeaderPointers.Schedule mockDeps (leaderScheduler []) leaderlessCluster noInfluence
      = .ok ([], { ids := [1, 2] }) ∧
    absentLeaderCluster.GetStore 9 = none ∧
    balanceLeaderPointers.transferLeaderIn mockDeps (leaderScheduler []) 0 (some (mkStore 1 1))
      absentLeaderCluster noInfluence = .ok [] ∧
    balanceLeaderPointers.Schedule mockDeps (leaderScheduler []) absentLeaderCluster noInfluence
      = .ok (balanceLeaderScheduler.Schedule mockDeps (leaderScheduler []) absentLeaderCluster
        noInfluence) :=
  ⟨by decide!,
    (balanceLeader_never_dereferences_nil mockDeps (leaderScheduler []) leaderlessCluster
      noInfluence).2.2 0 (mkStore 1 1) leaderlessRegion (by decide!) rfl (by decide!),
    by decide!, by decide!,
    (balanceLeader_never_dereferences_nil mockDeps (leaderScheduler []) absentLeaderCluster
      noInfluence).2.1 0 (mkStore 1 1) (mkRegion 1 9 [1]) (by decide!) (by decide!),
    (balanceLeader_never_dereferences_nil mockDeps (leaderScheduler []) absentLeaderCluster
      noInfluence).1⟩

/-- C24 fails on the code.  At `strayCluster` the region picked for store 1 has no
peer on store 1, the old peer is nil and its store, looked up as store 0, is not
found; at `missingStoreCluster` the store of the new peer is not found.  In both the
replica checker yields a peer, and `transferPeer`, hence `Schedule`, stops on the
nil store read by line 152 instead of returning an empty result. -/
theorem balanceRegion_missing_store_faults :
    strayRegion.GetStorePeer 1 = none ∧
    strayCluster.GetStore (Peer.GetStoreId (strayRegion.GetStorePeer 1)) = none ∧
    balanceRegionScheduler.replacement mockDeps strayCluster strayRegion
      (strayRegion.GetStorePeer 1) = some { Id := 1004, StoreId := 4 } ∧
    balanceRegionScheduler.transferPeer mockDeps strayCluster strayRegion
      (strayRegion.GetStorePeer 1) noInfluence = .error Fault.nilDereference ∧
    balanceRegionScheduler.Schedule mockDeps (regionScheduler []) strayCluster noInfluence
      = .error Fault.nilDereference ∧
    balanceRegionScheduler.replacement mockDeps missingStoreCluster (mkRegion 1 3 [1])
      (some { Id := 1, StoreId := 1 }) = some { Id := 1002, StoreId := 2 } ∧
    missingStoreCluster.GetStore 2 = none ∧
    balanceRegionScheduler.transferPeer mockDeps missingStoreCluster (mkRegion 1 3 [1])
      (some { Id := 1, StoreId := 1 }) noInfluence = .error Fault.nilDereference ∧
    balanceRegionScheduler.Schedule mockDeps (regionScheduler []) missingStoreCluster
      noInfluence = .error Fault.nilDereference := by
  decide!

/-- C25: in each iteration balance-leader tries transfer-out from the selected source
before transfer-in to the selected target.  If the first transfer-out yields an
operator, `Schedule` returns exactly that; and every operator returned is the
result of the transfer-out of some iteration, or of the transfer-in of an iteration
whose transfer-out yielded none, all attempts of the earlier iterations having
yielded none. -/
theorem balanceLeader_transfer_out_before_in
    (d : Deps F) (l : balanceLeaderScheduler F) (cluster : Cluster F)
    (opInfluence : OpInfluence) (source target : StoreInfo F)
    (hs : l.selector.SelectSource l.taintStores cluster cluster.GetStores = some source)
    (ht : l.selector.SelectTarget l.taintStores cluster cluster.GetStores = some target) :
    (balanceLeaderScheduler.transferLeaderOut d l 0 source cluster opInfluence ≠ [] →
      (balanceLeaderScheduler.Schedule d l cluster opInfluence).1
        = balanceLeaderScheduler.transferLeaderOut d l 0 source cluster opInfluence) ∧
    (∀ op ∈ (balanceLeaderScheduler.Schedule d l cluster opInfluence).1,
      ∃ j, j < balanceLeaderRetryLimit ∧
        (∀ k, k < j →
          balanceLeaderScheduler.transferLeaderOut d l k source cluster opInfluence = [] ∧
          balanceLeaderScheduler.transferLeaderIn d l k target cluster opInfluence = []) ∧
        (balanceLeaderScheduler.transferLeaderOut d l j source cluster opInfluence = [op] ∨
          (balanceLeaderScheduler.transferLeaderOut d l j source cluster opInfluence = [] ∧
            balanceLeaderScheduler.transferLeaderIn d l j target cluster opInfluence
              = [op]))) := by
  constructor
  · intro hne
    cases hout : balanceLeaderScheduler.transferLeaderOut d l 0 source cluster opInfluence with
    | nil => exact absurd hout hne
    | cons op ops =>
      simp [balanceLeaderScheduler.Schedule, hs, ht, balanceLeaderRetryLimit,
        balanceLeaderScheduler.retry, hout]
  · intro op hop
    obtain ⟨_, source', target', j, hs', ht', hj, hbefore, hcase⟩ :=
      balanceLeaderScheduler.leader_Schedule_mem hop
    rw [hs] at hs'
    rw [ht] at ht'
    simp only [Option.some.injEq] at hs' ht'
    subst hs' ht'
    exact ⟨j, hj, hbefore, hcase⟩

/-- C25 at the two clusters of `TestBalanceSelector`: with sizes 1, 2, 3 and 16 the
first transfer-out yields the transfer from store 4 to store 2, which is returned;
with sizes 1, 14, 15 and 16 it yields none and the transfer-in from store 3 to
store 1 is returned. -/
theorem balanceLeader_transfer_out_before_in_witness :
    (balanceLeaderScheduler.Schedule mockDeps (leaderScheduler []) transferOutCluster
        noInfluence).1
      = [NewOperator "balanceLeader" 1 (OpBalance ||| OpLeader)
          [OperatorStep.TransferLeader 4 2]] ∧
    (balanceLeaderScheduler.Schedule mockDeps (leaderScheduler []) transferOutCluster
        noInfluence).1
      = balanceLeaderScheduler.transferLeaderOut mockDeps (leaderScheduler []) 0 (mkStore 4 16)
        transferOutCluster noInfluence ∧
    balanceLeaderScheduler.transferLeaderOut mockDeps (leaderScheduler []) 0 (mkStore 4 16)
      transferInCluster noInfluence = [] ∧
    balanceLeaderScheduler.transferLeaderIn mockDeps (leaderScheduler []) 0 (mkStore 1 1)
        transferInCluster noInfluence
      = [NewOperator "balanceLeader" 2 (OpBalance ||| OpLeader)
          [OperatorStep.TransferLeader 3 1]] ∧
    (balanceLeaderScheduler.Schedule mockDeps (leaderScheduler []) transferInCluster
        noInfluence).1
      = [NewOperator "balanceLeader" 2 (OpBalance ||| OpLeader)
          [OperatorStep.TransferLeader 3 1]] :=
  ⟨by decide!,
    (balanceLeader_transfer_out_before_in mockDeps (leaderScheduler []) transferOutCluster
      noInfluence (mkStore 4 16) (mkStore 1 1) (by decide!) (by decide!)).1 (by decide!),
    by decide!, by decide!, by decide!⟩

/-- C26: in an attempt of balance-region, when `RandFollowerRegion(source)` returns a
region, that region is the candidate, whatever `RandLeaderRegion` answers, and the
attempt is the examination of that region; a leader region is the candidate only
when the cluster offers no follower region. -/
theorem balanceRegion_follower_region_first
    (d : Deps F) (source : StoreInfo F) (cluster : Cluster F) (opInfluence : OpInfluence)
    (i : Nat) :
    (∀ r, cluster.RandFollowerRegion i source.Id = some r →
      balanceRegionScheduler.pickRegion cluster i source.Id = some r ∧
      (∀ leaderPick : Nat → Nat → Option RegionInfo,
        balanceRegionScheduler.pickRegion
          { cluster with RandLeaderRegion := leaderPick } i source.Id = some r) ∧
      balanceRegionScheduler.attempt d source cluster opInfluence i
        = balanceRegionScheduler.examine d source cluster opInfluence r) ∧
    (cluster.RandFollowerRegion i source.Id = none →
      balanceRegionScheduler.pickRegion cluster i source.Id
        = cluster.RandLeaderRegion i source.Id) := by
  constructor
  · intro r hr
    have hpick : balanceRegionScheduler.pickRegion cluster i source.Id = some r := by
      simp [balanceRegionScheduler.pickRegion, hr]
    refine ⟨hpick, ?_, ?_⟩
    · intro leaderPick
      simp [balanceRegionScheduler.pickRegion, hr]
    · rw [attempt_eq_examine, hpick]
  · intro hnone
    simp [balanceRegionScheduler.pickRegion, hnone]

/-- C26 at `twoRegionCluster`: for store 1 the cluster offers region 2 as follower
region and region 1 as leader region; the candidate is region 2 and the operator of
the attempt moves the peer of region 2. -/
theorem balanceRegion_follower_region_first_witness :
    twoRegionCluster.RandFollowerRegion 0 (mkStore 1 16).Id = some (mkRegion 2 3 [1]) ∧
    twoRegionCluster.RandLeaderRegion 0 (mkStore 1 16).Id = some (mkRegion 1 1 [3]) ∧
    balanceRegionScheduler.pickRegion twoRegionCluster 0 (mkStore 1 16).Id
      = some (mkRegion 2 3 [1]) ∧
    balanceRegionScheduler.attempt mockDeps (mkStore 1 16) twoRegionCluster noInfluence 0
      = balanceRegionScheduler.examine mockDeps (mkStore 1 16) twoRegionCluster noInfluence
        (mkRegion 2 3 [1]) ∧
    balanceRegionScheduler.attempt mockDeps (mkStore 1 16) twoRegionCluster noInfluence 0
      = .ok (some (NewOperator "balance-region" 2 (OpBalance ||| OpRegion)
          [OperatorStep.AddPeer 2 1002, OperatorStep.RemovePeer 1])) :=
  ⟨by decide!, by decide!,
    ((balanceRegion_follower_region_first mockDeps (mkStore 1 16) twoRegionCluster noInfluence
      0).1 (mkRegion 2 3 [1]) (by decide!)).1,
    ((balanceRegion_follower_region_first mockDeps (mkStore 1 16) twoRegionCluster noInfluence
      0).1 (mkRegion 2 3 [1]) (by decide!)).2.2,
    by decide!⟩

/-- C27: `Schedule` ends within a fixed retry budget, whatever the cluster, the
selector and the other collaborators answer.  Both methods are total functions of the
answers they get.  Read with a tally of its calls, the balance-leader `Schedule`
returns exactly what `Schedule` returns and has made at most 10 calls of
`transferLeaderOut` and at most 10 of `transferLeaderIn`; the balance-region
`Schedule` returns exactly what `Schedule` returns and has examined at most 10
candidate regions.  What either `Schedule` returns is settled by the attempts of
iterations 0 to 9 alone: once its stores are selected it comes back empty-handed
exactly when these ten are fruitless, whatever an eleventh would yield. -/
theorem Schedule_within_retry_budget
    (d : Deps F) (l : balanceLeaderScheduler F) (s : balanceRegionScheduler F)
    (cluster : Cluster F) (opInfluence : OpInfluence) :
    ((balanceLeaderCounted.Schedule d l cluster opInfluence).1
        = balanceLeaderScheduler.Schedule d l cluster opInfluence ∧
      (balanceLeaderCounted.Schedule d l cluster opInfluence).2.transferLeaderOut ≤ 10 ∧
      (balanceLeaderCounted.Schedule d l cluster opInfluence).2.transferLeaderIn ≤ 10) ∧
    ((balanceRegionCounted.Schedule d s cluster opInfluence).1
        = balanceRegionScheduler.Schedule d s cluster opInfluence ∧
      (balanceRegionCounted.Schedule d s cluster opInfluence).2 ≤ 10) ∧
    (∀ source target,
      l.selector.SelectSource l.taintStores cluster cluster.GetStores = some source →
      l.selector.SelectTarget l.taintStores cluster cluster.GetStores = some target →
      ((balanceLeaderScheduler.Schedule d l cluster opInfluence).1 = [] ↔
        ∀ j, j < 10 →
          balanceLeaderScheduler.transferLeaderOut d l j source cluster opInfluence = [] ∧
          balanceLeaderScheduler.transferLeaderIn d l j target cluster opInfluence = [])) ∧
    (∀ source,
      s.selector.SelectSource s.taintStores cluster cluster.GetStores = some source →
      (balanceRegionScheduler.Schedule d s cluster opInfluence
          = .ok ([], s.taintStores.Put source.Id) ↔
        ∀ j, j < 10 →
          balanceRegionScheduler.attempt d source cluster opInfluence j = .ok none)) := by
  refine ⟨counted_leader_Schedule d l cluster opInfluence,
    counted_region_Schedule d s cluster opInfluence, ?_, ?_⟩
  · intro source target hs ht
    rcases balanceLeaderScheduler.leader_Schedule_cases d l cluster opInfluence with
      ⟨hnone, _⟩ | ⟨source', target', hs', ht', hcase⟩
    · rcases hnone with h | h
      · rw [hs] at h
        exact absurd h (by simp)
      · rw [ht] at h
        exact absurd h (by simp)
    · rw [hs] at hs'
      rw [ht] at ht'
      cases hs'
      cases ht'
      rcases balanceLeaderScheduler.leader_retry_cases d l source target cluster opInfluence
          balanceLeaderRetryLimit 0 with ⟨h0, hall⟩ | ⟨j, _, hj2, _, hj⟩
      · rcases hcase with ⟨_, hS⟩ | ⟨hne, _⟩
        · constructor
          · intro _ j hj
            exact hall j (Nat.zero_le _) (by unfold balanceLeaderRetryLimit; omega)
          · intro _
            rw [hS]
        · exact absurd h0 hne
      · have hj10 : j < 10 := by
          unfold balanceLeaderRetryLimit at hj2
          omega
        have hne : balanceLeaderScheduler.retry d l source target cluster opInfluence
            balanceLeaderRetryLimit 0 ≠ [] := by
          rcases hj with ⟨hne, heq⟩ | ⟨_, hne, heq⟩
          · rw [heq]
            exact hne
          · rw [heq]
            exact hne
        rcases hcase with ⟨h0, _⟩ | ⟨_, hS⟩
        · exact absurd h0 hne
        · constructor
          · intro hempty
            rw [hS] at hempty
            exact absurd hempty hne
          · intro hall
            rcases hj with ⟨hne', _⟩ | ⟨_, hne', _⟩
            · exact absurd (hall j hj10).1 hne'
            · exact absurd (hall j hj10).2 hne'
  · intro source hs
    constructor
    · intro hS
      rcases balanceRegionScheduler.region_retry_cases d source cluster opInfluence
          balanceRegionRetryLimit 0 with ⟨_, hall⟩ | ⟨j, _, _, _, hne, hj⟩
      · intro j hj
        exact hall j (Nat.zero_le _) (by unfold balanceRegionRetryLimit; omega)
      · simp only [balanceRegionScheduler.Schedule, hs, hj] at hS
        cases ha : balanceRegionScheduler.attempt d source cluster opInfluence j with
        | error e =>
          rw [ha] at hS
          simp at hS
        | ok r =>
          cases r with
          | none => exact absurd ha hne
          | some op =>
            rw [ha] at hS
            simp at hS
    · intro hall
      exact balanceRegionScheduler.region_Schedule_of_none hs (fun i hi =>
        hall i (by unfold balanceRegionRetryLimit at hi; omega))

/-- C27 at `stuckCluster` and `fullCluster`, where no attempt yields an operator: the
budget is used up, with ten calls of each kind and ten regions examined before the
stores are tainted; at `filterCluster` the first transfer-out yields the operator and
no other call is made. -/
theorem Schedule_within_retry_budget_witness :
    balanceLeaderCounted.Schedule mockDeps (leaderScheduler []) stuckCluster noInfluence
      = (([], { ids := [1, 4] }), { transferLeaderOut := 10, transferLeaderIn := 10 }) ∧
    balanceRegionCounted.Schedule mockDeps (regionScheduler []) fullCluster noInfluence
      = (.ok ([], { ids := [1] }), 10) ∧
    (balanceLeaderCounted.Schedule mockDeps (leaderScheduler []) filterCluster noInfluence).2
      = { transferLeaderOut := 1, transferLeaderIn := 0 } ∧
    ((balanceLeaderCounted.Schedule mockDeps (leaderScheduler []) stuckCluster noInfluence).1
        = balanceLeaderScheduler.Schedule mockDeps (leaderScheduler []) stuckCluster
          noInfluence ∧
      (balanceLeaderCounted.Schedule mockDeps (leaderScheduler []) stuckCluster
        noInfluence).2.transferLeaderOut ≤ 10 ∧
      (balanceLeaderCounted.Schedule mockDeps (leaderScheduler []) stuckCluster
        noInfluence).2.transferLeaderIn ≤ 10) ∧
    ((balanceRegionCounted.Schedule mockDeps (regionScheduler []) fullCluster noInfluence).1
        = balanceRegionScheduler.Schedule mockDeps (regionScheduler []) fullCluster
          noInfluence ∧
      (balanceRegionCounted.Schedule mockDeps (regionScheduler []) fullCluster
        noInfluence).2 ≤ 10) ∧
    (∀ j, j < 10 →
      balanceLeaderScheduler.transferLeaderOut mockDeps (leaderScheduler []) j (mkStore 4 16)
        stuckCluster noInfluence = [] ∧
      balanceLeaderScheduler.transferLeaderIn mockDeps (leaderScheduler []) j (mkStore 1 1)
        stuckCluster noInfluence = []) :=
  ⟨by decide!, by decide!, by decide!,
    (Schedule_within_retry_budget mockDeps (leaderScheduler []) (regionScheduler [])
      stuckCluster noInfluence).1,
    (Schedule_within_retry_budget mockDeps (leaderScheduler []) (regionScheduler [])
      fullCluster noInfluence).2.1,
    ((Schedule_within_retry_budget mockDeps (leaderScheduler []) (regionScheduler [])
      stuckCluster noInfluence).2.2.1 (mkStore 4 16) (mkStore 1 1) (by decide!)
      (by decide!)).mp (by decide!)⟩

/-- C28: every operator that balance-leader returns is created for the id of the
region, offered by the cluster, whose leader it transfers, and carries exactly the
kind flags Balance and Leader. -/
theorem balanceLeader_operator_region_and_kind
    (d : Deps F) (l : balanceLeaderScheduler F) (cluster : Cluster F)
    (opInfluence : OpInfluence) (op : Operator)
    (hop : op ∈ (balanceLeaderScheduler.Schedule d l cluster opInfluence).1) :
    op.kind = OpBalance ||| OpLeader ∧
    ∃ (r : RegionInfo) (toStore : Nat),
      (∃ i id, cluster.RandLeaderRegion i id = some r ∨
        cluster.RandFollowerRegion i id = some r) ∧
      op.regionID = r.Id ∧
      op.steps = [OperatorStep.TransferLeader (Peer.GetStoreId r.Leader) toStore] := by
  obtain ⟨_, source, target, j, _, _, _, _, hj⟩ :=
    balanceLeaderScheduler.leader_Schedule_mem hop
  rcases hj with hout | ⟨_, hin⟩
  · have hmem : op ∈ balanceLeaderScheduler.transferLeaderOut d l j source cluster
        opInfluence := by
      rw [hout]
      simp
    obtain ⟨region, target', hr, _, hc⟩ := balanceLeaderScheduler.mem_transferLeaderOut hmem
    obtain ⟨_, hopeq⟩ := balanceLeaderScheduler.mem_createOperator hc
    rw [hopeq]
    exact ⟨rfl, region, target'.Id, ⟨j, source.Id, Or.inl hr⟩, rfl, rfl⟩
  · have hmem : op ∈ balanceLeaderScheduler.transferLeaderIn d l j target cluster
        opInfluence := by
      rw [hin]
      simp
    obtain ⟨region, source', hr, _, hc⟩ := balanceLeaderScheduler.mem_transferLeaderIn hmem
    obtain ⟨_, hopeq⟩ := balanceLeaderScheduler.mem_createOperator hc
    rw [hopeq]
    exact ⟨rfl, region, target.Id, ⟨j, target.Id, Or.inr hr⟩, rfl, rfl⟩

/-- C28 at the cluster of `TestBalanceFilter`: the operator returned is for region 1,
whose leader is on store 4, and its kind is Balance and Leader, without the flag
Region. -/
theorem balanceLeader_operator_region_and_kind_witness :
    (NewOperator "balanceLeader" 1 (OpBalance ||| OpLeader)
      [OperatorStep.TransferLeader 4 1]).kind &&& OpRegion = 0 ∧
    ((NewOperator "balanceLeader" 1 (OpBalance ||| OpLeader)
      [OperatorStep.TransferLeader 4 1]).kind = OpBalance ||| OpLeader ∧
    ∃ (r : RegionInfo) (toStore : Nat),
      (∃ i id, filterCluster.RandLeaderRegion i id = some r ∨
        filterCluster.RandFollowerRegion i id = some r) ∧
      (NewOperator "balanceLeader" 1 (OpBalance ||| OpLeader)
        [OperatorStep.TransferLeader 4 1]).regionID = r.Id ∧
      (NewOperator "balanceLeader" 1 (OpBalance ||| OpLeader)
        [OperatorStep.TransferLeader 4 1]).steps
          = [OperatorStep.TransferLeader (Peer.GetStoreId r.Leader) toStore]) :=
  ⟨by decide,
    balanceLeader_operator_region_and_kind mockDeps (leaderScheduler []) filterCluster
      noInfluence _ (by decide!)⟩

/-- C29: every operator that the balance-leader `Schedule` returns involves one of
the two stores selected at the start of the call.  It is the result of a
transfer-out and its FromStore is the selected source (`RandLeaderRegion(s)`
returning a region led from `s`), or it is the result of a transfer-in and its
ToStore is the selected target. -/
theorem balanceLeader_operator_involves_selected_store
    (d : Deps F) (l : balanceLeaderScheduler F) (cluster : Cluster F)
    (opInfluence : OpInfluence) (hled : cluster.LeaderPicksLed) (op : Operator)
    (hop : op ∈ (balanceLeaderScheduler.Schedule d l cluster opInfluence).1) :
    ∃ (source target : StoreInfo F) (fromStore toStore j : Nat),
      l.selector.SelectSource l.taintStores cluster cluster.GetStores = some source ∧
      l.selector.SelectTarget l.taintStores cluster cluster.GetStores = some target ∧
      op.steps = [OperatorStep.TransferLeader fromStore toStore] ∧
      ((balanceLeaderScheduler.transferLeaderOut d l j source cluster opInfluence = [op] ∧
          fromStore = source.Id) ∨
        (balanceLeaderScheduler.transferLeaderIn d l j target cluster opInfluence = [op] ∧
          toStore = target.Id)) := by
  obtain ⟨_, source, target, j, hs, ht, _, _, hj⟩ :=
    balanceLeaderScheduler.leader_Schedule_mem hop
  rcases hj with hout | ⟨_, hin⟩
  · have hmem : op ∈ balanceLeaderScheduler.transferLeaderOut d l j source cluster
        opInfluence := by
      rw [hout]
      simp
    obtain ⟨region, target', hr, _, hc⟩ := balanceLeaderScheduler.mem_transferLeaderOut hmem
    obtain ⟨_, hopeq⟩ := balanceLeaderScheduler.mem_createOperator hc
    obtain ⟨p, hp, hps⟩ := hled j source.Id region hr
    refine ⟨source, target, source.Id, target'.Id, j, hs, ht, ?_, Or.inl ⟨hout, rfl⟩⟩
    rw [hopeq]
    simp [balanceLeaderScheduler.leaderOperator, NewOperator, hp, Peer.GetStoreId, hps]
  · have hmem : op ∈ balanceLeaderScheduler.transferLeaderIn d l j target cluster
        opInfluence := by
      rw [hin]
      simp
    obtain ⟨region, source', _, _, hc⟩ := balanceLeaderScheduler.mem_transferLeaderIn hmem
    obtain ⟨_, hopeq⟩ := balanceLeaderScheduler.mem_createOperator hc
    refine ⟨source, target, Peer.GetStoreId region.Leader, target.Id, j, hs, ht, ?_,
      Or.inr ⟨hin, rfl⟩⟩
    rw [hopeq]
    rfl

/-- C29 at the second cluster of `TestBalanceSelector`: store 4 is the selected source
and store 1 the selected target; the operator returned goes to store 1 and comes
from store 3, which is not the selected source. -/
theorem balanceLeader_operator_involves_selected_store_witness :
    (leaderScheduler []).selector.SelectSource (leaderScheduler []).taintStores
      transferInCluster transferInCluster.GetStores = some (mkStore 4 16) ∧
    (balanceLeaderScheduler.Schedule mockDeps (leaderScheduler []) transferInCluster
        noInfluence).1
      = [NewOperator "balanceLeader" 2 (OpBalance ||| OpLeader)
          [OperatorStep.TransferLeader 3 1]] ∧
    (3 : Nat) ≠ (mkStore 4 16).Id ∧
    ∃ (source target : StoreInfo ℚ) (fromStore toStore j : Nat),
      (leaderScheduler []).selector.SelectSource (leaderScheduler []).taintStores
        transferInCluster transferInCluster.GetStores = some source ∧
      (leaderScheduler []).selector.SelectTarget (leaderScheduler []).taintStores
        transferInCluster transferInCluster.GetStores = some target ∧
      (NewOperator "balanceLeader" 2 (OpBalance ||| OpLeader)
        [OperatorStep.TransferLeader 3 1]).steps
          = [OperatorStep.TransferLeader fromStore toStore] ∧
      ((balanceLeaderScheduler.transferLeaderOut mockDeps (leaderScheduler []) j source
            transferInCluster noInfluence
          = [NewOperator "balanceLeader" 2 (OpBalance ||| OpLeader)
              [OperatorStep.TransferLeader 3 1]] ∧
          fromStore = source.Id) ∨
        (balanceLeaderScheduler.transferLeaderIn mockDeps (leaderScheduler []) j target
            transferInCluster noInfluence
          = [NewOperator "balanceLeader" 2 (OpBalance ||| OpLeader)
              [OperatorStep.TransferLeader 3 1]] ∧
          toStore = target.Id)) :=
  ⟨by decide!, by decide!, by decide,
    balanceLeader_operator_involves_selected_store mockDeps (leaderScheduler [])
      transferInCluster noInfluence (mockCluster_leaderPicksLed _ _ _) _ (by decide!)⟩

/-- C30: `Schedule` leaves the taint cache as it was whenever it returns an operator,
for balance-leader and for balance-region; the cache changes only when nothing is
returned. -/
theorem Schedule_with_operator_keeps_taint
    (d : Deps F) (l : balanceLeaderScheduler F) (s : balanceRegionScheduler F)
    (cluster : Cluster F) (opInfluence : OpInfluence) :
    ((balanceLeaderScheduler.Schedule d l cluster opInfluence).1 ≠ [] →
      (balanceLeaderScheduler.Schedule d l cluster opInfluence).2 = l.taintStores) ∧
    (∀ ops taint,
      balanceRegionScheduler.Schedule d s cluster opInfluence = .ok (ops, taint) → ops ≠ [] →
      taint = s.taintStores) := by
  constructor
  · intro hne
    cases hops : (balanceLeaderScheduler.Schedule d l cluster opInfluence).1 with
    | nil => exact absurd hops hne
    | cons op ops =>
      have hop : op ∈ (balanceLeaderScheduler.Schedule d l cluster opInfluence).1 := by
        rw [hops]
        simp
      rw [(balanceLeaderScheduler.leader_Schedule_mem hop).1]
  · intro ops taint h hne
    cases ops with
    | nil => exact absurd rfl hne
    | cons op ops =>
      exact (balanceRegionScheduler.region_Schedule_mem h (List.mem_cons_self op ops)).2.1

/-- C30 at `twoRegionCluster`: with store 2 tainted balance-leader returns an
operator and the cache still holds store 2 alone; with store 3 tainted the same for
balance-region. -/
theorem Schedule_with_operator_keeps_taint_witness :
    balanceLeaderScheduler.Schedule mockDeps (leaderScheduler [2]) twoRegionCluster
        noInfluence
      = ([NewOperator "balanceLeader" 1 (OpBalance ||| OpLeader)
          [OperatorStep.TransferLeader 1 3]], { ids := [2] }) ∧
    (balanceLeaderScheduler.Schedule mockDeps (leaderScheduler [2]) twoRegionCluster
      noInfluence).2 = (leaderScheduler [2]).taintStores ∧
    ({ ids := [3] } : TaintCache) = (regionScheduler [3]).taintStores :=
  ⟨by decide!,
    (Schedule_with_operator_keeps_taint mockDeps (leaderScheduler [2]) (regionScheduler [3])
      twoRegionCluster noInfluence).1 (by decide!),
    (Schedule_with_operator_keeps_taint mockDeps (leaderScheduler [2]) (regionScheduler [3])
      twoRegionCluster noInfluence).2
      [NewOperator "balance-region" 2 (OpBalance ||| OpRegion)
        [OperatorStep.AddPeer 2 1002, OperatorStep.RemovePeer 1]] { ids := [3] }
      (by decide!) (by simp)⟩

end Claims

end PD
